import Mathlib

/-!
# Script console of AllJoyn.js (`ajs_console.c`): a shallow embedding

The console module is a message handler running on top of three external
libraries: the AllJoyn thin-client bus (`AJ_UnmarshalRaw`, `AJ_DeliverMsg`, ...),
its non-volatile storage (`AJ_NVRAM_*`) and the Duktape engine (`duk_*`).
None of them belongs to the module.  Their behaviour during one handler
invocation is an explicit input: the message carries the outcomes of the
successive `AJ_UnmarshalRaw` calls, and an environment record `Env` answers
every other external call.  A handler maps the module's static variables and
the storage contents to a returned status, the new state and the list of
external calls it made, in order.

The file also embeds the lookup of `ajs_extstr.c`: the table `sortedWords` as
lists of bytes and the binary search of `AJS_ExternalStringCheck` over it.

A handler yields `none` in exactly three situations, none of which is a
return of the C function: the message's list of read outcomes is used up
while the handler still asks for bytes (the handler is still waiting), the
handler would read or write outside a C object (a length word copied from a
read that exposed fewer than four bytes, a chunk larger than the rest of
the eval buffer, a frame longer than its allocation, a retrieval longer
than the payload record), or it would dereference a null pointer.
-/

namespace AJS

/-- One octet, kept as a natural number; the codec reduces modulo 256 where a value is formed. -/
abbrev Byte := Nat

/-- Status codes of the bus library that the module names, and any other code. -/
inductive AJ_Status
  | AJ_OK
  | AJ_ERR_RESOURCES
  | AJ_ERR_RESTART_APP
  | AJ_ERR_NO_MATCH
  | AJ_ERR_BUSY
  | AJ_ERR_UNEXPECTED
  | other (code : Nat)
  deriving DecidableEq, Repr

/-- Byte order tag of a message header, and of the host. -/
inductive Endian
  | little
  | big
  deriving DecidableEq, Repr

/-- The three engine states, `typedef enum { ... } EngineState`. -/
inductive EngineState
  | ENGINE_RUNNING
  | ENGINE_CLEAN
  | ENGINE_DIRTY
  deriving DecidableEq, Repr

/-- The three storage keys the module uses. -/
inductive NvId
  | AJS_SCRIPT_NAME_NVRAM_ID
  | AJS_SCRIPT_NVRAM_ID
  | AJS_SCRIPT_SIZE_ID
  deriving DecidableEq, Repr

/-- Open mode of a storage record, the strings "w" and "r". -/
inductive NvMode
  | w
  | r
  deriving DecidableEq, Repr

/-- Contents of the three records; `none` is an absent key. -/
structure Nvram where
  name : Option (List Byte)
  script : Option (List Byte)
  size : Option (List Byte)
  deriving DecidableEq, Repr

/-- Reply codes for the eval and install methods. -/
def SCRIPT_OK : Nat := 0
/-- Reply code: script did not compile. -/
def SCRIPT_SYNTAX_ERROR : Nat := 1
/-- Reply code: script compiled but did not run. -/
def SCRIPT_EVAL_ERROR : Nat := 2
/-- Reply code: insufficient resources. -/
def SCRIPT_RESOURCE_ERROR : Nat := 3
/-- Reply code: reset required before a script can be installed. -/
def SCRIPT_NEED_RESET_ERROR : Nat := 4
/-- Reply code: an undiagnosed internal error. -/
def SCRIPT_INTERNAL_ERROR : Nat := 5
/-- Reply code: the debugger was started. -/
def SCRIPT_DEBUG_STARTED : Nat := 6
/-- Reply code: the debugger was stopped. -/
def SCRIPT_DEBUG_STOPPED : Nat := 7

/-- The constant `MAX_EVAL_LEN`. -/
def MAX_EVAL_LEN : Nat := 1024

/-- The constant `SCRIPT_CONSOLE_PORT`. -/
def SCRIPT_CONSOLE_PORT : Nat := 7714

/-- Capacity of `consoleBusName`, `sizeof(consoleBusName)`. -/
def CONSOLE_BUS_NAME_SIZE : Nat := 16

/-- One marshalled argument of a reply. -/
inductive Arg
  | y (v : Nat)
  | u (v : Nat)
  | s (txt : String)
  deriving DecidableEq, Repr

/-- A message handed to `AJ_DeliverMsg`: a method reply with its arguments, a status
message, or a reply whose body was marshalled raw. -/
inductive Reply
  | method (args : List Arg)
  | status (st : AJ_Status)
  | raw (body : List Byte)
  deriving DecidableEq, Repr

/-- Outcome of one `AJ_UnmarshalRaw` call: its status and the bytes it exposed
(`*actual` is the length of `chunk`). -/
structure RawRead where
  status : AJ_Status
  chunk : List Byte
  deriving DecidableEq, Repr

/-- Message identifiers the handler switches on; `other` is any identifier without a case. -/
inductive MsgId
  | AJ_METHOD_ACCEPT_SESSION
  | AJ_SIGNAL_SESSION_LOST_WITH_REASON
  | GET_PROP_MSGID
  | SET_PROP_MSGID
  | INSTALL_MSGID
  | RESET_MSGID
  | REBOOT_MSGID
  | EVAL_MSGID
  | DBG_BEGIN_MSGID
  | DBG_END_MSGID
  | DBG_GETSCRIPT_MSGID
  | DBG_PAUSE_MSGID
  | DBG_ADDBREAK_MSGID
  | DBG_BASIC_MSGID
  | DBG_TRIGGER_MSGID
  | DBG_RESUME_MSGID
  | DBG_STEPIN_MSGID
  | DBG_STEPOVER_MSGID
  | DBG_STEPOUT_MSGID
  | DBG_LISTBREAK_MSGID
  | DBG_DELBREAK_MSGID
  | DBG_GETVAR_MSGID
  | DBG_PUTVAR_MSGID
  | DBG_GETCALL_MSGID
  | DBG_GETLOCALS_MSGID
  | DBG_DUMPHEAP_MSGID
  | DBG_VERSION_MSGID
  | DBG_DETACH_MSGID
  | other (id : Nat)
  deriving DecidableEq, Repr

/-- Property identifiers of the console interface. -/
inductive PropId
  | SCRIPT_ENGINE_PROP
  | MAX_EVAL_LEN_PROP
  | MAX_SCRIPT_LEN_PROP
  | other (id : Nat)
  deriving DecidableEq, Repr

/-- An inbound message as the handler sees it: identifier, header byte order, what
`AJ_UnmarshalArgs` yields for it (status and the decoded arguments by wire type), the
property a property call addresses, and the outcomes of successive raw reads. -/
structure AJ_Message where
  msgId : MsgId
  endianess : Endian
  argStatus : AJ_Status
  argS : List Byte
  argY : Nat
  argQ : Nat
  argU : Nat
  propId : PropId
  raw : List RawRead
  deriving DecidableEq, Repr

/-- External calls a handler makes, with the results that steer the handler. -/
inductive Event
  | unmarshalArgs (sig : String) (status : AJ_Status)
  | unmarshalRaw (len : Nat) (status : AJ_Status)
  | resetArgs (status : AJ_Status)
  | nvOpen (id : NvId) (mode : NvMode) (capacity : Nat) (opened : Bool)
  | nvWrite (ds : Option NvId) (size : Nat) (ret : Option Nat)
  | nvRead (ds : NvId) (size : Nat)
  | nvPeek (ds : NvId)
  | nvClose (ds : NvId)
  | nvDelete (id : NvId)
  | deliver (reply : Reply)
  | acceptSession (accept : Bool)
  | compile (src : List Byte)
  | pcall
  | setWatchdog
  | clearWatchdog
  | enableWatchdog
  | disableWatchdog
  | attach
  | detach
  | reboot
  deriving DecidableEq, Repr

/-- Result codes of the engine that `EvalReply` switches on.  Their values come from the
engine's header, which is not part of the module. -/
structure DukCodes where
  DUK_EXEC_SUCCESS : Int
  DUK_RET_EVAL_ERROR : Int
  DUK_RET_TYPE_ERROR : Int
  DUK_RET_RANGE_ERROR : Int
  DUK_RET_SYNTAX_ERROR : Int
  DUK_RET_ALLOC_ERROR : Int
  deriving DecidableEq, Repr

/-- The case labels of the switch in `EvalReply` are pairwise different constants (C
rejects a switch with a repeated label). -/
def DukCodes.Distinct (c : DukCodes) : Prop :=
  [c.DUK_EXEC_SUCCESS, c.DUK_RET_EVAL_ERROR, c.DUK_RET_TYPE_ERROR, c.DUK_RET_RANGE_ERROR,
    c.DUK_RET_SYNTAX_ERROR, c.DUK_RET_ALLOC_ERROR].Nodup

instance (c : DukCodes) : Decidable c.Distinct := by
  unfold DukCodes.Distinct
  infer_instance

/-- The values Duktape 1.x gives the result codes (`DUK_EXEC_ERROR` is 1). -/
def duktape1 : DukCodes :=
  { DUK_EXEC_SUCCESS := 0
    DUK_RET_EVAL_ERROR := -101
    DUK_RET_TYPE_ERROR := -105
    DUK_RET_RANGE_ERROR := -102
    DUK_RET_SYNTAX_ERROR := -104
    DUK_RET_ALLOC_ERROR := -53 }

/-- What a protected engine call leaves behind: its return value and the string that
`duk_to_string(ctx, -1)` then finds on top of the value stack. -/
structure DukResult where
  retval : Int
  top : String
  deriving DecidableEq, Repr

/-- The input buffer of the debugger: its capacity and the bytes between `bufStart`
and `writePtr`. -/
structure AJ_IOBuffer where
  bufSize : Nat
  written : List Byte
  deriving DecidableEq, Repr

/-- The fields of `AJS_DebuggerState` the console touches. -/
structure AJS_DebuggerState where
  read : AJ_IOBuffer
  lastMsg : Option AJ_Message
  lastMsgType : Nat
  deriving DecidableEq, Repr

/-- The module's static variables together with the storage contents. -/
structure State where
  engineState : EngineState
  consoleSession : Nat
  consoleBusName : List Byte
  scriptSize : Nat
  debuggerStarted : Bool
  debugQuiet : Bool
  dbgState : Option AJS_DebuggerState
  nvram : Nvram
  deriving DecidableEq, Repr

/-- Answers of the outside world during one handler invocation. -/
structure Env where
  /-- byte order of the host -/
  AJ_NATIVE_ENDIAN : Endian
  /-- result codes of the engine -/
  duk : DukCodes
  /-- whether `AJ_Malloc(n)` returns a non-null pointer -/
  AJ_Malloc : Nat → Bool
  /-- free capacity the storage reports for given contents (an unsigned 32-bit value) -/
  AJ_NVRAM_GetSizeRemaining : Nvram → Nat
  /-- whether `AJ_NVRAM_Open` yields a handle -/
  nvOpen : NvId → NvMode → Bool
  /-- byte count `AJ_NVRAM_Write` reports for a record holding `cur` bytes and a request of `size` -/
  nvWrite : NvId → (cur : Nat) → (size : Nat) → Nat
  /-- status of `AJ_DeliverMsg` -/
  AJ_DeliverMsg : Reply → AJ_Status
  /-- status of `AJ_MarshalReplyMsg` where the handler tests it -/
  AJ_MarshalReplyMsg : AJ_Status
  /-- status of the partial delivery call for a body of the given size -/
  deliverBody : Nat → AJ_Status
  /-- status of the n-th `AJ_MarshalRaw` call -/
  AJ_MarshalRaw : Nat → AJ_Status
  /-- status of `AJ_MarshalArgs` where the handler returns it -/
  AJ_MarshalArgs : List Arg → AJ_Status
  /-- status of `AJ_ResetArgs` -/
  AJ_ResetArgs : AJ_Status
  /-- status of `AJ_BusReplyAcceptSession` -/
  AJ_BusReplyAcceptSession : Bool → AJ_Status
  /-- protected compilation of a source text -/
  duk_pcompile : List Byte → DukResult
  /-- protected call of the unit compiled from a source text -/
  duk_pcall : List Byte → DukResult
  /-- the debugger state `AJS_InitDebugger` returns -/
  AJS_InitDebugger : Option AJS_DebuggerState
  /-- tag octets and request numbers of the debug protocol -/
  DBG_TYPE_REQ : Nat
  /-- end-of-message tag -/
  DBG_TYPE_EOM : Nat
  /-- request number of pause -/
  PAUSE_REQ : Nat
  /-- request number of add-breakpoint -/
  ADD_BREAK_REQ : Nat
  /-- the macro packing four octets into a 32-bit word -/
  BUILD_DBG_MSG : Nat → Nat → Nat → Nat → Nat

/-- What a handler leaves: returned status, new state, external calls in order. -/
structure Outcome where
  status : AJ_Status
  state : State
  events : List Event
  deriving DecidableEq, Repr

/-! ## Wire codec -/

/-- The i-th octet of a buffer. -/
def byteAt (bs : List Byte) (i : Nat) : Nat := bs.getD i 0 % 256

/-- Value a 32-bit variable holds after `memcpy(&v, raw, 4)` on a host of the given order. -/
def load32 : Endian → List Byte → Nat
  | .little, bs => byteAt bs 0 + 256 * byteAt bs 1 + 65536 * byteAt bs 2 + 16777216 * byteAt bs 3
  | .big, bs => byteAt bs 3 + 256 * byteAt bs 2 + 65536 * byteAt bs 1 + 16777216 * byteAt bs 0

/-- The four octets of a 32-bit variable in memory on a host of the given order. -/
def store32 : Endian → Nat → List Byte
  | .little, v => [v % 256, v / 256 % 256, v / 65536 % 256, v / 16777216 % 256]
  | .big, v => [v / 16777216 % 256, v / 65536 % 256, v / 256 % 256, v % 256]

/-- The macro `ENDSWAP32` on a 32-bit unsigned value. -/
def ENDSWAP32 (v : Nat) : Nat :=
  ((v >>> 24) ||| ((v &&& 0xFF0000) >>> 8) ||| ((v &&& 0x00FF00) <<< 8) ||| (v <<< 24)) % 2 ^ 32

/-- Decoding of the length word at the head of a raw payload, as `Eval` and `Install` do it:
copy four octets into `len`, then swap when the message order differs from the host. -/
def decodeLen (native msgOrder : Endian) (raw : List Byte) : Nat :=
  if msgOrder ≠ native then ENDSWAP32 (load32 native raw) else load32 native raw

/-! ## Storage primitives

The storage library is outside the module.  A record opened for writing is created
empty (replacing an earlier one), a write appends the bytes the library reports as
written, deleting removes the key. -/

/-- Content of a record. -/
def Nvram.get (nv : Nvram) : NvId → Option (List Byte)
  | .AJS_SCRIPT_NAME_NVRAM_ID => nv.name
  | .AJS_SCRIPT_NVRAM_ID => nv.script
  | .AJS_SCRIPT_SIZE_ID => nv.size

/-- Replace the content of a record. -/
def Nvram.set (nv : Nvram) (id : NvId) (v : Option (List Byte)) : Nvram :=
  match id with
  | .AJS_SCRIPT_NAME_NVRAM_ID => { nv with name := v }
  | .AJS_SCRIPT_NVRAM_ID => { nv with script := v }
  | .AJS_SCRIPT_SIZE_ID => { nv with size := v }

/-- The call `AJ_NVRAM_Open(id, mode, capacity)`: the handle (null is `none`) and the storage. -/
def AJ_NVRAM_Open (env : Env) (id : NvId) (mode : NvMode) (nv : Nvram) : Option NvId × Nvram :=
  match mode with
  | .w => if env.nvOpen id .w then (some id, nv.set id (some [])) else (none, nv)
  | .r => if (nv.get id).isSome && env.nvOpen id .r then (some id, nv) else (none, nv)

/-- The call `AJ_NVRAM_Write(ptr, size, ds)`: the reported count (`none` is the error value
returned for a null handle) and the storage. -/
def AJ_NVRAM_Write (env : Env) (data : List Byte) (size : Nat) (ds : Option NvId) (nv : Nvram) :
    Option Nat × Nvram :=
  match ds with
  | none => (none, nv)
  | some id =>
    let cur := (nv.get id).getD []
    let n := env.nvWrite id cur.length size
    (some n, nv.set id (some (cur ++ data.take (min n size))))

/-- The call `AJ_NVRAM_Delete(id)`. -/
def AJ_NVRAM_Delete (id : NvId) (nv : Nvram) : Nvram := nv.set id none

/-- The function `MaxScriptLen` for a reported free capacity, in 32-bit unsigned arithmetic. -/
def MaxScriptLen (remaining : Nat) : Nat := (3 * remaining) % 2 ^ 32 / 4

/-! ## Script lifecycle -/

/-- The switch of `EvalReply`: reply code for an engine result code. -/
def replyStatus (c : DukCodes) (dukStatus : Int) : Nat :=
  if dukStatus = c.DUK_EXEC_SUCCESS then SCRIPT_OK
  else if dukStatus = c.DUK_RET_EVAL_ERROR ∨ dukStatus = c.DUK_RET_TYPE_ERROR
      ∨ dukStatus = c.DUK_RET_RANGE_ERROR then SCRIPT_EVAL_ERROR
  else if dukStatus = c.DUK_RET_SYNTAX_ERROR then SCRIPT_SYNTAX_ERROR
  else if dukStatus = c.DUK_RET_ALLOC_ERROR then SCRIPT_RESOURCE_ERROR
  else SCRIPT_INTERNAL_ERROR

/-- The function `EvalReply`: marshal the reply code and the stringified stack top, deliver.
`evs` are the calls made so far. -/
def EvalReply (env : Env) (top : String) (dukStatus : Int) (s : State) (evs : List Event) :
    Outcome :=
  let reply := Reply.method [.y (replyStatus env.duk dukStatus), .s top]
  ⟨env.AJ_DeliverMsg reply, s, evs ++ [.deliver reply]⟩

/-- The label `ErrorReply` of `Eval`: a status message carrying `status`. -/
def Eval_ErrorReply (env : Env) (status : AJ_Status) (s : State) (evs : List Event) : Outcome :=
  let reply := Reply.status status
  ⟨env.AJ_DeliverMsg reply, s, evs ++ [.deliver reply]⟩

/-- Exit of the copy loop of `Eval`. -/
inductive EvalCopy
  | done (js : List Byte) (evs : List Event)
  | fail (status : AJ_Status) (evs : List Event)
  deriving DecidableEq, Repr

/-- The loop `while (l)` of `Eval`: `l` bytes are still wanted, `js` holds the bytes
copied so far.  A read exposing more than `l` bytes would make `memcpy` run past the
buffer: no result. -/
def Eval_copy : (l : Nat) → (js : List Byte) → (raw : List RawRead) → Option EvalCopy
  | l, js, [] => if l = 0 then some (.done js []) else none
  | l, js, r :: rest =>
    if l = 0 then some (.done js [])
    else if r.status ≠ .AJ_OK then some (.fail r.status [.unmarshalRaw l r.status])
    else if l < r.chunk.length then none
    else
      match Eval_copy (l - r.chunk.length) (js ++ r.chunk) rest with
      | none => none
      | some (.done js2 evs) => some (.done js2 (.unmarshalRaw l .AJ_OK :: evs))
      | some (.fail st evs) => some (.fail st (.unmarshalRaw l .AJ_OK :: evs))

/-- The loop stripping trailing NULs: the new `len`. -/
def stripTrailingNuls (js : List Byte) : Nat → Nat
  | 0 => 0
  | len + 1 => if byteAt js len = 0 then stripTrailingNuls js len else len + 1

/-- The function `Eval`. -/
def Eval (env : Env) (msg : AJ_Message) (s : State) : Option Outcome :=
  match msg.raw with
  | [] => none
  | r :: rest =>
    if r.status ≠ .AJ_OK then
      some (Eval_ErrorReply env r.status s [.unmarshalRaw 4 r.status])
    else if r.chunk.length < 4 then none
    else
      let len := decodeLen env.AJ_NATIVE_ENDIAN msg.endianess r.chunk
      if len > MAX_EVAL_LEN then
        some (EvalReply env "Eval expression too long" env.duk.DUK_RET_ALLOC_ERROR s
          [.unmarshalRaw 4 .AJ_OK])
      else if env.AJ_Malloc len = false then
        some (Eval_ErrorReply env .AJ_ERR_RESOURCES s [.unmarshalRaw 4 .AJ_OK])
      else
        match Eval_copy len [] rest with
        | none => none
        | some (.fail st evs) => some (Eval_ErrorReply env st s (.unmarshalRaw 4 .AJ_OK :: evs))
        | some (.done js evs) =>
          let src := js.take (stripTrailingNuls js len)
          let c := env.duk_pcompile src
          let s1 := { s with engineState := .ENGINE_DIRTY }
          if c.retval = env.duk.DUK_EXEC_SUCCESS then
            let r := env.duk_pcall src
            some (EvalReply env r.top r.retval s1
              (.unmarshalRaw 4 .AJ_OK :: evs ++
                [.compile src, .setWatchdog, .pcall, .clearWatchdog]))
          else
            some (EvalReply env c.top c.retval s1
              (.unmarshalRaw 4 .AJ_OK :: evs ++ [.compile src]))

/-- The call `AJ_NVRAM_Close(ds)` guarded by `if (ds)`. -/
def closeIfOpen : Option NvId → List Event
  | some d => [.nvClose d]
  | none => []

/-- The label `ErrorReply` of `Install`: close an open handle, delete the payload key,
reply with a status message carrying `status`. -/
def Install_ErrorReply (env : Env) (ds : Option NvId) (status : AJ_Status) (s : State)
    (evs : List Event) : Outcome :=
  let reply := Reply.status status
  ⟨env.AJ_DeliverMsg reply,
    { s with nvram := AJ_NVRAM_Delete .AJS_SCRIPT_NVRAM_ID s.nvram },
    evs ++ closeIfOpen ds ++ [.nvDelete .AJS_SCRIPT_NVRAM_ID, .deliver reply]⟩

/-- Subtraction in 32-bit unsigned arithmetic, `len -= sz`. -/
def sub32 (a b : Nat) : Nat := (a + 2 ^ 32 - b % 2 ^ 32) % 2 ^ 32

/-- Exit of the copy loop of `Install`. -/
inductive InstallCopy
  | done (nv : Nvram) (evs : List Event)
  | fail (status : AJ_Status) (nv : Nvram) (evs : List Event)
  deriving DecidableEq, Repr

/-- The loop `while (len)` of `Install`: read a chunk, write it to the payload record. -/
def Install_copy (env : Env) (ds : Option NvId) :
    (len : Nat) → (raw : List RawRead) → (nv : Nvram) → Option InstallCopy
  | len, [], nv => if len = 0 then some (.done nv []) else none
  | len, r :: rest, nv =>
    if len = 0 then some (.done nv [])
    else if r.status ≠ .AJ_OK then some (.fail r.status nv [.unmarshalRaw len r.status])
    else
      let sz := r.chunk.length
      let wr := AJ_NVRAM_Write env r.chunk sz ds nv
      if wr.1 ≠ some sz then
        some (.fail .AJ_ERR_RESOURCES wr.2 [.unmarshalRaw len .AJ_OK, .nvWrite ds sz wr.1])
      else
        match Install_copy env ds (sub32 len sz) rest wr.2 with
        | none => none
        | some (.done nv2 evs) =>
          some (.done nv2 (.unmarshalRaw len .AJ_OK :: .nvWrite ds sz wr.1 :: evs))
        | some (.fail st nv2 evs) =>
          some (.fail st nv2 (.unmarshalRaw len .AJ_OK :: .nvWrite ds sz wr.1 :: evs))

/-- Saving the script name on entry of `Install`: open the name record, and when a handle
is returned write the name with its terminating NUL and close. -/
def Install_saveName (env : Env) (scriptName : List Byte) (nv : Nvram) : Nvram × List Event :=
  let sz := scriptName.length + 1
  let op := AJ_NVRAM_Open env .AJS_SCRIPT_NAME_NVRAM_ID .w nv
  match op.1 with
  | some d =>
    let wr := AJ_NVRAM_Write env (scriptName ++ [0]) sz (some d) op.2
    (wr.2, [.nvOpen .AJS_SCRIPT_NAME_NVRAM_ID .w sz true, .nvWrite (some d) sz wr.1, .nvClose d])
  | none => (op.2, [.nvOpen .AJS_SCRIPT_NAME_NVRAM_ID .w sz false])

/-- The branch of `Install` that stores a payload of accepted length `len`: length word,
payload chunks, byte-count record, reply. -/
def Install_store (env : Env) (len : Nat) (raw : List RawRead) (s : State) (evs : List Event) :
    Option Outcome :=
  let op := AJ_NVRAM_Open env .AJS_SCRIPT_NVRAM_ID .w s.nvram
  let ds := op.1
  let wr := AJ_NVRAM_Write env (store32 env.AJ_NATIVE_ENDIAN len) 4 ds op.2
  let evs1 := evs ++ [.nvOpen .AJS_SCRIPT_NVRAM_ID .w (4 + len) ds.isSome, .nvWrite ds 4 wr.1]
  if wr.1 ≠ some 4 then
    some (Install_ErrorReply env ds .AJ_ERR_RESOURCES { s with nvram := wr.2 } evs1)
  else
    let scriptSize := (len + 4) % 2 ^ 32
    match Install_copy env ds len raw wr.2 with
    | none => none
    | some (.fail st nv evs2) =>
      some (Install_ErrorReply env ds st { s with nvram := nv, scriptSize := scriptSize }
        (evs1 ++ evs2))
    | some (.done nv evs2) =>
      let op2 := AJ_NVRAM_Open env .AJS_SCRIPT_SIZE_ID .w nv
      let ds2 := op2.1
      let wr2 := AJ_NVRAM_Write env (store32 env.AJ_NATIVE_ENDIAN scriptSize) 4 ds2 op2.2
      let evs3 := evs1 ++ evs2 ++ closeIfOpen ds ++
        [.nvOpen .AJS_SCRIPT_SIZE_ID .w 4 ds2.isSome, .nvWrite ds2 4 wr2.1]
      if wr2.1 ≠ some 4 then
        some (Install_ErrorReply env ds2 .AJ_ERR_RESOURCES
          { s with nvram := wr2.2, scriptSize := scriptSize } evs3)
      else
        let reply := Reply.method [.y SCRIPT_OK, .s "Script installed"]
        let status := env.AJ_DeliverMsg reply
        some ⟨if status = .AJ_OK then .AJ_ERR_RESTART_APP else status,
          { s with nvram := wr2.2, scriptSize := scriptSize },
          evs3 ++ closeIfOpen ds2 ++ [.deliver reply]⟩

/-- The function `Install`. -/
def Install (env : Env) (msg : AJ_Message) (s : State) : Option Outcome :=
  if s.engineState ≠ .ENGINE_CLEAN then
    let reply := Reply.method [.y SCRIPT_NEED_RESET_ERROR, .s "Reset required"]
    some ⟨env.AJ_DeliverMsg reply, s, [.deliver reply]⟩
  else if msg.argStatus ≠ .AJ_OK then
    some (Install_ErrorReply env none msg.argStatus s [.unmarshalArgs "s" msg.argStatus])
  else
    let saved := Install_saveName env msg.argS s.nvram
    let s1 := { s with nvram := saved.1 }
    let evs := Event.unmarshalArgs "s" .AJ_OK :: saved.2
    match msg.raw with
    | [] => none
    | r :: rest =>
      if r.status ≠ .AJ_OK then
        some (Install_ErrorReply env none r.status s1 (evs ++ [.unmarshalRaw 4 r.status]))
      else if r.chunk.length < 4 then none
      else
        let len := decodeLen env.AJ_NATIVE_ENDIAN msg.endianess r.chunk
        if len > MaxScriptLen (env.AJ_NVRAM_GetSizeRemaining s1.nvram % 2 ^ 32) then
          let reply := Reply.method [.y SCRIPT_RESOURCE_ERROR, .s "Script too long"]
          some ⟨env.AJ_DeliverMsg reply, s1, evs ++ [.unmarshalRaw 4 .AJ_OK, .deliver reply]⟩
        else
          Install_store env len rest s1 (evs ++ [.unmarshalRaw 4 .AJ_OK])

/-- The function `Reset`. -/
def Reset (env : Env) (s : State) : Outcome :=
  let reply := Reply.method []
  let status := env.AJ_DeliverMsg reply
  if status = .AJ_OK then
    ⟨.AJ_ERR_RESTART_APP, { s with engineState := .ENGINE_CLEAN }, [.deliver reply]⟩
  else ⟨status, s, [.deliver reply]⟩

/-! ## Debugger start and stop, properties -/

/-- The function `StartDebugger`.  The static `debuggerStarted` is read here and
assigned nowhere in the module. -/
def StartDebugger (env : Env) (msg : AJ_Message) (s : State) : Outcome :=
  let quiet := msg.argY
  let s1 := if quiet ≠ 0 then { s with debugQuiet := true } else s
  let reply := Reply.method [.y SCRIPT_DEBUG_STARTED]
  let evs1 := if s1.debuggerStarted = false then [Event.deliver reply] else []
  ⟨msg.argStatus, { s1 with dbgState := env.AJS_InitDebugger },
    Event.unmarshalArgs "y" msg.argStatus :: evs1 ++ [.disableWatchdog, .attach]⟩

/-- The function `StopDebugger`. -/
def StopDebugger (env : Env) (s : State) : Outcome :=
  let reply := Reply.method [.y SCRIPT_DEBUG_STOPPED]
  let evs1 := if s.debuggerStarted then [Event.detach] else []
  ⟨env.AJ_DeliverMsg reply, s, evs1 ++ [.enableWatchdog, .deliver reply]⟩

/-- The function `PropGetHandler`: the arguments marshalled into the reply and the
returned status. -/
def PropGetHandler (env : Env) (propId : PropId) (s : State) : List Arg × AJ_Status :=
  match propId with
  | .SCRIPT_ENGINE_PROP => ([.s "JavaScript"], env.AJ_MarshalArgs [.s "JavaScript"])
  | .MAX_EVAL_LEN_PROP => ([.u MAX_EVAL_LEN], env.AJ_MarshalArgs [.u MAX_EVAL_LEN])
  | .MAX_SCRIPT_LEN_PROP =>
    let v := MaxScriptLen (env.AJ_NVRAM_GetSizeRemaining s.nvram % 2 ^ 32)
    ([.u v], env.AJ_MarshalArgs [.u v])
  | .other _ => ([], .AJ_ERR_UNEXPECTED)

/-- The function `PropSetHandler`. -/
def PropSetHandler : AJ_Status := .AJ_ERR_UNEXPECTED

/-- The bus library's `AJ_BusPropGet` around a callback result: the reply carries the
marshalled value when the callback succeeds, a status message otherwise, and is delivered. -/
def AJ_BusPropGet (env : Env) (cb : List Arg × AJ_Status) (s : State) : Outcome :=
  let reply := if cb.2 = .AJ_OK then Reply.method cb.1 else Reply.status cb.2
  ⟨env.AJ_DeliverMsg reply, s, [.deliver reply]⟩

/-- The bus library's `AJ_BusPropSet` around a callback result. -/
def AJ_BusPropSet (env : Env) (cb : AJ_Status) (s : State) : Outcome :=
  let reply := if cb = .AJ_OK then Reply.method [] else Reply.status cb
  ⟨env.AJ_DeliverMsg reply, s, [.deliver reply]⟩

/-! ## Script retrieval -/

/-- The case `DBG_GETSCRIPT_MSGID` of the message handler.  The size is the cached
`scriptSize`, or the byte-count record when the cache is zero; the body marshalled is the
size word followed by `sz` bytes read at the start of the payload record.  Reading more
bytes than the record holds has no result. -/
def GetScript (env : Env) (s : State) : Option Outcome :=
  let cached := s.scriptSize
  let dsize := if cached = 0 then (AJ_NVRAM_Open env .AJS_SCRIPT_SIZE_ID .r s.nvram).1 else none
  let sz :=
    if cached = 0 then
      match dsize with
      | some d => load32 env.AJ_NATIVE_ENDIAN (((s.nvram.get d).getD []).take 4)
      | none => 0
    else cached
  let evs0 : List Event :=
    if cached = 0 then
      match dsize with
      | some d => [.nvOpen .AJS_SCRIPT_SIZE_ID .r 0 true, .nvRead d 4, .nvClose d]
      | none => [.nvOpen .AJS_SCRIPT_SIZE_ID .r 0 false]
    else []
  match (AJ_NVRAM_Open env .AJS_SCRIPT_NVRAM_ID .r s.nvram).1 with
  | some d =>
    let script := (s.nvram.get d).getD []
    let evs1 := evs0 ++ [.nvOpen .AJS_SCRIPT_NVRAM_ID .r 0 true, .nvPeek d]
    if env.AJ_MarshalReplyMsg ≠ .AJ_OK then some ⟨.AJ_OK, s, evs1 ++ [.nvClose d]⟩
    else if env.deliverBody (sz + 4) ≠ .AJ_OK then some ⟨.AJ_OK, s, evs1 ++ [.nvClose d]⟩
    else if env.AJ_MarshalRaw 0 ≠ .AJ_OK then some ⟨.AJ_OK, s, evs1 ++ [.nvClose d]⟩
    else if script.length < sz then none
    else if env.AJ_MarshalRaw 1 ≠ .AJ_OK then some ⟨.AJ_OK, s, evs1 ++ [.nvClose d]⟩
    else
      let reply := Reply.raw (store32 env.AJ_NATIVE_ENDIAN sz ++ script.take sz)
      some ⟨.AJ_OK, s, evs1 ++ [.deliver reply, .nvClose d]⟩
  | none =>
    let reply := Reply.status .AJ_ERR_BUSY
    some ⟨.AJ_OK, s, evs0 ++ [.nvOpen .AJS_SCRIPT_NVRAM_ID .r 0 false, .deliver reply]⟩

/-! ## Debug requests handled while the target runs -/

/-- Free space of an input buffer, `AJ_IO_BUF_SPACE`. -/
def AJ_IO_BUF_SPACE (b : AJ_IOBuffer) : Nat := b.bufSize - b.written.length

/-- Copy a frame of `len` bytes to the write cursor when space permits, else drop it. -/
def appendFrame (b : AJ_IOBuffer) (frame : List Byte) (len : Nat) : AJ_IOBuffer :=
  if AJ_IO_BUF_SPACE b ≥ len then { b with written := b.written ++ frame.take len } else b

/-- The case `DBG_PAUSE_MSGID`: the first three octets, in host order, of the packed word. -/
def Pause (env : Env) (msg : AJ_Message) (s : State) : Option Outcome :=
  match s.dbgState with
  | none => none
  | some d =>
    let dbgMsg := env.BUILD_DBG_MSG env.DBG_TYPE_REQ (env.PAUSE_REQ + 0x80) env.DBG_TYPE_EOM 0
    let rd := appendFrame d.read (store32 env.AJ_NATIVE_ENDIAN dbgMsg) 3
    some ⟨.AJ_OK,
      { s with dbgState := some { d with read := rd, lastMsg := some msg,
                                         lastMsgType := env.PAUSE_REQ } }, []⟩

/-- The frame the case `DBG_ADDBREAK_MSGID` builds for a file name and a line. -/
def addBreakFrame (env : Env) (file : List Byte) (line : Nat) : List Byte :=
  [env.DBG_TYPE_REQ % 256, (env.ADD_BREAK_REQ + 0x80) % 256, (file.length + 0x60) % 256]
    ++ file ++ [(line % 256 + 0x80) % 256, env.DBG_TYPE_EOM % 256]

/-- The case `DBG_ADDBREAK_MSGID`.  `msgLen` is an 8-bit variable; a frame longer than
the allocation, a failed allocation or a null `dbgState` has no result. -/
def AddBreak (env : Env) (msg : AJ_Message) (s : State) : Option Outcome :=
  if msg.argStatus ≠ .AJ_OK then
    some ⟨msg.argStatus, s, [.unmarshalArgs "sy" msg.argStatus]⟩
  else
    let file := msg.argS
    let msgLen := (file.length + 5) % 256
    if env.AJ_Malloc msgLen = false then none
    else if msgLen < file.length + 5 then none
    else
      match s.dbgState with
      | none => none
      | some d =>
        let rd := appendFrame d.read (addBreakFrame env file msg.argY) msgLen
        some ⟨.AJ_OK,
          { s with dbgState := some { d with read := rd, lastMsg := some msg,
                                             lastMsgType := env.ADD_BREAK_REQ } },
          [.unmarshalArgs "sy" .AJ_OK]⟩

/-- The reply of the busy-fallback cases. -/
def busyReply (s : State) : Outcome :=
  ⟨.AJ_OK, s, [.deliver (Reply.status .AJ_ERR_BUSY)]⟩

/-! ## Message handler -/

/-- The branch of the handler for `AJ_METHOD_ACCEPT_SESSION`. -/
def acceptSession (env : Env) (msg : AJ_Message) (s : State) : Outcome :=
  if msg.argStatus ≠ .AJ_OK then ⟨msg.argStatus, s, [.unmarshalArgs "qus" msg.argStatus]⟩
  else
    let port := msg.argQ
    let sessionId := msg.argU
    let joiner := msg.argS
    if port = SCRIPT_CONSOLE_PORT then
      if s.consoleSession ≠ 0 then
        ⟨env.AJ_BusReplyAcceptSession false, s,
          [.unmarshalArgs "qus" .AJ_OK, .acceptSession false]⟩
      else
        let status := env.AJ_BusReplyAcceptSession true
        let evs := [Event.unmarshalArgs "qus" .AJ_OK, .acceptSession true]
        if status = .AJ_OK then
          let sz := joiner.length + 1
          if sz > CONSOLE_BUS_NAME_SIZE then ⟨.AJ_ERR_RESOURCES, s, evs⟩
          else ⟨status, { s with consoleSession := sessionId, consoleBusName := joiner }, evs⟩
        else ⟨status, s, evs⟩
    else
      let status := env.AJ_ResetArgs
      ⟨if status = .AJ_OK then .AJ_ERR_NO_MATCH else status, s,
        [.unmarshalArgs "qus" .AJ_OK, .resetArgs status]⟩

/-- The case `AJ_SIGNAL_SESSION_LOST_WITH_REASON`. -/
def sessionLost (env : Env) (msg : AJ_Message) (s : State) : Outcome :=
  if msg.argStatus ≠ .AJ_OK then ⟨msg.argStatus, s, [.unmarshalArgs "u" msg.argStatus]⟩
  else if msg.argU = s.consoleSession then
    ⟨.AJ_OK, { s with consoleSession := 0 }, [.unmarshalArgs "u" .AJ_OK]⟩
  else
    let status := env.AJ_ResetArgs
    ⟨if status = .AJ_OK then .AJ_ERR_NO_MATCH else status, s,
      [.unmarshalArgs "u" .AJ_OK, .resetArgs status]⟩

/-- The function `AJS_ConsoleMsgHandler`. -/
def AJS_ConsoleMsgHandler (env : Env) (msg : AJ_Message) (s : State) : Option Outcome :=
  if msg.msgId = .AJ_METHOD_ACCEPT_SESSION then some (acceptSession env msg s)
  else if s.consoleSession = 0 then some ⟨.AJ_ERR_NO_MATCH, s, []⟩
  else
    match msg.msgId with
    | .AJ_SIGNAL_SESSION_LOST_WITH_REASON => some (sessionLost env msg s)
    | .GET_PROP_MSGID => some (AJ_BusPropGet env (PropGetHandler env msg.propId s) s)
    | .SET_PROP_MSGID => some (AJ_BusPropSet env PropSetHandler s)
    | .INSTALL_MSGID => Install env msg s
    | .RESET_MSGID => some (Reset env s)
    | .REBOOT_MSGID => some ⟨.AJ_ERR_NO_MATCH, s, [.reboot]⟩
    | .EVAL_MSGID => Eval env msg s
    | .DBG_BEGIN_MSGID => some (StartDebugger env msg s)
    | .DBG_END_MSGID => some (StopDebugger env s)
    | .DBG_GETSCRIPT_MSGID => GetScript env s
    | .DBG_PAUSE_MSGID => Pause env msg s
    | .DBG_ADDBREAK_MSGID => AddBreak env msg s
    | .DBG_BASIC_MSGID => some (busyReply s)
    | .DBG_TRIGGER_MSGID => some (busyReply s)
    | .DBG_RESUME_MSGID => some (busyReply s)
    | .DBG_STEPIN_MSGID => some (busyReply s)
    | .DBG_STEPOVER_MSGID => some (busyReply s)
    | .DBG_STEPOUT_MSGID => some (busyReply s)
    | .DBG_LISTBREAK_MSGID => some (busyReply s)
    | .DBG_DELBREAK_MSGID => some (busyReply s)
    | .DBG_GETVAR_MSGID => some (busyReply s)
    | .DBG_PUTVAR_MSGID => some (busyReply s)
    | .DBG_GETCALL_MSGID => some (busyReply s)
    | .DBG_GETLOCALS_MSGID => some (busyReply s)
    | .DBG_DUMPHEAP_MSGID => some (busyReply s)
    | .DBG_VERSION_MSGID => some (busyReply s)
    | .DBG_DETACH_MSGID => some (busyReply s)
    | _ => some ⟨.AJ_ERR_NO_MATCH, s, []⟩

/-- The function `AJS_ConsoleTerminate`. -/
def AJS_ConsoleTerminate (s : State) : State :=
  { s with consoleSession := 0, engineState := .ENGINE_DIRTY }

/-- The static initialisers of the module, over given storage contents. -/
def initialState (nv : Nvram) : State :=
  { engineState := .ENGINE_RUNNING
    consoleSession := 0
    consoleBusName := []
    scriptSize := 0
    debuggerStarted := false
    debugQuiet := false
    dbgState := none
    nvram := nv }

/-! ## Observations on the calls a handler made -/

/-- A call of `AJ_DeliverMsg`. -/
def isDeliver : Event → Bool
  | .deliver _ => true
  | _ => false

/-- A call on the storage library. -/
def isStorage : Event → Bool
  | .nvOpen _ _ _ _ => true
  | .nvWrite _ _ _ => true
  | .nvRead _ _ => true
  | .nvPeek _ => true
  | .nvClose _ => true
  | .nvDelete _ => true
  | _ => false

/-- A call unmarshalling from the request. -/
def isUnmarshal : Event → Bool
  | .unmarshalArgs _ _ => true
  | .unmarshalRaw _ _ => true
  | _ => false

/-- A step of `Install` that failed: a raw read with a status other than `AJ_OK`, or a
write on the payload or byte-count record (or through a null handle) that did not report
the requested size. -/
def failedStep : Event → Bool
  | .unmarshalRaw _ st => decide (st ≠ .AJ_OK)
  | .nvWrite none _ _ => true
  | .nvWrite (some .AJS_SCRIPT_NVRAM_ID) size ret => decide (ret ≠ some size)
  | .nvWrite (some .AJS_SCRIPT_SIZE_ID) size ret => decide (ret ≠ some size)
  | _ => false

/-- The error a failed step gives rise to: the status of the read, `AJ_ERR_RESOURCES`
for a write. -/
def originOf : Event → AJ_Status
  | .unmarshalRaw _ st => st
  | _ => .AJ_ERR_RESOURCES

/-- A call on the storage library that concerns the payload or the byte-count record. -/
def touchesScript : Event → Bool
  | .nvOpen id _ _ _ => decide (id ≠ .AJS_SCRIPT_NAME_NVRAM_ID)
  | .nvWrite ds _ _ => decide (ds ≠ some .AJS_SCRIPT_NAME_NVRAM_ID)
  | .nvRead ds _ => decide (ds ≠ .AJS_SCRIPT_NAME_NVRAM_ID)
  | .nvPeek ds => decide (ds ≠ .AJS_SCRIPT_NAME_NVRAM_ID)
  | .nvClose ds => decide (ds ≠ .AJS_SCRIPT_NAME_NVRAM_ID)
  | .nvDelete id => decide (id ≠ .AJS_SCRIPT_NAME_NVRAM_ID)
  | _ => false

/-- The reply of a successful `Install`. -/
def installedReply : Reply := .method [.y SCRIPT_OK, .s "Script installed"]

/-! ## Sample inputs -/

/-- An environment in which every external call succeeds, on a little-endian host with
the Duktape 1.x result codes; compilation and call both succeed. -/
def sampleEnv : Env :=
  { AJ_NATIVE_ENDIAN := .little
    duk := duktape1
    AJ_Malloc := fun _ => true
    AJ_NVRAM_GetSizeRemaining := fun _ => 4096
    nvOpen := fun _ _ => true
    nvWrite := fun _ _ size => size
    AJ_DeliverMsg := fun _ => .AJ_OK
    AJ_MarshalReplyMsg := .AJ_OK
    deliverBody := fun _ => .AJ_OK
    AJ_MarshalRaw := fun _ => .AJ_OK
    AJ_MarshalArgs := fun _ => .AJ_OK
    AJ_ResetArgs := .AJ_OK
    AJ_BusReplyAcceptSession := fun _ => .AJ_OK
    duk_pcompile := fun _ => ⟨0, "function"⟩
    duk_pcall := fun _ => ⟨0, "2"⟩
    AJS_InitDebugger := some ⟨⟨64, []⟩, none, 0⟩
    DBG_TYPE_REQ := 1
    DBG_TYPE_EOM := 0
    PAUSE_REQ := 0x12
    ADD_BREAK_REQ := 0x18
    BUILD_DBG_MSG := fun a b c d => a + 256 * b + 65536 * c + 16777216 * d }

/-- A request with the given identifier, name argument and raw reads. -/
def sampleMsg (id : MsgId) (name : List Byte) (raw : List RawRead) : AJ_Message :=
  { msgId := id, endianess := .little, argStatus := .AJ_OK, argS := name,
    argY := 0, argQ := 0, argU := 0, propId := .other 0, raw := raw }

/-- The three bytes of the text 1+1 behind their length word, delivered in two fragments. -/
def onePlusOne : List RawRead :=
  [⟨.AJ_OK, [3, 0, 0, 0]⟩, ⟨.AJ_OK, [49, 43]⟩, ⟨.AJ_OK, [49]⟩]

/-- The bytes of the name a.js. -/
def aJs : List Byte := [97, 46, 106, 115]

/-- A state with a console session, empty storage and the given engine state. -/
def sampleState (e : EngineState) : State :=
  { initialState ⟨none, none, none⟩ with engineState := e, consoleSession := 7 }

/-- Return of `Install` through the label `ErrorReply` after the calls `evs`: the payload
key is deleted, a status message is delivered last and its delivery status returned, no
other delivery is made, and every failed step is one the status originates from. -/
def FailureExit (env : Env) (evs : List Event) (out : Outcome) : Prop :=
  ∃ st tail,
    out.events = evs ++ tail ++ [.nvDelete .AJS_SCRIPT_NVRAM_ID, .deliver (.status st)] ∧
    out.status = env.AJ_DeliverMsg (.status st) ∧
    out.state.nvram.script = none ∧
    ∀ e ∈ tail, isDeliver e = false ∧ (failedStep e = true → originOf e = st)

/-- The reply of `Install` outside the clean state. -/
def needResetReply : Reply := .method [.y SCRIPT_NEED_RESET_ERROR, .s "Reset required"]

/-- The reply of `Install` to a payload above the cap. -/
def tooLongReply : Reply := .method [.y SCRIPT_RESOURCE_ERROR, .s "Script too long"]

/-- The cap `Install` compares the declared length with: `MaxScriptLen()` once the name
has been saved. -/
def installCap (env : Env) (msg : AJ_Message) (s : State) : Nat :=
  MaxScriptLen (env.AJ_NVRAM_GetSizeRemaining (Install_saveName env msg.argS s.nvram).1 % 2 ^ 32)

/-- The all-success environment, except that a write to the payload record reports no
byte written once the record holds the four bytes of the length word. -/
def shortWriteEnv : Env :=
  { sampleEnv with
    nvWrite := fun id cur size => if id = .AJS_SCRIPT_NVRAM_ID ∧ cur = 4 then 0 else size }

/-- The all-success environment with a storage that reports no free capacity. -/
def fullStorageEnv : Env :=
  { sampleEnv with AJ_NVRAM_GetSizeRemaining := fun _ => 0 }

/-- The reply of `Eval` to a payload above `MAX_EVAL_LEN`. -/
def evalTooLongReply : Reply := .method [.y SCRIPT_RESOURCE_ERROR, .s "Eval expression too long"]

/-- A call of the engine's compile operation. -/
def isCompile : Event → Bool
  | .compile _ => true
  | _ => false

/-- A raw read that returned an error. -/
def isFailedRead : Event → Bool
  | .unmarshalRaw _ st => decide (st ≠ .AJ_OK)
  | _ => false

/-- A request whose length word declares three bytes and whose payload read fails. -/
def brokenPayload : List RawRead :=
  [⟨.AJ_OK, [3, 0, 0, 0]⟩, ⟨.other 1, []⟩]

/-- The all-success environment, except that compilation fails the way Duktape reports
it: return value `DUK_EXEC_ERROR` (1) and the error on the stack top. -/
def compileFailEnv : Env :=
  { sampleEnv with duk_pcompile := fun _ => ⟨1, "SyntaxError: parse error (line 1)"⟩ }

/-- The all-success environment, except that no reply can be delivered. -/
def deliverFailEnv : Env :=
  { sampleEnv with AJ_DeliverMsg := fun _ => .other 1 }

/-- A length word declaring 1025 bytes, with nothing behind it. -/
def oversized : List RawRead := [⟨.AJ_OK, [1, 4, 0, 0]⟩]

/-! ## Sequences of messages -/

/-- One step in the life of the module: a message handled in some environment, or the
call of `AJS_ConsoleTerminate`. -/
inductive Input
  | message (env : Env) (msg : AJ_Message)
  | terminate

/-- State after one step; `none` when the handler has no result. -/
def stepState : Input → State → Option State
  | .message env msg, s => (AJS_ConsoleMsgHandler env msg s).map (·.state)
  | .terminate, s => some (AJS_ConsoleTerminate s)

/-- A step that was taken: its input, the state before and the state after. -/
structure Transition where
  input : Input
  pre : State
  post : State

/-- The steps taken on a list of inputs from a state, up to the first step without
result. -/
def transitions : List Input → State → List Transition
  | [], _ => []
  | i :: rest, s =>
    match stepState i s with
    | none => []
    | some s2 => ⟨i, s, s2⟩ :: transitions rest s2

/-- The input is a session-accept message. -/
def isAccept : Input → Prop
  | .message _ msg => msg.msgId = .AJ_METHOD_ACCEPT_SESSION
  | .terminate => False

/-- The input is a session-loss notification or the termination of the module. -/
def isSessionEnd : Input → Prop
  | .message _ msg => msg.msgId = .AJ_SIGNAL_SESSION_LOST_WITH_REASON
  | .terminate => True

/-- What a step may do to the recorded session: leave the session id and the peer name
as they are, record a session where none was active (a session-accept only), or clear an
active session, keeping the name (a session loss or the termination only). -/
def SessionChange (t : Transition) : Prop :=
  (t.post.consoleSession = t.pre.consoleSession ∧ t.post.consoleBusName = t.pre.consoleBusName)
  ∨ (t.pre.consoleSession = 0 ∧ isAccept t.input)
  ∨ (t.pre.consoleSession ≠ 0 ∧ t.post.consoleSession = 0 ∧
      t.post.consoleBusName = t.pre.consoleBusName ∧ isSessionEnd t.input)

/-- A session-accept request: port, session id, joiner name. -/
def acceptMsg (port sessionId : Nat) (joiner : List Byte) : AJ_Message :=
  { msgId := .AJ_METHOD_ACCEPT_SESSION, endianess := .little, argStatus := .AJ_OK,
    argS := joiner, argY := 0, argQ := port, argU := sessionId, propId := .other 0, raw := [] }

/-- A request without raw body carrying a 32-bit and an 8-bit argument. -/
def plainMsg (id : MsgId) (u y : Nat) : AJ_Message :=
  { msgId := id, endianess := .little, argStatus := .AJ_OK, argS := [], argY := y,
    argQ := 0, argU := u, propId := .other 0, raw := [] }

/-- The bytes of the unique name :1.42 of a bus peer. -/
def peerName : List Byte := [58, 49, 46, 52, 50]

/-- A joiner name of sixteen characters. -/
def longName : List Byte := [58, 49, 46, 49, 50, 51, 52, 53, 54, 55, 56, 57, 48, 49, 50, 51]

/-- The all-success environment, except that no session reply can be delivered and the
arguments cannot be rewound. -/
def busFailEnv : Env :=
  { sampleEnv with AJ_BusReplyAcceptSession := fun _ => .other 1, AJ_ResetArgs := .other 2 }

/-! ## The table of external strings (`ajs_extstr.c`) -/

/-- Entries 0 to 24 of `sortedWords`. -/
def sortedWords_0 : List (List Nat) :=
  [
    [40, 63, 58, 41],
    [40, 102, 117, 110, 99, 116, 105, 111, 110, 40, 114, 101, 113, 117, 105, 114, 101, 44, 101, 120, 112, 111, 114, 116, 115, 44, 109, 111, 100, 117, 108, 101, 41, 123],
    [43, 73, 110, 102, 105, 110, 105, 116, 121],  -- +Infinity
    [45, 73, 110, 102, 105, 110, 105, 116, 121],
    [47, 67, 111, 110, 116, 114, 111, 108, 80, 97, 110, 101, 108],  -- /ControlPanel
    [47, 67, 111, 110, 116, 114, 111, 108, 80, 97, 110, 101, 108, 47, 67, 79, 78, 84, 65, 73, 78, 69, 82, 49],  -- /ControlPanel/CONTAINER1
    [47, 67, 111, 110, 116, 114, 111, 108, 80, 97, 110, 101, 108, 47, 67, 79, 78, 84, 65, 73, 78, 69, 82, 49, 47, 80, 82, 79, 80, 69, 82, 84, 89, 50],  -- /ControlPanel/CONTAINER1/PROPERTY2
    [49, 48, 48, 48],  -- 1000
    [65, 108, 108, 74, 111, 121, 110],  -- AllJoyn
    [65, 114, 103, 117, 109, 101, 110, 116, 115],  -- Arguments
    [65, 114, 114, 97, 121],  -- Array
    [66, 111, 111, 108, 101, 97, 110],  -- Boolean
    [66, 117, 102, 102, 101, 114],  -- Buffer
    [67, 72, 69, 67, 75, 95, 66, 79, 88],  -- CHECK_BOX
    [68, 65, 84, 69, 95, 80, 73, 67, 75, 69, 82],  -- DATE_PICKER
    [68, 97, 116, 101],  -- Date
    [68, 101, 99, 69, 110, 118],  -- DecEnv
    [68, 111, 117, 98, 108, 101, 69, 114, 114, 111, 114],  -- DoubleError
    [68, 117, 107, 116, 97, 112, 101],  -- Duktape
    [69, 68, 73, 84, 95, 84, 69, 88, 84],  -- EDIT_TEXT
    [69, 109, 101, 114, 103, 101, 110, 99, 121],  -- Emergency
    [69, 114, 114, 111, 114],  -- Error
    [69, 118, 97, 108, 69, 114, 114, 111, 114],  -- EvalError
    [69, 120, 116, 101, 114, 110, 97, 108, 83],  -- ExternalS
    [70, 108, 97, 115, 104, 32, 114, 97, 116, 101, 58]  -- Flash rate:
  ]

/-- Entries 25 to 49 of `sortedWords`. -/
def sortedWords_25 : List (List Nat) :=
  [
    [70, 117, 110, 99, 116, 105, 111, 110],  -- Function
    [72, 79, 82, 73, 90, 79, 78, 84, 65, 76],  -- HORIZONTAL
    [73, 110, 102, 105, 110, 105, 116, 121],  -- Infinity
    [73, 110, 102, 111],  -- Info
    [73, 110, 118, 97, 108, 105, 100, 32, 68, 97, 116, 101],  -- Invalid Date
    [74, 83, 79, 78],  -- JSON
    [75, 69, 89, 80, 65, 68],  -- KEYPAD
    [76, 78, 49, 48],  -- LN10
    [76, 79, 71, 49, 48, 69],  -- LOG10E
    [76, 79, 71, 50, 69],  -- LOG2E
    [76, 111, 103, 103, 101, 114],  -- Logger
    [77, 65, 88, 95, 86, 65, 76, 85, 69],  -- MAX_VALUE
    [77, 69, 84, 72, 79, 68],  -- METHOD
    [77, 73, 78, 95, 86, 65, 76, 85, 69],  -- MIN_VALUE
    [77, 97, 116, 104],  -- Math
    [78, 69, 71, 65, 84, 73, 86, 69, 95, 73, 78, 70, 73, 78, 73, 84, 89],  -- NEGATIVE_INFINITY
    [78, 85, 77, 66, 69, 82, 95, 80, 73, 67, 75, 69, 82],  -- NUMBER_PICKER
    [78, 85, 77, 69, 82, 73, 67, 95, 86, 73, 69, 87],  -- NUMERIC_VIEW
    [78, 117, 108, 108],  -- Null
    [78, 117, 109, 98, 101, 114],  -- Number
    [79, 98, 106, 69, 110, 118],  -- ObjEnv
    [79, 98, 106, 101, 99, 116],  -- Object
    [80, 79, 83, 73, 84, 73, 86, 69, 95, 73, 78, 70, 73, 78, 73, 84, 89],  -- POSITIVE_INFINITY
    [80, 82, 79, 80, 69, 82, 84, 89],  -- PROPERTY
    [80, 111, 105, 110, 116, 101, 114]  -- Pointer
  ]

/-- Entries 50 to 74 of `sortedWords`. -/
def sortedWords_50 : List (List Nat) :=
  [
    [80, 114, 111, 120, 121],  -- Proxy
    [82, 65, 68, 73, 79, 95, 66, 85, 84, 84, 79, 78],  -- RADIO_BUTTON
    [82, 79, 84, 65, 82, 89, 95, 75, 78, 79, 66],  -- ROTARY_KNOB
    [82, 97, 110, 103, 101, 69, 114, 114, 111, 114],  -- RangeError
    [82, 101, 102, 101, 114, 101, 110, 99, 101, 69, 114, 114, 111, 114],  -- ReferenceError
    [82, 101, 103, 69, 120, 112],  -- RegExp
    [83, 73, 71, 78, 65, 76],  -- SIGNAL
    [83, 76, 73, 68, 69, 82],  -- SLIDER
    [83, 80, 73, 78, 78, 69, 82],  -- SPINNER
    [83, 81, 82, 84, 49, 95, 50],  -- SQRT1_2
    [83, 81, 82, 84, 50],  -- SQRT2
    [83, 87, 73, 84, 67, 72],  -- SWITCH
    [83, 116, 114, 105, 110, 103],  -- String
    [83, 121, 110, 116, 97, 120, 69, 114, 114, 111, 114],  -- SyntaxError
    [84, 69, 88, 84, 95, 86, 73, 69, 87],  -- TEXT_VIEW
    [84, 73, 77, 69, 95, 80, 73, 67, 75, 69, 82],  -- TIME_PICKER
    [84, 104, 114, 101, 97, 100],  -- Thread
    [84, 104, 114, 111, 119, 84, 121, 112, 101, 69, 114, 114, 111, 114],  -- ThrowTypeError
    [84, 121, 112, 101, 69, 114, 114, 111, 114],  -- TypeError
    [85, 82, 73, 69, 114, 114, 111, 114],  -- URIError
    [85, 110, 100, 101, 102, 105, 110, 101, 100],  -- Undefined
    [86, 69, 82, 84, 73, 67, 65, 76],  -- VERTICAL
    [87, 97, 114, 110, 105, 110, 103],  -- Warning
    [91, 46, 46, 46, 93],
    [95, 95, 112, 114, 111, 116, 111, 95, 95]  -- __proto__
  ]

/-- Entries 75 to 99 of `sortedWords`. -/
def sortedWords_75 : List (List Nat) :=
  [
    [97, 99, 111, 115],  -- acos
    [97, 99, 116, 105, 111, 110, 87, 105, 100, 103, 101, 116],  -- actionWidget
    [97, 100, 100, 77, 97, 116, 99, 104],  -- addMatch
    [97, 100, 118, 101, 114, 116, 105, 115, 101, 78, 97, 109, 101],  -- advertiseName
    [97, 108, 101, 114, 116],  -- alert
    [97, 110, 97, 108, 111, 103, 73, 110],  -- analogIn
    [97, 110, 97, 108, 111, 103, 79, 117, 116],  -- analogOut
    [97, 110, 111, 110],  -- anon
    [97, 112, 112, 108, 121],  -- apply
    [97, 114, 103, 117, 109, 101, 110, 116, 115],  -- arguments
    [97, 115, 105, 110],  -- asin
    [97, 116, 97, 110],  -- atan
    [97, 116, 97, 110, 50],  -- atan2
    [98, 97, 115, 101, 54, 52],  -- base64
    [98, 97, 115, 101, 87, 105, 100, 103, 101, 116],  -- baseWidget
    [98, 105, 110, 100],  -- bind
    [98, 108, 105, 110, 107, 121],  -- blinky
    [98, 111, 111, 108, 101, 97, 110],  -- boolean
    [98, 114, 101, 97, 107],  -- break
    [98, 117, 102, 102, 101, 114],  -- buffer
    [99, 97, 108, 108],  -- call
    [99, 97, 108, 108, 84, 105, 109, 101, 111, 117, 116],  -- callTimeout
    [99, 97, 108, 108, 101, 101],  -- callee
    [99, 97, 108, 108, 101, 114],  -- caller
    [99, 97, 115, 101]  -- case
  ]

/-- Entries 100 to 124 of `sortedWords`. -/
def sortedWords_100 : List (List Nat) :=
  [
    [99, 97, 116, 99, 104],  -- catch
    [99, 101, 105, 108],  -- ceil
    [99, 104, 97, 114, 65, 116],  -- charAt
    [99, 104, 97, 114, 67, 111, 100, 101, 65, 116],  -- charCodeAt
    [99, 104, 111, 105, 99, 101, 115],  -- choices
    [99, 108, 97, 115, 115],  -- class
    [99, 108, 101, 97, 114, 73, 110, 116, 101, 114, 118, 97, 108],  -- clearInterval
    [99, 108, 101, 97, 114, 84, 105, 109, 101, 111, 117, 116],  -- clearTimeout
    [99, 108, 111, 103],  -- clog
    [99, 111, 108, 111, 114],  -- color
    [99, 111, 109, 112, 97, 99, 116],  -- compact
    [99, 111, 109, 112, 105, 108, 101],  -- compile
    [99, 111, 110, 99, 97, 116],  -- concat
    [99, 111, 110, 102, 105, 103],  -- config
    [99, 111, 110, 102, 105, 103, 117, 114, 97, 98, 108, 101],  -- configurable
    [99, 111, 110, 115, 116],  -- const
    [99, 111, 110, 115, 116, 114, 117, 99, 116, 111, 114],  -- constructor
    [99, 111, 110, 116, 97, 105, 110, 101, 114, 87, 105, 100, 103, 101, 116],  -- containerWidget
    [99, 111, 110, 116, 105, 110, 117, 101],  -- continue
    [99, 111, 110, 116, 114, 111, 108, 80, 97, 110, 101, 108],  -- controlPanel
    [99, 112, 115, 79, 98, 106, 101, 99, 116, 115],  -- cpsObjects
    [99, 114, 101, 97, 116, 101],  -- create
    [99, 117, 114, 114, 101, 110, 116],  -- current
    [100, 101, 98, 117, 103],  -- debug
    [100, 101, 98, 117, 103, 103, 101, 114]  -- debugger
  ]

/-- Entries 125 to 149 of `sortedWords`. -/
def sortedWords_125 : List (List Nat) :=
  [
    [100, 101, 99, 111, 100, 101, 85, 82, 73],  -- decodeURI
    [100, 101, 99, 111, 100, 101, 85, 82, 73, 67, 111, 109, 112, 111, 110, 101, 110, 116],  -- decodeURIComponent
    [100, 101, 102, 97, 117, 108, 116],  -- default
    [100, 101, 102, 105, 110, 101, 80, 114, 111, 112, 101, 114, 116, 105, 101, 115],  -- defineProperties
    [100, 101, 102, 105, 110, 101, 80, 114, 111, 112, 101, 114, 116, 121],  -- defineProperty
    [100, 101, 108, 101, 116, 101],  -- delete
    [100, 101, 108, 101, 116, 101, 80, 114, 111, 112, 101, 114, 116, 121],  -- deleteProperty
    [100, 105, 97, 108, 111, 103, 87, 105, 100, 103, 101, 116],  -- dialogWidget
    [100, 105, 103, 105, 116, 97, 108, 73, 110],  -- digitalIn
    [100, 105, 103, 105, 116, 97, 108, 79, 117, 116],  -- digitalOut
    [100, 117, 107, 95, 104, 116, 104, 114, 101, 97, 100, 95, 98, 117, 105, 108, 116, 105, 110, 115, 46, 99],  -- duk_hthread_builtins.c
    [101, 108, 115, 101],  -- else
    [101, 110, 97, 98, 108, 101, 100],  -- enabled
    [101, 110, 99, 111, 100, 101, 85, 82, 73],  -- encodeURI
    [101, 110, 99, 111, 100, 101, 85, 82, 73, 67, 111, 109, 112, 111, 110, 101, 110, 116],  -- encodeURIComponent
    [101, 110, 117, 109],  -- enum
    [101, 110, 117, 109, 101, 114, 97, 98, 108, 101],  -- enumerable
    [101, 110, 117, 109, 101, 114, 97, 116, 101],  -- enumerate
    [101, 114, 114, 67, 114, 101, 97, 116, 101],  -- errCreate
    [101, 114, 114, 84, 104, 114, 111, 119],  -- errThrow
    [101, 114, 114, 111, 114],  -- error
    [101, 114, 114, 111, 114, 32, 105, 110, 32, 101, 114, 114, 111, 114, 32, 104, 97, 110, 100, 108, 105, 110, 103],  -- error in error handling
    [101, 115, 99, 97, 112, 101],  -- escape
    [101, 118, 97, 108],  -- eval
    [101, 118, 101, 114, 121]  -- every
  ]

/-- Entries 150 to 174 of `sortedWords`. -/
def sortedWords_150 : List (List Nat) :=
  [
    [101, 120, 101, 99],  -- exec
    [101, 120, 112, 111, 114, 116],  -- export
    [101, 120, 116, 101, 110, 100, 115],  -- extends
    [102, 97, 108, 108, 105, 110, 103, 69, 100, 103, 101],  -- fallingEdge
    [102, 97, 108, 115, 101],  -- false
    [102, 97, 116, 97, 108],  -- fatal
    [102, 105, 108, 101, 78, 97, 109, 101],  -- fileName
    [102, 105, 108, 116, 101, 114],  -- filter
    [102, 105, 110, 97, 108, 108, 121],  -- finally
    [102, 105, 110, 100, 83, 101, 114, 118, 105, 99, 101],  -- findService
    [102, 105, 110, 100, 83, 101, 114, 118, 105, 99, 101, 66, 121, 78, 97, 109, 101],  -- findServiceByName
    [102, 108, 111, 111, 114],  -- floor
    [102, 111, 114, 69, 97, 99, 104],  -- forEach
    [102, 114, 101, 101, 122, 101],  -- freeze
    [102, 114, 111, 109, 67, 104, 97, 114, 67, 111, 100, 101],  -- fromCharCode
    [102, 117, 110, 99, 116, 105, 111, 110],  -- function
    [102, 117, 110, 99, 116, 105, 111, 110, 115],  -- functions
    [103, 101, 116, 65, 108, 108, 80, 114, 111, 112, 115],  -- getAllProps
    [103, 101, 116, 68, 97, 116, 101],  -- getDate
    [103, 101, 116, 68, 97, 121],  -- getDay
    [103, 101, 116, 70, 117, 108, 108, 89, 101, 97, 114],  -- getFullYear
    [103, 101, 116, 72, 111, 117, 114, 115],  -- getHours
    [103, 101, 116, 77, 105, 108, 108, 105, 115, 101, 99, 111, 110, 100, 115],  -- getMilliseconds
    [103, 101, 116, 77, 105, 110, 117, 116, 101, 115],  -- getMinutes
    [103, 101, 116, 77, 111, 110, 116, 104]  -- getMonth
  ]

/-- Entries 175 to 199 of `sortedWords`. -/
def sortedWords_175 : List (List Nat) :=
  [
    [103, 101, 116, 79, 119, 110, 80, 114, 111, 112, 101, 114, 116, 121, 68, 101, 115, 99, 114, 105, 112, 116, 111, 114],  -- getOwnPropertyDescriptor
    [103, 101, 116, 79, 119, 110, 80, 114, 111, 112, 101, 114, 116, 121, 78, 97, 109, 101, 115],  -- getOwnPropertyNames
    [103, 101, 116, 80, 114, 111, 112],  -- getProp
    [103, 101, 116, 80, 114, 111, 116, 111, 116, 121, 112, 101, 79, 102],  -- getPrototypeOf
    [103, 101, 116, 83, 101, 99, 111, 110, 100, 115],  -- getSeconds
    [103, 101, 116, 84, 105, 109, 101],  -- getTime
    [103, 101, 116, 84, 105, 109, 101, 122, 111, 110, 101, 79, 102, 102, 115, 101, 116],  -- getTimezoneOffset
    [103, 101, 116, 85, 84, 67, 68, 97, 116, 101],  -- getUTCDate
    [103, 101, 116, 85, 84, 67, 68, 97, 121],  -- getUTCDay
    [103, 101, 116, 85, 84, 67, 70, 117, 108, 108, 89, 101, 97, 114],  -- getUTCFullYear
    [103, 101, 116, 85, 84, 67, 72, 111, 117, 114, 115],  -- getUTCHours
    [103, 101, 116, 85, 84, 67, 77, 105, 108, 108, 105, 115, 101, 99, 111, 110, 100, 115],  -- getUTCMilliseconds
    [103, 101, 116, 85, 84, 67, 77, 105, 110, 117, 116, 101, 115],  -- getUTCMinutes
    [103, 101, 116, 85, 84, 67, 77, 111, 110, 116, 104],  -- getUTCMonth
    [103, 101, 116, 85, 84, 67, 83, 101, 99, 111, 110, 100, 115],  -- getUTCSeconds
    [103, 101, 116, 89, 101, 97, 114],  -- getYear
    [103, 108, 111, 98, 97, 108],  -- global
    [104, 97, 115, 79, 119, 110, 80, 114, 111, 112, 101, 114, 116, 121],  -- hasOwnProperty
    [105, 50, 99, 77, 97, 115, 116, 101, 114],  -- i2cMaster
    [105, 50, 99, 83, 108, 97, 118, 101],  -- i2cSlave
    [105, 103, 110, 111, 114, 101, 67, 97, 115, 101],  -- ignoreCase
    [105, 109, 112, 108, 101, 109, 101, 110, 116, 115],  -- implements
    [105, 109, 112, 111, 114, 116],  -- import
    [105, 110, 99, 114, 101, 109, 101, 110, 116],  -- increment
    [105, 110, 100, 101, 120]  -- index
  ]

/-- Entries 200 to 224 of `sortedWords`. -/
def sortedWords_200 : List (List Nat) :=
  [
    [105, 110, 100, 101, 120, 79, 102],  -- indexOf
    [105, 110, 102, 111],  -- info
    [105, 110, 112, 117, 116],  -- input
    [105, 110, 115, 116, 97, 110, 99, 101, 111, 102],  -- instanceof
    [105, 110, 116, 101, 114, 102, 97, 99, 101],  -- interface
    [105, 110, 116, 101, 114, 102, 97, 99, 101, 68, 101, 102, 105, 110, 105, 116, 105, 111, 110],  -- interfaceDefinition
    [105, 115, 65, 114, 114, 97, 121],  -- isArray
    [105, 115, 69, 120, 116, 101, 110, 115, 105, 98, 108, 101],  -- isExtensible
    [105, 115, 70, 105, 110, 105, 116, 101],  -- isFinite
    [105, 115, 70, 114, 111, 122, 101, 110],  -- isFrozen
    [105, 115, 78, 97, 78],  -- isNaN
    [105, 115, 80, 114, 111, 116, 111, 116, 121, 112, 101, 79, 102],  -- isPrototypeOf
    [105, 115, 83, 101, 97, 108, 101, 100],  -- isSealed
    [106, 111, 105, 110],  -- join
    [107, 101, 121, 115],  -- keys
    [108, 97, 98, 101, 108],  -- label
    [108, 97, 98, 101, 108, 87, 105, 100, 103, 101, 116],  -- labelWidget
    [108, 97, 110, 103, 117, 97, 103, 101, 115],  -- languages
    [108, 97, 115, 116, 73, 110, 100, 101, 120],  -- lastIndex
    [108, 97, 115, 116, 73, 110, 100, 101, 120, 79, 102],  -- lastIndexOf
    [108, 101, 100, 115, 108, 105, 100, 101, 114, 46, 106, 115],  -- ledslider.js
    [108, 101, 110, 103, 116, 104],  -- length
    [108, 101, 118, 101, 108],  -- level
    [108, 105, 110, 101, 78, 117, 109, 98, 101, 114],  -- lineNumber
    [108, 105, 110, 107, 84, 105, 109, 101, 111, 117, 116]  -- linkTimeout
  ]

/-- Entries 225 to 249 of `sortedWords`. -/
def sortedWords_225 : List (List Nat) :=
  [
    [108, 108, 32, 112, 32, 104, 82, 72, 83, 66, 79, 32, 112, 50, 32, 97, 52, 32, 120, 56, 54, 32, 108, 105, 110, 117, 120, 32, 103, 99, 99],  -- ll p hRHSBO p2 a4 x86 linux gcc
    [108, 111, 97, 100],  -- load
    [108, 111, 99, 97, 108, 101, 67, 111, 109, 112, 97, 114, 101],  -- localeCompare
    [109, 97, 116, 99, 104],  -- match
    [109, 101, 115, 115, 97, 103, 101],  -- message
    [109, 101, 116, 104, 111, 100],  -- method
    [109, 105, 108, 108, 105, 115, 101, 99, 111, 110, 100, 115],  -- milliseconds
    [109, 111, 100, 76, 111, 97, 100, 101, 100],  -- modLoaded
    [109, 111, 100, 83, 101, 97, 114, 99, 104],  -- modSearch
    [109, 117, 108, 116, 105, 108, 105, 110, 101],  -- multiline
    [110, 97, 109, 101],  -- name
    [110, 111, 116, 105, 102, 105, 99, 97, 116, 105, 111, 110],  -- notification
    [110, 117, 108, 108],  -- null
    [110, 117, 109, 98, 101, 114],  -- number
    [111, 98, 106, 101, 99, 116],  -- object
    [111, 98, 106, 101, 99, 116, 68, 101, 102, 105, 110, 105, 116, 105, 111, 110],  -- objectDefinition
    [111, 110, 65, 116, 116, 97, 99, 104],  -- onAttach
    [111, 110, 86, 97, 108, 117, 101, 67, 104, 97, 110, 103, 101, 100],  -- onValueChanged
    [111, 112, 101, 110, 68, 114, 97, 105, 110],  -- openDrain
    [111, 119, 110, 75, 101, 121, 115],  -- ownKeys
    [112, 97, 99, 107, 97, 103, 101],  -- package
    [112, 97, 114, 115, 101],  -- parse
    [112, 97, 114, 115, 101, 70, 108, 111, 97, 116],  -- parseFloat
    [112, 97, 114, 115, 101, 73, 110, 116],  -- parseInt
    [112, 97, 116, 104]  -- path
  ]

/-- Entries 250 to 274 of `sortedWords`. -/
def sortedWords_250 : List (List Nat) :=
  [
    [112, 101, 101, 114, 80, 114, 111, 116, 111],  -- peerProto
    [112, 111, 105, 110, 116, 101, 114],  -- pointer
    [112, 114, 101, 118, 101, 110, 116, 69, 120, 116, 101, 110, 115, 105, 111, 110, 115],  -- preventExtensions
    [112, 114, 105, 110, 116],  -- print
    [112, 114, 105, 118, 97, 116, 101],  -- private
    [112, 114, 111, 112, 101, 114, 116, 121, 73, 115, 69, 110, 117, 109, 101, 114, 97, 98, 108, 101],  -- propertyIsEnumerable
    [112, 114, 111, 112, 101, 114, 116, 121, 87, 105, 100, 103, 101, 116],  -- propertyWidget
    [112, 114, 111, 116, 101, 99, 116, 101, 100],  -- protected
    [112, 114, 111, 116, 111, 116, 121, 112, 101],  -- prototype
    [112, 117, 98, 108, 105, 99],  -- public
    [112, 117, 108, 108, 68, 111, 119, 110],  -- pullDown
    [112, 117, 108, 108, 85, 112],  -- pullUp
    [112, 117, 115, 104],  -- push
    [114, 97, 110, 100, 111, 109],  -- random
    [114, 97, 110, 103, 101],  -- range
    [114, 97, 116, 101],  -- rate
    [114, 101, 100, 117, 99, 101],  -- reduce
    [114, 101, 100, 117, 99, 101, 82, 105, 103, 104, 116],  -- reduceRight
    [114, 101, 112, 108, 97, 99, 101],  -- replace
    [114, 101, 113, 117, 105, 114, 101],  -- require
    [114, 101, 115, 101, 116, 73, 110, 116, 101, 114, 118, 97, 108],  -- resetInterval
    [114, 101, 115, 101, 116, 84, 105, 109, 101, 111, 117, 116],  -- resetTimeout
    [114, 101, 115, 117, 109, 101],  -- resume
    [114, 101, 116, 117, 114, 110],  -- return
    [114, 101, 118, 101, 114, 115, 101]  -- reverse
  ]

/-- Entries 275 to 299 of `sortedWords`. -/
def sortedWords_275 : List (List Nat) :=
  [
    [114, 105, 115, 105, 110, 103, 69, 100, 103, 101],  -- risingEdge
    [114, 111, 117, 110, 100],  -- round
    [115, 101, 97, 108],  -- seal
    [115, 101, 97, 114, 99, 104],  -- search
    [115, 101, 115, 115, 105, 111, 110],  -- session
    [115, 101, 116, 68, 97, 116, 101],  -- setDate
    [115, 101, 116, 70, 117, 108, 108, 89, 101, 97, 114],  -- setFullYear
    [115, 101, 116, 72, 111, 117, 114, 115],  -- setHours
    [115, 101, 116, 73, 110, 116, 101, 114, 118, 97, 108],  -- setInterval
    [115, 101, 116, 77, 105, 108, 108, 105, 115, 101, 99, 111, 110, 100, 115],  -- setMilliseconds
    [115, 101, 116, 77, 105, 110, 117, 116, 101, 115],  -- setMinutes
    [115, 101, 116, 77, 111, 110, 116, 104],  -- setMonth
    [115, 101, 116, 80, 114, 111, 112],  -- setProp
    [115, 101, 116, 80, 114, 111, 116, 111, 116, 121, 112, 101, 79, 102],  -- setPrototypeOf
    [115, 101, 116, 83, 101, 99, 111, 110, 100, 115],  -- setSeconds
    [115, 101, 116, 84, 105, 109, 101],  -- setTime
    [115, 101, 116, 84, 105, 109, 101, 111, 117, 116],  -- setTimeout
    [115, 101, 116, 85, 84, 67, 68, 97, 116, 101],  -- setUTCDate
    [115, 101, 116, 85, 84, 67, 70, 117, 108, 108, 89, 101, 97, 114],  -- setUTCFullYear
    [115, 101, 116, 85, 84, 67, 72, 111, 117, 114, 115],  -- setUTCHours
    [115, 101, 116, 85, 84, 67, 77, 105, 108, 108, 105, 115, 101, 99, 111, 110, 100, 115],  -- setUTCMilliseconds
    [115, 101, 116, 85, 84, 67, 77, 105, 110, 117, 116, 101, 115],  -- setUTCMinutes
    [115, 101, 116, 85, 84, 67, 77, 111, 110, 116, 104],  -- setUTCMonth
    [115, 101, 116, 85, 84, 67, 83, 101, 99, 111, 110, 100, 115],  -- setUTCSeconds
    [115, 101, 116, 89, 101, 97, 114]  -- setYear
  ]

/-- Entries 300 to 324 of `sortedWords`. -/
def sortedWords_300 : List (List Nat) :=
  [
    [115, 104, 105, 102, 116],  -- shift
    [115, 105, 103, 110, 97, 108],  -- signal
    [115, 108, 105, 99, 101],  -- slice
    [115, 111, 109, 101],  -- some
    [115, 111, 114, 116],  -- sort
    [115, 111, 117, 114, 99, 101],  -- source
    [115, 112, 108, 105, 99, 101],  -- splice
    [115, 112, 108, 105, 116],  -- split
    [115, 113, 114, 116],  -- sqrt
    [115, 116, 97, 99, 107],  -- stack
    [115, 116, 97, 116, 105, 99],  -- static
    [115, 116, 111, 114, 101],  -- store
    [115, 116, 114, 105, 110, 103],  -- string
    [115, 116, 114, 105, 110, 103, 45, 115, 116, 97, 115, 104],
    [115, 116, 114, 105, 110, 103, 105, 102, 121],  -- stringify
    [115, 117, 98, 115, 116, 114],  -- substr
    [115, 117, 98, 115, 116, 114, 105, 110, 103],  -- substring
    [115, 117, 112, 101, 114],  -- super
    [115, 119, 105, 116, 99, 104],  -- switch
    [115, 121, 115, 116, 101, 109],  -- system
    [116, 101, 115, 116],  -- test
    [116, 104, 105, 115],  -- this
    [116, 104, 114, 111, 119],  -- throw
    [116, 105, 109, 101, 114, 70, 117, 110, 99, 115],  -- timerFuncs
    [116, 105, 109, 101, 114, 83, 116, 97, 116, 101]  -- timerState
  ]

/-- Entries 325 to 349 of `sortedWords`. -/
def sortedWords_325 : List (List Nat) :=
  [
    [116, 111, 68, 97, 116, 101, 83, 116, 114, 105, 110, 103],  -- toDateString
    [116, 111, 69, 120, 112, 111, 110, 101, 110, 116, 105, 97, 108],  -- toExponential
    [116, 111, 70, 105, 120, 101, 100],  -- toFixed
    [116, 111, 71, 77, 84, 83, 116, 114, 105, 110, 103],  -- toGMTString
    [116, 111, 73, 83, 79, 83, 116, 114, 105, 110, 103],  -- toISOString
    [116, 111, 74, 83, 79, 78],  -- toJSON
    [116, 111, 76, 111, 99, 97, 108, 101, 68, 97, 116, 101, 83, 116, 114, 105, 110, 103],  -- toLocaleDateString
    [116, 111, 76, 111, 99, 97, 108, 101, 76, 111, 119, 101, 114, 67, 97, 115, 101],  -- toLocaleLowerCase
    [116, 111, 76, 111, 99, 97, 108, 101, 83, 116, 114, 105, 110, 103],  -- toLocaleString
    [116, 111, 76, 111, 99, 97, 108, 101, 84, 105, 109, 101, 83, 116, 114, 105, 110, 103],  -- toLocaleTimeString
    [116, 111, 76, 111, 99, 97, 108, 101, 85, 112, 112, 101, 114, 67, 97, 115, 101],  -- toLocaleUpperCase
    [116, 111, 76, 111, 103, 83, 116, 114, 105, 110, 103],  -- toLogString
    [116, 111, 76, 111, 119, 101, 114, 67, 97, 115, 101],  -- toLowerCase
    [116, 111, 80, 114, 101, 99, 105, 115, 105, 111, 110],  -- toPrecision
    [116, 111, 83, 116, 114, 105, 110, 103],  -- toString
    [116, 111, 84, 105, 109, 101, 83, 116, 114, 105, 110, 103],  -- toTimeString
    [116, 111, 85, 84, 67, 83, 116, 114, 105, 110, 103],  -- toUTCString
    [116, 111, 85, 112, 112, 101, 114, 67, 97, 115, 101],  -- toUpperCase
    [116, 111, 103, 103, 108, 101],  -- toggle
    [116, 114, 97, 99, 101],  -- trace
    [116, 114, 97, 110, 115, 108, 97, 116, 105, 111, 110, 115],  -- translations
    [116, 114, 105, 109],  -- trim
    [116, 114, 117, 101],  -- true
    [116, 121, 112, 101, 111, 102],  -- typeof
    [117, 97, 114, 116]  -- uart
  ]

/-- Entries 350 to 374 of `sortedWords`. -/
def sortedWords_350 : List (List Nat) :=
  [
    [117, 110, 100, 101, 102, 105, 110, 101, 100],  -- undefined
    [117, 110, 101, 115, 99, 97, 112, 101],  -- unescape
    [117, 110, 105, 116, 115],  -- units
    [117, 110, 115, 104, 105, 102, 116],  -- unshift
    [118, 97, 108, 117, 101],  -- value
    [118, 97, 108, 117, 101, 79, 102],  -- valueOf
    [118, 101, 114, 115, 105, 111, 110],  -- version
    [118, 111, 105, 100],  -- void
    [119, 97, 114, 110],  -- warn
    [119, 104, 105, 108, 101],  -- while
    [119, 105, 100, 103, 101, 116, 115],  -- widgets
    [119, 105, 116, 104],  -- with
    [119, 114, 105, 116, 97, 98, 108, 101],  -- writable
    [119, 114, 105, 116, 101, 97, 98, 108, 101],  -- writeable
    [121, 105, 101, 108, 100],  -- yield
    [123, 34, 95, 102, 117, 110, 99, 34, 58, 116, 114, 117, 101, 125],
    [123, 34, 95, 105, 110, 102, 34, 58, 116, 114, 117, 101, 125],
    [123, 34, 95, 110, 97, 110, 34, 58, 116, 114, 117, 101, 125],
    [123, 34, 95, 110, 105, 110, 102, 34, 58, 116, 114, 117, 101, 125],
    [123, 34, 95, 117, 110, 100, 101, 102, 34, 58, 116, 114, 117, 101, 125],
    [123, 95, 102, 117, 110, 99, 58, 116, 114, 117, 101, 125],
    [255, 65, 114, 103, 115],  -- \377Args
    [255, 66, 121, 116, 101, 99, 111, 100, 101],  -- \377Bytecode
    [255, 67, 97, 108, 108, 101, 101],  -- \377Callee
    [255, 70, 105, 110, 97, 108, 105, 122, 101, 114]  -- \377Finalizer
  ]

/-- Entries 375 to 394 of `sortedWords`. -/
def sortedWords_375 : List (List Nat) :=
  [
    [255, 70, 111, 114, 109, 97, 108, 115],  -- \377Formals
    [255, 72, 97, 110, 100, 108, 101, 114],  -- \377Handler
    [255, 76, 101, 120, 101, 110, 118],  -- \377Lexenv
    [255, 77, 97, 112],  -- \377Map
    [255, 78, 101, 120, 116],  -- \377Next
    [255, 80, 99, 50, 108, 105, 110, 101],  -- \377Pc2line
    [255, 82, 101, 103, 98, 97, 115, 101],  -- \377Regbase
    [255, 83, 111, 117, 114, 99, 101],  -- \377Source
    [255, 84, 97, 114, 103, 101, 116],  -- \377Target
    [255, 84, 104, 105, 115],  -- \377This
    [255, 84, 104, 114, 101, 97, 100],  -- \377Thread
    [255, 84, 114, 97, 99, 101, 100, 97, 116, 97],  -- \377Tracedata
    [255, 86, 97, 108, 117, 101],  -- \377Value
    [255, 86, 97, 114, 101, 110, 118],  -- \377Varenv
    [255, 86, 97, 114, 109, 97, 112],  -- \377Varmap
    [255, 99, 116, 120],  -- \377ctx
    [255, 108, 97, 98, 101, 108],  -- \377label
    [255, 114, 97, 110, 103, 101],  -- \377range
    [255, 116, 114, 105, 103, 115],  -- \377trigs
    [255, 119, 98, 117, 102]  -- \377wbuf
  ]

/-- The array `sortedWords`, each string as its bytes without the terminating NUL, in the
order of the source. -/
def sortedWords : List (List Byte) :=
  sortedWords_0 ++ sortedWords_25 ++ sortedWords_50 ++ sortedWords_75 ++
  sortedWords_100 ++ sortedWords_125 ++ sortedWords_150 ++ sortedWords_175 ++
  sortedWords_200 ++ sortedWords_225 ++ sortedWords_250 ++ sortedWords_275 ++
  sortedWords_300 ++ sortedWords_325 ++ sortedWords_350 ++ sortedWords_375

/-- The call `strncmp(s1, s2, n)` on unsigned bytes; a list ends in its terminating NUL.
Only the sign of the result is used. -/
def strncmp : List Byte → List Byte → Nat → Int
  | _, _, 0 => 0
  | s1, s2, n + 1 =>
    if byteAt s1 0 ≠ byteAt s2 0 then (byteAt s1 0 : Int) - (byteAt s2 0 : Int)
    else if byteAt s1 0 = 0 then 0
    else strncmp s1.tail s2.tail n

/-- The do-while loop of `AJS_ExternalStringCheck` from the bounds `min` and `max`, one
iteration per unit of `fuel`.  The result `some (some pos)` is the pointer `sortedWords[pos]`,
`some none` is NULL; there is no result when the fuel is used up, when `pos` is not an
index of the table, or when `word[len]` lies behind the terminating NUL of the word. -/
def searchLoop (str : List Byte) (len : Nat) : (fuel : Nat) → (min max : Nat) → Option (Option Nat)
  | 0, _, _ => none
  | fuel + 1, min, max =>
    let pos := min + (max - min) / 2
    match sortedWords[pos]? with
    | none => none
    | some word =>
      let cmp := strncmp str word len
      if cmp = 0 ∧ word.length < len then none
      else if cmp = 0 ∧ byteAt word len = 0 then some (some pos)
      else
        let cmp2 := if cmp = 0 then -1 else cmp
        let min2 := if cmp2 < 0 then min else pos + 1
        let max2 := if cmp2 < 0 then pos else max
        if max2 ≠ min2 then searchLoop str len fuel min2 max2 else some none

/-- The function `AJS_ExternalStringCheck` on the bytes at `ptr` and the length `len`. -/
def AJS_ExternalStringCheck (str : List Byte) (len : Nat) : Option (Option Nat) :=
  if len ≤ 3 then some none
  else searchLoop str len sortedWords.length 0 (sortedWords.length - 1)

/-- The fifteen identifiers of the busy-fallback cases. -/
def busyFallbackIds : List MsgId :=
  [.DBG_BASIC_MSGID, .DBG_TRIGGER_MSGID, .DBG_RESUME_MSGID, .DBG_STEPIN_MSGID,
    .DBG_STEPOVER_MSGID, .DBG_STEPOUT_MSGID, .DBG_LISTBREAK_MSGID, .DBG_DELBREAK_MSGID,
    .DBG_GETVAR_MSGID, .DBG_PUTVAR_MSGID, .DBG_GETCALL_MSGID, .DBG_GETLOCALS_MSGID,
    .DBG_DUMPHEAP_MSGID, .DBG_VERSION_MSGID, .DBG_DETACH_MSGID]

/-- The all-success environment over a storage that reports 2^31 free bytes. -/
def hugeStorageEnv : Env :=
  { sampleEnv with AJ_NVRAM_GetSizeRemaining := fun _ => 2147483648 }

/-- A length word declaring 600000000 bytes, with nothing behind it. -/
def sixHundredMillion : List RawRead := [⟨.AJ_OK, [0, 70, 195, 35]⟩]

/-- A property read of the given property. -/
def propMsg (p : PropId) : AJ_Message :=
  { msgId := .GET_PROP_MSGID, endianess := .little, argStatus := .AJ_OK, argS := [], argY := 0,
    argQ := 0, argU := 0, propId := p, raw := [] }

/-- A request marshalled in big-endian order whose length word declares 1025 bytes. -/
def bigEndianMsg (id : MsgId) : AJ_Message :=
  { sampleMsg id aJs [⟨.AJ_OK, [0, 0, 4, 1]⟩] with endianess := .big }

/-- A length word declaring five bytes and the payload 49, 0, 50, 0, 0 in two fragments. -/
def nulPadded : List RawRead :=
  [⟨.AJ_OK, [5, 0, 0, 0]⟩, ⟨.AJ_OK, [49, 0]⟩, ⟨.AJ_OK, [50, 0, 0]⟩]

/-- A file name of 251 bytes. -/
def longFileName : List Byte := List.replicate 251 97

/-- An AddBreak request for a file name and a line. -/
def addBreakMsg (file : List Byte) (line : Nat) : AJ_Message :=
  { sampleMsg .DBG_ADDBREAK_MSGID file [] with argY := line }

/-- A state with a console session and a debugger state whose input buffer has the given
capacity and is empty. -/
def debugState (capacity : Nat) : State :=
  { sampleState .ENGINE_RUNNING with dbgState := some ⟨⟨capacity, []⟩, none, 0⟩ }

/-- The input is a Pause or an AddBreak request. -/
def isFrameRequest : Input → Prop
  | .message _ msg => msg.msgId = .DBG_PAUSE_MSGID ∨ msg.msgId = .DBG_ADDBREAK_MSGID
  | .terminate => False

/-- The write cursor of the debugger's input buffer, if there is one, is within the
buffer. -/
def CursorInBounds (s : State) : Prop :=
  ∀ d, s.dbgState = some d → d.read.written.length ≤ d.read.bufSize

/-- The frame the case `DBG_PAUSE_MSGID` copies: three octets of the packed word. -/
def pauseFrame (env : Env) : List Byte :=
  (store32 env.AJ_NATIVE_ENDIAN
    (env.BUILD_DBG_MSG env.DBG_TYPE_REQ (env.PAUSE_REQ + 0x80) env.DBG_TYPE_EOM 0)).take 3

/-! ## Print and alert -/

/-- Signals of the console interface. -/
inductive SignalId
  | PRINT_SIGNAL_MSGID
  | ALERT_SIGNAL_MSGID
  deriving DecidableEq, Repr

/-- Answers of the bus while a print or alert signal is marshalled. -/
structure SignalEnv where
  /-- byte order of the host -/
  AJ_NATIVE_ENDIAN : Endian
  /-- status of `AJ_MarshalSignal` -/
  AJ_MarshalSignal : AJ_Status
  /-- status of `AJ_DeliverMsgPartial` for a body of the given size -/
  AJ_DeliverMsgPartial : Nat → AJ_Status
  /-- status of the n-th `AJ_MarshalRaw` call -/
  AJ_MarshalRaw : Nat → AJ_Status
  /-- status of `AJ_DeliverMsg` -/
  AJ_DeliverMsg : AJ_Status

/-- Calls made on the print and alert path, with the results that steer it. -/
inductive ConsoleCall
  | marshalSignal (sigId : SignalId) (destination : List Byte) (sessionId : Nat)
      (status : AJ_Status)
  | deliverPartial (size : Nat) (status : AJ_Status)
  | marshalRaw (bytes : List Byte) (status : AJ_Status)
  | deliverMsg (status : AJ_Status)
  | errPrintf (status : AJ_Status)
  | printf (alert : Bool) (args : List (List Byte))
  deriving DecidableEq, Repr

/-- The second loop of `SignalConsole`: one `AJ_MarshalRaw` per argument while the status
is `AJ_OK`; `i` counts the raw marshalling calls made before. -/
def SignalConsole_args (env : SignalEnv) : (i : Nat) → List (List Byte) →
    AJ_Status × List ConsoleCall
  | _, [] => (.AJ_OK, [])
  | i, a :: rest =>
    if env.AJ_MarshalRaw i ≠ .AJ_OK then
      (env.AJ_MarshalRaw i, [.marshalRaw a (env.AJ_MarshalRaw i)])
    else
      let r := SignalConsole_args env (i + 1) rest
      (r.1, .marshalRaw a .AJ_OK :: r.2)

/-- The function `SignalConsole`; `args` are the stringified values on the value stack.
The length word is the first four bytes of `len`. -/
def SignalConsole (env : SignalEnv) (args : List (List Byte)) (sigId : SignalId) (s : State) :
    List ConsoleCall :=
  if s.debugQuiet = false then
    let len := (args.map List.length).sum
    let st0 := env.AJ_MarshalSignal
    let ev0 := [ConsoleCall.marshalSignal sigId s.consoleBusName s.consoleSession st0]
    if st0 ≠ .AJ_OK then ev0 ++ [.errPrintf st0]
    else
      let st1 := env.AJ_DeliverMsgPartial ((len + 1 + 4) % 2 ^ 32)
      let ev1 := ev0 ++ [.deliverPartial ((len + 1 + 4) % 2 ^ 32) st1]
      if st1 ≠ .AJ_OK then ev1 ++ [.errPrintf st1]
      else
        let st2 := env.AJ_MarshalRaw 0
        let ev2 := ev1 ++ [.marshalRaw (store32 env.AJ_NATIVE_ENDIAN len) st2]
        if st2 ≠ .AJ_OK then ev2 ++ [.errPrintf st2]
        else
          let r := SignalConsole_args env 1 args
          let ev3 := ev2 ++ r.2
          if r.1 ≠ .AJ_OK then ev3 ++ [.errPrintf r.1]
          else
            let st4 := env.AJ_MarshalRaw (args.length + 1)
            let ev4 := ev3 ++ [.marshalRaw [0] st4]
            if st4 ≠ .AJ_OK then ev4 ++ [.errPrintf st4]
            else if env.AJ_DeliverMsg ≠ .AJ_OK then
              ev4 ++ [.deliverMsg env.AJ_DeliverMsg, .errPrintf env.AJ_DeliverMsg]
            else ev4 ++ [.deliverMsg .AJ_OK]
  else []

/-- The function `AJS_AlertHandler`. -/
def AJS_AlertHandler (env : SignalEnv) (args : List (List Byte)) (alert : Nat) (s : State) :
    List ConsoleCall :=
  if s.consoleSession ≠ 0 ∧ s.debugQuiet = false then
    SignalConsole env args
      (if alert ≠ 0 then .ALERT_SIGNAL_MSGID else .PRINT_SIGNAL_MSGID) s
  else [.printf (decide (alert ≠ 0)) args]

/-- A call that marshals to the bus or delivers. -/
def onBus : ConsoleCall → Bool
  | .marshalSignal _ _ _ _ => true
  | .deliverPartial _ _ => true
  | .marshalRaw _ _ => true
  | .deliverMsg _ => true
  | _ => false

/-- A bus on which every call succeeds, on a little-endian host. -/
def sampleBus : SignalEnv :=
  { AJ_NATIVE_ENDIAN := .little, AJ_MarshalSignal := .AJ_OK,
    AJ_DeliverMsgPartial := fun _ => .AJ_OK, AJ_MarshalRaw := fun _ => .AJ_OK,
    AJ_DeliverMsg := .AJ_OK }

/-- A debug-begin request with the given quiet flag. -/
def debugBeginMsg (quiet : Nat) : AJ_Message := plainMsg .DBG_BEGIN_MSGID 0 quiet

/-- The function `AJS_GetScriptSize`. -/
def AJS_GetScriptSize (s : State) : Nat := s.scriptSize

/-- A length word declaring an empty payload. -/
def emptyScript : List RawRead := [⟨.AJ_OK, [0, 0, 0, 0]⟩]

/-- The operations of the module after a debug-begin, one of each kind: debug-end, a
debug-begin with quiet flag 0, the loss of session 7, a session-accept, reset, install,
eval, and the termination of the module. -/
def laterOperations : List Input :=
  [.message sampleEnv (plainMsg .DBG_END_MSGID 0 0),
    .message sampleEnv (debugBeginMsg 0),
    .message sampleEnv (plainMsg .AJ_SIGNAL_SESSION_LOST_WITH_REASON 7 0),
    .message sampleEnv (acceptMsg 7714 9 peerName),
    .message sampleEnv (plainMsg .RESET_MSGID 0 0),
    .message sampleEnv (sampleMsg .INSTALL_MSGID aJs onePlusOne),
    .message sampleEnv (sampleMsg .EVAL_MSGID [] onePlusOne),
    .terminate]

/-- A file name of 255 bytes. -/
def longerFileName : List Byte := List.replicate 255 97

/-! ## Install outside the clean state -/

/-- C1: an Install handled while the engine state is not Clean returns with exactly one
external call, the delivery of a reply carrying NeedReset (4) and the text "Reset required":
no storage call, no unmarshalling; the state, storage included, is unchanged. -/
theorem Install_not_clean (env : Env) (msg : AJ_Message) (s : State)
    (h : s.engineState ≠ .ENGINE_CLEAN) :
    Install env msg s =
      some ⟨env.AJ_DeliverMsg (.method [.y 4, .s "Reset required"]), s,
        [.deliver (.method [.y 4, .s "Reset required"])]⟩ := by
  simp [Install, h, SCRIPT_NEED_RESET_ERROR]

/-- C1 at a concrete request: an install of 1+1 under the name a.js while Running. -/
theorem Install_not_clean_witness :
    (sampleState .ENGINE_RUNNING).engineState ≠ .ENGINE_CLEAN ∧
    Install sampleEnv (sampleMsg .INSTALL_MSGID aJs onePlusOne) (sampleState .ENGINE_RUNNING) =
      some ⟨.AJ_OK, sampleState .ENGINE_RUNNING,
        [.deliver (.method [.y 4, .s "Reset required"])]⟩ :=
  ⟨by decide, Install_not_clean sampleEnv _ _ (by decide)⟩


theorem Nvram.get_set_same (nv : Nvram) (id : NvId) (v : Option (List Byte)) :
    (nv.set id v).get id = v := by
  cases id <;> rfl

theorem Nvram.get_set_other (nv : Nvram) (id id2 : NvId) (v : Option (List Byte)) (h : id2 ≠ id) :
    (nv.set id v).get id2 = nv.get id2 := by
  cases id <;> cases id2 <;> first | rfl | exact absurd rfl h

theorem Nvram.set_set (nv : Nvram) (id : NvId) (v v2 : Option (List Byte)) :
    (nv.set id v).set id v2 = nv.set id v2 := by
  cases id <;> rfl

theorem store32_length (o : Endian) (v : Nat) : (store32 o v).length = 4 := by
  cases o <;> rfl

/-- A write that reports the requested size went through a handle and appended all the data. -/
theorem AJ_NVRAM_Write_full (env : Env) (data : List Byte) (size : Nat) (ds : Option NvId)
    (nv : Nvram) (hlen : data.length = size)
    (h : (AJ_NVRAM_Write env data size ds nv).1 = some size) :
    ∃ id, ds = some id ∧
      (AJ_NVRAM_Write env data size ds nv).2 = nv.set id (some ((nv.get id).getD [] ++ data)) := by
  cases ds with
  | none => simp [AJ_NVRAM_Write] at h
  | some id =>
    refine ⟨id, rfl, ?_⟩
    simp only [AJ_NVRAM_Write] at h ⊢
    have h2 : env.nvWrite id ((nv.get id).getD []).length size = size := by simpa using h
    rw [h2, Nat.min_self, ← hlen, List.take_length]

/-- Events of a copy loop of Install that ran to completion: none is a failed step, none
a delivery. -/
theorem Install_copy_done_events (env : Env) (ds : Option NvId) (raw : List RawRead) :
    ∀ (len : Nat) (nv nv2 : Nvram) (evs : List Event),
      Install_copy env ds len raw nv = some (.done nv2 evs) →
      ∀ e ∈ evs, failedStep e = false ∧ isDeliver e = false := by
  induction raw with
  | nil =>
    intro len nv nv2 evs h
    simp only [Install_copy] at h
    split at h
    · simp only [Option.some.injEq, InstallCopy.done.injEq] at h
      obtain ⟨-, rfl⟩ := h
      simp
    · simp at h
  | cons r rest ih =>
    intro len nv nv2 evs h
    simp only [Install_copy] at h
    split at h
    · simp only [Option.some.injEq, InstallCopy.done.injEq] at h
      obtain ⟨-, rfl⟩ := h
      simp
    · split at h
      · simp at h
      · split at h
        · simp at h
        · rename_i hlen hst hwr
          split at h
          · simp at h
          · rename_i nv3 evs3 hrec
            simp only [Option.some.injEq, InstallCopy.done.injEq] at h
            obtain ⟨-, rfl⟩ := h
            have hw : (AJ_NVRAM_Write env r.chunk r.chunk.length ds nv).1 = some r.chunk.length := by
              simpa using hwr
            obtain ⟨id, rfl, -⟩ := AJ_NVRAM_Write_full env _ _ ds nv rfl hw
            intro e he
            simp only [List.mem_cons] at he
            rcases he with rfl | rfl | he
            · simp [failedStep, isDeliver]
            · rw [hw]; cases id <;> simp [failedStep, isDeliver]
            · exact ih _ _ _ _ hrec e he
          · simp at h

/-- Events of a copy loop of Install that left through a failure: none is a delivery,
and a failed step among them is the one the exit status originates from. -/
theorem Install_copy_fail_events (env : Env) (ds : Option NvId) (raw : List RawRead) :
    ∀ (len : Nat) (nv nv2 : Nvram) (st : AJ_Status) (evs : List Event),
      Install_copy env ds len raw nv = some (.fail st nv2 evs) →
      ∀ e ∈ evs, isDeliver e = false ∧ (failedStep e = true → originOf e = st) := by
  induction raw with
  | nil =>
    intro len nv nv2 st evs h
    simp only [Install_copy] at h
    split at h <;> simp at h
  | cons r rest ih =>
    intro len nv nv2 st evs h
    simp only [Install_copy] at h
    split at h
    · simp at h
    · split at h
      · simp only [Option.some.injEq, InstallCopy.fail.injEq] at h
        obtain ⟨rfl, -, rfl⟩ := h
        simp [isDeliver, originOf]
      · split at h
        · simp only [Option.some.injEq, InstallCopy.fail.injEq] at h
          obtain ⟨rfl, -, rfl⟩ := h
          simp [isDeliver, originOf, failedStep]
        · rename_i hlen hst hwr
          split at h
          · simp at h
          · simp at h
          · rename_i st3 nv3 evs3 hrec
            simp only [Option.some.injEq, InstallCopy.fail.injEq] at h
            obtain ⟨rfl, -, rfl⟩ := h
            intro e he
            simp only [List.mem_cons] at he
            rcases he with rfl | rfl | he
            · simp [failedStep, isDeliver]
            · have hw : (AJ_NVRAM_Write env r.chunk r.chunk.length ds nv).1
                  = some r.chunk.length := by simpa using hwr
              obtain ⟨id, rfl, -⟩ := AJ_NVRAM_Write_full env _ _ ds nv rfl hw
              rw [hw]; cases id <;> simp [failedStep, isDeliver]
            · exact ih _ _ _ _ _ hrec e he

theorem Nvram.set_get_self (nv : Nvram) (id : NvId) : nv.set id (nv.get id) = nv := by
  cases id <;> rfl

theorem sub32_of_le (a b : Nat) (ha : a < 2 ^ 32) (hb : b ≤ a) : sub32 a b = a - b := by
  unfold sub32
  have h1 : b % 2 ^ 32 = b := Nat.mod_eq_of_lt (by omega)
  rw [h1]
  omega

/-- A copy loop of Install that ran to completion on reads making up exactly the declared
length appended exactly those bytes to the record behind the handle. -/
theorem Install_copy_done_content (env : Env) (id : NvId) (raw : List RawRead) :
    ∀ (len : Nat) (nv nv2 : Nvram) (evs : List Event) (cur : List Byte),
      len < 2 ^ 32 → ((raw.map (·.chunk)).flatten).length = len → nv.get id = some cur →
      Install_copy env (some id) len raw nv = some (.done nv2 evs) →
      nv2 = nv.set id (some (cur ++ (raw.map (·.chunk)).flatten)) := by
  induction raw with
  | nil =>
    intro len nv nv2 evs cur _ _ hcur h
    simp only [Install_copy] at h
    split at h
    · simp only [Option.some.injEq, InstallCopy.done.injEq] at h
      obtain ⟨rfl, -⟩ := h
      simp [← hcur, Nvram.set_get_self]
    · simp at h
  | cons r rest ih =>
    intro len nv nv2 evs cur hlt hjoin hcur h
    simp only [List.map_cons, List.flatten_cons, List.length_append] at hjoin
    simp only [Install_copy] at h
    split at h
    · rename_i h0
      simp only [Option.some.injEq, InstallCopy.done.injEq] at h
      obtain ⟨rfl, -⟩ := h
      have h1 : r.chunk = [] := List.length_eq_zero.mp (by omega)
      have h2 : (rest.map (·.chunk)).flatten = [] := List.length_eq_zero.mp (by omega)
      simp [h1, h2, ← hcur, Nvram.set_get_self]
    · split at h
      · simp at h
      · split at h
        · simp at h
        · rename_i hlen hst hwr
          have hw : (AJ_NVRAM_Write env r.chunk r.chunk.length (some id) nv).1
              = some r.chunk.length := by simpa using hwr
          obtain ⟨id2, hid, hnv⟩ := AJ_NVRAM_Write_full env _ _ (some id) nv rfl hw
          cases hid
          rw [hnv, hcur, sub32_of_le len _ hlt (by omega)] at h
          split at h
          · simp at h
          · rename_i nv3 evs3 hrec
            simp only [Option.some.injEq, InstallCopy.done.injEq] at h
            obtain ⟨rfl, -⟩ := h
            have := ih _ _ _ _ (cur ++ r.chunk) (by omega) (by omega)
              (Nvram.get_set_same _ _ _) hrec
            rw [this, Nvram.set_set]
            simp
          · simp at h

theorem closeIfOpen_events (ds : Option NvId) :
    ∀ e ∈ closeIfOpen ds, failedStep e = false ∧ isDeliver e = false := by
  cases ds <;> simp [closeIfOpen, failedStep, isDeliver]

theorem AJ_NVRAM_Open_w_cases (env : Env) (id : NvId) (nv : Nvram) :
    AJ_NVRAM_Open env id .w nv = (none, nv) ∨
      AJ_NVRAM_Open env id .w nv = (some id, nv.set id (some [])) := by
  unfold AJ_NVRAM_Open
  by_cases h : env.nvOpen id .w = true <;> simp [h]

theorem Install_ErrorReply_exit (env : Env) (ds : Option NvId) (st : AJ_Status) (s : State)
    (evs tail : List Event)
    (htail : ∀ e ∈ tail, isDeliver e = false ∧ (failedStep e = true → originOf e = st)) :
    FailureExit env evs (Install_ErrorReply env ds st s (evs ++ tail)) := by
  refine ⟨st, tail ++ closeIfOpen ds, ?_, rfl, ?_, ?_⟩
  · simp [Install_ErrorReply]
  · simp [Install_ErrorReply, AJ_NVRAM_Delete, Nvram.set]
  · intro e he
    rcases List.mem_append.mp he with h | h
    · exact htail e h
    · have := closeIfOpen_events ds e h
      simp [this.1, this.2]

/-- The two ways the storing branch of Install returns: through the label `ErrorReply`,
or with the reply "Script installed" after a copy loop that ran to completion. -/
theorem Install_store_cases (env : Env) (len : Nat) (raw : List RawRead) (s : State)
    (evs : List Event) (out : Outcome) (h : Install_store env len raw s evs = some out) :
    FailureExit env evs out
    ∨ (∃ nv3 evs2 tail,
        Install_copy env (some .AJS_SCRIPT_NVRAM_ID) len raw
          (s.nvram.set .AJS_SCRIPT_NVRAM_ID (some (store32 env.AJ_NATIVE_ENDIAN len)))
          = some (.done nv3 evs2) ∧
        out.state = { s with
          nvram := nv3.set .AJS_SCRIPT_SIZE_ID
            (some (store32 env.AJ_NATIVE_ENDIAN ((len + 4) % 2 ^ 32))),
          scriptSize := (len + 4) % 2 ^ 32 } ∧
        out.events = evs ++ tail ++ [.deliver installedReply] ∧
        (∀ e ∈ tail, failedStep e = false ∧ isDeliver e = false) ∧
        out.status = if env.AJ_DeliverMsg installedReply = .AJ_OK then .AJ_ERR_RESTART_APP
          else env.AJ_DeliverMsg installedReply) := by
  unfold Install_store at h
  simp only at h
  generalize hop : AJ_NVRAM_Open env .AJS_SCRIPT_NVRAM_ID .w s.nvram = op at h
  generalize hwr : AJ_NVRAM_Write env (store32 env.AJ_NATIVE_ENDIAN len) 4 op.1 op.2 = wr at h
  split at h
  · -- the length word was not written
    left
    simp only [Option.some.injEq] at h
    subst h
    apply Install_ErrorReply_exit
    simp [isDeliver, originOf]
  · rename_i hw
    have hw : wr.1 = some 4 := by simpa using hw
    rw [← hwr] at hw
    obtain ⟨id, hid, hnv⟩ := AJ_NVRAM_Write_full env _ 4 op.1 op.2 (store32_length _ _) hw
    rw [hwr] at hw hnv
    rcases AJ_NVRAM_Open_w_cases env .AJS_SCRIPT_NVRAM_ID s.nvram with ho | ho
    · rw [ho] at hop; subst hop; simp at hid
    rw [ho] at hop; subst hop
    simp only at hid hnv h
    cases hid
    simp only [Nvram.get_set_same, Option.getD_some, List.nil_append, Nvram.set_set] at hnv
    rw [hnv] at h
    have hev1 : ∀ e ∈ [Event.nvOpen .AJS_SCRIPT_NVRAM_ID .w (4 + len) true,
        Event.nvWrite (some .AJS_SCRIPT_NVRAM_ID) 4 wr.1],
        failedStep e = false ∧ isDeliver e = false := by
      rw [hw]; simp [failedStep, isDeliver]
    split at h
    · simp at h
    · -- the copy loop failed
      rename_i st nv evs2 hcopy
      left
      simp only [Option.some.injEq] at h
      subst h
      rw [List.append_assoc]
      apply Install_ErrorReply_exit
      intro e he
      rcases List.mem_append.mp he with h1 | h1
      · have := hev1 e (by simpa using h1)
        simp [this.1, this.2]
      · exact Install_copy_fail_events env _ raw _ _ _ _ _ hcopy e h1
    · rename_i nv evs2 hcopy
      generalize hop2 : AJ_NVRAM_Open env .AJS_SCRIPT_SIZE_ID .w nv = op2 at h
      generalize hwr2 : AJ_NVRAM_Write env
        (store32 env.AJ_NATIVE_ENDIAN ((len + 4) % 2 ^ 32)) 4 op2.1 op2.2 = wr2 at h
      have hloop := Install_copy_done_events env _ raw _ _ _ _ hcopy
      split at h
      · -- the byte-count record was not written
        left
        simp only [Option.some.injEq] at h
        subst h
        simp only [List.append_assoc]
        apply Install_ErrorReply_exit
        intro e he
        simp only [closeIfOpen, List.mem_append, List.mem_cons, List.mem_singleton,
          List.not_mem_nil, or_false, or_assoc, Option.isSome_some] at he
        rcases he with h1 | h1 | h1 | h1 | h1 | h1
        · subst h1; simp [isDeliver, failedStep]
        · subst h1; rw [hw]; simp [isDeliver, failedStep]
        · have := hloop e h1
          simp [this.1, this.2]
        · subst h1; simp [isDeliver, failedStep]
        · subst h1; simp [isDeliver, failedStep]
        · subst h1; simp [isDeliver, originOf]
      · rename_i hw2
        have hw2 : wr2.1 = some 4 := by simpa using hw2
        rw [← hwr2] at hw2
        obtain ⟨id2, hid2, hnv2⟩ :=
          AJ_NVRAM_Write_full env _ 4 op2.1 op2.2 (store32_length _ _) hw2
        rw [hwr2] at hw2 hnv2
        rcases AJ_NVRAM_Open_w_cases env .AJS_SCRIPT_SIZE_ID nv with ho2 | ho2
        · rw [ho2] at hop2; subst hop2; simp at hid2
        rw [ho2] at hop2; subst hop2
        simp only at hid2 hnv2 h
        cases hid2
        simp only [Nvram.get_set_same, Option.getD_some, List.nil_append, Nvram.set_set] at hnv2
        right
        simp only [Option.some.injEq] at h
        subst h
        refine ⟨nv, evs2, [Event.nvOpen .AJS_SCRIPT_NVRAM_ID .w (4 + len) true,
            Event.nvWrite (some .AJS_SCRIPT_NVRAM_ID) 4 wr.1] ++ evs2 ++
            closeIfOpen (some .AJS_SCRIPT_NVRAM_ID) ++
            [Event.nvOpen .AJS_SCRIPT_SIZE_ID .w 4 true,
              Event.nvWrite (some .AJS_SCRIPT_SIZE_ID) 4 wr2.1] ++
            closeIfOpen (some .AJS_SCRIPT_SIZE_ID), hcopy, ?_, ?_, ?_, rfl⟩
        · simp only [hnv2]
        · simp only [List.append_assoc, Option.isSome_some]
          rfl
        · intro e he
          simp only [closeIfOpen, List.mem_append, List.mem_cons, List.mem_singleton,
            List.not_mem_nil, or_false, or_assoc, Option.isSome_some] at he
          rcases he with h1 | h1 | h1 | h1 | h1 | h1 | h1
          · subst h1; simp [isDeliver, failedStep]
          · subst h1; rw [hw]; simp [isDeliver, failedStep]
          · exact hloop e h1
          · subst h1; simp [isDeliver, failedStep]
          · subst h1; simp [isDeliver, failedStep]
          · subst h1; rw [hw2]; simp [isDeliver, failedStep]
          · subst h1; simp [isDeliver, failedStep]

theorem Install_saveName_events (env : Env) (name : List Byte) (nv : Nvram) :
    ∀ e ∈ (Install_saveName env name nv).2,
      failedStep e = false ∧ isDeliver e = false ∧ touchesScript e = false := by
  unfold Install_saveName
  simp only
  rcases AJ_NVRAM_Open_w_cases env .AJS_SCRIPT_NAME_NVRAM_ID nv with ho | ho <;>
    rw [ho] <;> simp [failedStep, isDeliver, touchesScript]

theorem FailureExit_absorb (env : Env) (evs : List Event) (out : Outcome)
    (hevs : ∀ e ∈ evs, failedStep e = false ∧ isDeliver e = false)
    (h : FailureExit env evs out) : FailureExit env [] out := by
  obtain ⟨st, tail, h1, h2, h3, h4⟩ := h
  refine ⟨st, evs ++ tail, by simpa using h1, h2, h3, ?_⟩
  intro e he
  rcases List.mem_append.mp he with h | h
  · have := hevs e h
    simp [this.1, this.2]
  · exact h4 e h

/-- The four ways `Install` returns. -/
theorem Install_cases (env : Env) (msg : AJ_Message) (s : State) (out : Outcome)
    (h : Install env msg s = some out) :
    (s.engineState ≠ .ENGINE_CLEAN ∧
      out = ⟨env.AJ_DeliverMsg needResetReply, s, [.deliver needResetReply]⟩)
    ∨ (s.engineState = .ENGINE_CLEAN ∧ FailureExit env [] out)
    ∨ (s.engineState = .ENGINE_CLEAN ∧ msg.argStatus = .AJ_OK ∧ ∃ r rest,
        msg.raw = r :: rest ∧ r.status = .AJ_OK ∧ 4 ≤ r.chunk.length ∧
        installCap env msg s < decodeLen env.AJ_NATIVE_ENDIAN msg.endianess r.chunk ∧
        out = ⟨env.AJ_DeliverMsg tooLongReply,
          { s with nvram := (Install_saveName env msg.argS s.nvram).1 },
          Event.unmarshalArgs "s" .AJ_OK :: (Install_saveName env msg.argS s.nvram).2 ++
            [.unmarshalRaw 4 .AJ_OK, .deliver tooLongReply]⟩)
    ∨ (s.engineState = .ENGINE_CLEAN ∧ msg.argStatus = .AJ_OK ∧ ∃ r rest nv3 evs2 tail,
        msg.raw = r :: rest ∧ r.status = .AJ_OK ∧ 4 ≤ r.chunk.length ∧
        decodeLen env.AJ_NATIVE_ENDIAN msg.endianess r.chunk ≤ installCap env msg s ∧
        Install_copy env (some .AJS_SCRIPT_NVRAM_ID)
          (decodeLen env.AJ_NATIVE_ENDIAN msg.endianess r.chunk) rest
          ((Install_saveName env msg.argS s.nvram).1.set .AJS_SCRIPT_NVRAM_ID
            (some (store32 env.AJ_NATIVE_ENDIAN
              (decodeLen env.AJ_NATIVE_ENDIAN msg.endianess r.chunk))))
          = some (.done nv3 evs2) ∧
        out.state = { s with
          nvram := nv3.set .AJS_SCRIPT_SIZE_ID (some (store32 env.AJ_NATIVE_ENDIAN
            ((decodeLen env.AJ_NATIVE_ENDIAN msg.endianess r.chunk + 4) % 2 ^ 32))),
          scriptSize := (decodeLen env.AJ_NATIVE_ENDIAN msg.endianess r.chunk + 4) % 2 ^ 32 } ∧
        out.events = tail ++ [.deliver installedReply] ∧
        (∀ e ∈ tail, failedStep e = false ∧ isDeliver e = false) ∧
        out.status = if env.AJ_DeliverMsg installedReply = .AJ_OK then .AJ_ERR_RESTART_APP
          else env.AJ_DeliverMsg installedReply) := by
  unfold Install at h
  by_cases hc : s.engineState = .ENGINE_CLEAN
  swap
  · left
    simp only [ne_eq, hc, not_false_eq_true, ↓reduceIte, Option.some.injEq] at h
    exact ⟨hc, h.symm⟩
  right
  rw [if_neg (fun hne => hne hc)] at h
  by_cases ha : msg.argStatus = .AJ_OK
  swap
  · left
    simp only [ne_eq, ha, not_false_eq_true, ↓reduceIte, Option.some.injEq] at h
    subst h
    refine ⟨hc, ?_⟩
    have := Install_ErrorReply_exit env none msg.argStatus s []
      [.unmarshalArgs "s" msg.argStatus] (by simp [isDeliver, failedStep])
    simpa using this
  simp only [ne_eq, ha, not_true_eq_false, ↓reduceIte] at h
  have hsave := Install_saveName_events env msg.argS s.nvram
  cases hraw : msg.raw with
  | nil => simp [hraw] at h
  | cons r rest =>
    simp only [hraw] at h
    by_cases hr : r.status = .AJ_OK
    swap
    · left
      simp only [ne_eq, hr, not_false_eq_true, ↓reduceIte, Option.some.injEq] at h
      subst h
      refine ⟨hc, ?_⟩
      have := Install_ErrorReply_exit env none r.status
        { s with nvram := (Install_saveName env msg.argS s.nvram).1 } []
        (Event.unmarshalArgs "s" .AJ_OK :: (Install_saveName env msg.argS s.nvram).2 ++
          [.unmarshalRaw 4 r.status]) (by
          intro e he
          simp only [List.cons_append, List.mem_cons, List.mem_append, List.mem_singleton,
            List.not_mem_nil, or_false] at he
          rcases he with h1 | h1 | h1
          · subst h1; simp [isDeliver, failedStep]
          · have := hsave e h1; simp [this.1, this.2.1]
          · subst h1; simp [isDeliver, originOf])
      simpa using this
    simp only [ne_eq, hr, not_true_eq_false, ↓reduceIte] at h
    by_cases h4 : r.chunk.length < 4
    · simp [h4] at h
    simp only [h4, ↓reduceIte] at h
    have hev0 : ∀ e ∈ Event.unmarshalArgs "s" .AJ_OK ::
        (Install_saveName env msg.argS s.nvram).2 ++ [Event.unmarshalRaw 4 .AJ_OK],
        failedStep e = false ∧ isDeliver e = false := by
      intro e he
      simp only [List.cons_append, List.mem_cons, List.mem_append, List.mem_singleton,
        List.not_mem_nil, or_false] at he
      rcases he with h1 | h1 | h1
      · subst h1; simp [isDeliver, failedStep]
      · have := hsave e h1; simp [this.1, this.2.1]
      · subst h1; simp [isDeliver, failedStep]
    split at h
    · rename_i hlong
      right; left
      simp only [Option.some.injEq] at h
      exact ⟨hc, ha, r, rest, rfl, hr, by omega, hlong, by rw [← h]; simp [tooLongReply]⟩
    · rename_i hshort
      rcases Install_store_cases env _ rest _ _ out h with hf | ⟨nv3, evs2, tail, h1, h2, h3, h4', h5⟩
      · left
        exact ⟨hc, FailureExit_absorb env _ out hev0 hf⟩
      · right; right
        refine ⟨hc, ha, r, rest, nv3, evs2, _, rfl, hr, by omega,
          by simpa [installCap] using hshort, h1, h2.trans rfl,
          by rw [h3, List.append_assoc], ?_, h5⟩
        intro e he
        rcases List.mem_append.mp he with h6 | h6
        · exact hev0 e h6
        · exact h4' e h6

/-! ## Install: failure paths -/

/-- C2: whenever an Install returns after one of its steps failed (a raw read of the
request returned an error, or a write of the length word, of a payload chunk or of the
byte-count record did not report the requested size), the payload key is absent from
storage, the only reply delivered is a status message carrying the error of that step
(the status of the read, AJ_ERR_RESOURCES for a write), the handler returns the status of
that delivery, and, the bus never answering a delivery with the restart code, the restart
directive is not returned. -/
theorem Install_failure_deletes_payload (env : Env) (msg : AJ_Message) (s : State)
    (out : Outcome) (hout : Install env msg s = some out)
    (hdel : ∀ m, env.AJ_DeliverMsg m ≠ .AJ_ERR_RESTART_APP)
    (e : Event) (he : e ∈ out.events) (hfail : failedStep e = true) :
    out.state.nvram.script = none ∧
    out.events.getLast? = some (.deliver (.status (originOf e))) ∧
    out.events.filter isDeliver = [.deliver (.status (originOf e))] ∧
    out.status = env.AJ_DeliverMsg (.status (originOf e)) ∧
    out.status ≠ .AJ_ERR_RESTART_APP := by
  rcases Install_cases env msg s out hout with ⟨-, rfl⟩ | ⟨-, hf⟩ | ⟨-, -, r, rest, -, -, -, -, rfl⟩
    | ⟨-, -, r, rest, nv3, evs2, tail, -, -, -, -, -, -, hev, htail, -⟩
  · simp only [List.mem_singleton] at he
    subst he
    simp [failedStep] at hfail
  · obtain ⟨st, tail, h1, h2, h3, h4⟩ := hf
    have hst : originOf e = st := by
      rw [h1] at he
      simp only [List.nil_append, List.mem_append, List.mem_cons, List.mem_singleton,
        List.not_mem_nil, or_false] at he
      rcases he with h5 | h5 | h5
      · exact (h4 e h5).2 hfail
      · subst h5; simp [failedStep] at hfail
      · subst h5; simp [failedStep] at hfail
    subst hst
    refine ⟨h3, ?_, ?_, h2, ?_⟩
    · rw [h1]; simp
    · rw [h1]
      have : tail.filter isDeliver = [] :=
        List.filter_eq_nil_iff.mpr (fun a ha => by simp [(h4 a ha).1])
      simp [List.filter_append, this, isDeliver, List.filter_cons]
    · rw [h2]; exact hdel _
  · have hsave := Install_saveName_events env msg.argS s.nvram
    simp only [List.cons_append, List.mem_cons, List.mem_append, List.mem_singleton,
      List.not_mem_nil, or_false] at he
    rcases he with h5 | h5 | h5 | h5
    · subst h5; simp [failedStep] at hfail
    · rw [(hsave e h5).1] at hfail; simp at hfail
    · subst h5; simp [failedStep] at hfail
    · subst h5; simp [failedStep] at hfail
  · rw [hev] at he
    simp only [List.mem_append, List.mem_singleton] at he
    rcases he with h5 | h5
    · rw [(htail e h5).1] at hfail; simp at hfail
    · subst h5; simp [failedStep] at hfail

/-- C2 at a concrete request: the payload record rejects the first chunk of 1+1. -/
theorem Install_failure_deletes_payload_witness :
    ∃ out, Install shortWriteEnv (sampleMsg .INSTALL_MSGID aJs onePlusOne)
        (sampleState .ENGINE_CLEAN) = some out ∧
      Event.nvWrite (some .AJS_SCRIPT_NVRAM_ID) 2 (some 0) ∈ out.events ∧
      out.state.nvram.script = none ∧
      out.events.getLast? = some (.deliver (.status .AJ_ERR_RESOURCES)) ∧
      out.events.filter isDeliver = [.deliver (.status .AJ_ERR_RESOURCES)] ∧
      out.status = .AJ_OK ∧ out.status ≠ .AJ_ERR_RESTART_APP :=
  ⟨_, rfl, by decide,
    Install_failure_deletes_payload shortWriteEnv (sampleMsg .INSTALL_MSGID aJs onePlusOne)
      (sampleState .ENGINE_CLEAN) _ rfl
      (fun _ => (by decide : AJ_Status.AJ_OK ≠ .AJ_ERR_RESTART_APP))
      (.nvWrite (some .AJS_SCRIPT_NVRAM_ID) 2 (some 0)) (by decide) (by decide)⟩

/-! ## Install: payload above the cap -/

theorem Install_saveName_frame (env : Env) (name : List Byte) (nv : Nvram) :
    (Install_saveName env name nv).1.script = nv.script ∧
    (Install_saveName env name nv).1.size = nv.size := by
  unfold Install_saveName
  simp only
  rcases AJ_NVRAM_Open_w_cases env .AJS_SCRIPT_NAME_NVRAM_ID nv with ho | ho <;>
    rw [ho] <;> simp [AJ_NVRAM_Write, Nvram.set, Nvram.get]

/-- `Install` in the clean state on a request whose declared length exceeds the cap. -/
theorem Install_too_long_eq (env : Env) (msg : AJ_Message) (s : State) (r : RawRead)
    (rest : List RawRead) (hclean : s.engineState = .ENGINE_CLEAN)
    (hargs : msg.argStatus = .AJ_OK) (hraw : msg.raw = r :: rest) (hr : r.status = .AJ_OK)
    (h4 : 4 ≤ r.chunk.length)
    (hlong : installCap env msg s < decodeLen env.AJ_NATIVE_ENDIAN msg.endianess r.chunk) :
    Install env msg s = some ⟨env.AJ_DeliverMsg tooLongReply,
      { s with nvram := (Install_saveName env msg.argS s.nvram).1 },
      Event.unmarshalArgs "s" .AJ_OK :: (Install_saveName env msg.argS s.nvram).2 ++
        [.unmarshalRaw 4 .AJ_OK, .deliver tooLongReply]⟩ := by
  unfold Install
  rw [if_neg (fun hne => hne hclean), if_neg (fun hne => hne hargs)]
  simp only [hraw]
  rw [if_neg (fun hne => hne hr), if_neg (by omega), if_pos (by simpa [installCap] using hlong)]
  simp [tooLongReply]

/-- C3, as the code has it: an Install handled in the clean state whose decoded length
exceeds the cap (computed once the name has been saved) returns after delivering exactly
one reply, ResourceError (3) with the text "Script too long"; the payload record and the
byte-count record are what they were and no storage call concerns them; apart from the
name record, saved on entry, the whole state is unchanged. -/
theorem Install_too_long (env : Env) (msg : AJ_Message) (s : State) (r : RawRead)
    (rest : List RawRead) (hclean : s.engineState = .ENGINE_CLEAN)
    (hargs : msg.argStatus = .AJ_OK) (hraw : msg.raw = r :: rest) (hr : r.status = .AJ_OK)
    (h4 : 4 ≤ r.chunk.length)
    (hlong : installCap env msg s < decodeLen env.AJ_NATIVE_ENDIAN msg.endianess r.chunk) :
    ∃ out, Install env msg s = some out ∧
      out.status = env.AJ_DeliverMsg (.method [.y 3, .s "Script too long"]) ∧
      out.events.filter isDeliver = [.deliver (.method [.y 3, .s "Script too long"])] ∧
      out.state.nvram.script = s.nvram.script ∧
      out.state.nvram.size = s.nvram.size ∧
      (∀ e ∈ out.events, touchesScript e = false) ∧
      out.state = { s with nvram := { s.nvram with name := out.state.nvram.name } } := by
  have hsave := Install_saveName_events env msg.argS s.nvram
  have hframe := Install_saveName_frame env msg.argS s.nvram
  refine ⟨_, Install_too_long_eq env msg s r rest hclean hargs hraw hr h4 hlong, rfl, ?_,
    hframe.1, hframe.2, ?_, ?_⟩
  · have : (Install_saveName env msg.argS s.nvram).2.filter isDeliver = [] :=
      List.filter_eq_nil_iff.mpr (fun a ha => by simp [(hsave a ha).2.1])
    simp [List.filter_cons, List.filter_append, this, isDeliver, tooLongReply,
      SCRIPT_RESOURCE_ERROR]
  · intro e he
    simp only [List.cons_append, List.mem_cons, List.mem_append, List.mem_singleton,
      List.not_mem_nil, or_false] at he
    rcases he with h5 | h5 | h5 | h5
    · subst h5; rfl
    · exact (hsave e h5).2.2
    · subst h5; rfl
    · subst h5; rfl
  · simp only
    rw [← hframe.1, ← hframe.2]

/-- C3 at a concrete request: 1+1 offered to a storage without free capacity. -/
theorem Install_too_long_witness :
    ∃ out, Install fullStorageEnv (sampleMsg .INSTALL_MSGID aJs onePlusOne)
        (sampleState .ENGINE_CLEAN) = some out ∧
      out.status = .AJ_OK ∧
      out.events.filter isDeliver = [.deliver (.method [.y 3, .s "Script too long"])] ∧
      out.state.nvram.script = none ∧ out.state.nvram.size = none ∧
      (∀ e ∈ out.events, touchesScript e = false) ∧
      out.state = { sampleState .ENGINE_CLEAN with
        nvram := { (sampleState .ENGINE_CLEAN).nvram with name := out.state.nvram.name } } :=
  Install_too_long fullStorageEnv (sampleMsg .INSTALL_MSGID aJs onePlusOne)
    (sampleState .ENGINE_CLEAN) ⟨.AJ_OK, [3, 0, 0, 0]⟩ [⟨.AJ_OK, [49, 43]⟩, ⟨.AJ_OK, [49]⟩]
    (by decide) (by decide) (by decide) (by decide) (by decide) (by decide)

/-- C3 as stated fails: the same request leaves the reply "Script too long" and a name
record that was absent before the call. -/
theorem Install_too_long_replaces_name :
    (Install fullStorageEnv (sampleMsg .INSTALL_MSGID aJs onePlusOne)
        (sampleState .ENGINE_CLEAN)).map
      (fun o => (o.events.filter isDeliver, o.state.nvram.name, o.state.nvram.script,
        o.state.nvram.size))
      = some ([.deliver (.method [.y 3, .s "Script too long"])],
          some [97, 46, 106, 115, 0], none, none) ∧
    (sampleState .ENGINE_CLEAN).nvram = ⟨none, none, none⟩ := by
  decide

/-! ## Install: the stored records -/

theorem load32_store32 (o : Endian) (v : Nat) (h : v < 2 ^ 32) : load32 o (store32 o v) = v := by
  cases o <;> simp [load32, store32, byteAt] <;> omega

theorem MaxScriptLen_lt (f : Nat) : MaxScriptLen f < 2 ^ 30 := by
  unfold MaxScriptLen
  omega

/-- A copy loop of Install that ran to completion only appended to the record behind its
handle. -/
theorem Install_copy_done_appends (env : Env) (id : NvId) (raw : List RawRead) :
    ∀ (len : Nat) (nv nv2 : Nvram) (evs : List Event) (cur : List Byte),
      nv.get id = some cur →
      Install_copy env (some id) len raw nv = some (.done nv2 evs) →
      ∃ B, nv2 = nv.set id (some (cur ++ B)) := by
  induction raw with
  | nil =>
    intro len nv nv2 evs cur hcur h
    simp only [Install_copy] at h
    split at h
    · simp only [Option.some.injEq, InstallCopy.done.injEq] at h
      obtain ⟨rfl, -⟩ := h
      exact ⟨[], by simp [← hcur, Nvram.set_get_self]⟩
    · simp at h
  | cons r rest ih =>
    intro len nv nv2 evs cur hcur h
    simp only [Install_copy] at h
    split at h
    · simp only [Option.some.injEq, InstallCopy.done.injEq] at h
      obtain ⟨rfl, -⟩ := h
      exact ⟨[], by simp [← hcur, Nvram.set_get_self]⟩
    · split at h
      · simp at h
      · split at h
        · simp at h
        · rename_i hlen hst hwr
          have hw : (AJ_NVRAM_Write env r.chunk r.chunk.length (some id) nv).1
              = some r.chunk.length := by simpa using hwr
          obtain ⟨id2, hid, hnv⟩ := AJ_NVRAM_Write_full env _ _ (some id) nv rfl hw
          cases hid
          rw [hnv, hcur] at h
          split at h
          · simp at h
          · rename_i nv3 evs3 hrec
            simp only [Option.some.injEq, InstallCopy.done.injEq] at h
            obtain ⟨rfl, -⟩ := h
            obtain ⟨B, hB⟩ := ih _ _ _ _ (cur ++ r.chunk) (Nvram.get_set_same _ _ _) hrec
            refine ⟨r.chunk ++ B, ?_⟩
            rw [hB, Nvram.set_set]
            simp
          · simp at h

/-- An Install that delivered the reply "Script installed" went through every step. -/
theorem Install_installed (env : Env) (msg : AJ_Message) (s : State) (out : Outcome)
    (h : Install env msg s = some out) (hok : Event.deliver installedReply ∈ out.events) :
    s.engineState = .ENGINE_CLEAN ∧ msg.argStatus = .AJ_OK ∧ ∃ r rest nv3 evs2 tail,
        msg.raw = r :: rest ∧ r.status = .AJ_OK ∧ 4 ≤ r.chunk.length ∧
        decodeLen env.AJ_NATIVE_ENDIAN msg.endianess r.chunk ≤ installCap env msg s ∧
        Install_copy env (some .AJS_SCRIPT_NVRAM_ID)
          (decodeLen env.AJ_NATIVE_ENDIAN msg.endianess r.chunk) rest
          ((Install_saveName env msg.argS s.nvram).1.set .AJS_SCRIPT_NVRAM_ID
            (some (store32 env.AJ_NATIVE_ENDIAN
              (decodeLen env.AJ_NATIVE_ENDIAN msg.endianess r.chunk))))
          = some (.done nv3 evs2) ∧
        out.state = { s with
          nvram := nv3.set .AJS_SCRIPT_SIZE_ID (some (store32 env.AJ_NATIVE_ENDIAN
            ((decodeLen env.AJ_NATIVE_ENDIAN msg.endianess r.chunk + 4) % 2 ^ 32))),
          scriptSize := (decodeLen env.AJ_NATIVE_ENDIAN msg.endianess r.chunk + 4) % 2 ^ 32 } ∧
        out.events = tail ++ [.deliver installedReply] ∧
        (∀ e ∈ tail, failedStep e = false ∧ isDeliver e = false) ∧
        out.status = if env.AJ_DeliverMsg installedReply = .AJ_OK then .AJ_ERR_RESTART_APP
          else env.AJ_DeliverMsg installedReply := by
  rcases Install_cases env msg s out h with ⟨-, rfl⟩ | ⟨-, hf⟩ | ⟨-, -, r, rest, -, -, -, -, rfl⟩
    | hs
  · simp [installedReply, needResetReply, SCRIPT_OK, SCRIPT_NEED_RESET_ERROR] at hok
  · obtain ⟨st, tail, h1, -, -, h4⟩ := hf
    rw [h1] at hok
    simp only [List.nil_append, List.mem_append, List.mem_cons, List.mem_singleton,
      List.not_mem_nil, or_false] at hok
    rcases hok with h5 | h5 | h5
    · have := (h4 _ h5).1
      simp [isDeliver] at this
    · simp at h5
    · simp [installedReply] at h5
  · have hsave := Install_saveName_events env msg.argS s.nvram
    simp only [List.cons_append, List.mem_cons, List.mem_append, List.mem_singleton,
      List.not_mem_nil, or_false] at hok
    rcases hok with h5 | h5 | h5 | h5
    · simp at h5
    · have := (hsave _ h5).2.1
      simp [isDeliver] at this
    · simp at h5
    · simp [installedReply, tooLongReply, SCRIPT_OK, SCRIPT_RESOURCE_ERROR] at h5
  · exact hs

/-- C5, as the code has it: after an Install that replied "Script installed" to a request
of declared payload length n, the byte-count record holds the 32-bit value n + 4, the
size of the whole payload record (the four bytes of the length word and the payload),
which is also the cached script size; the payload record starts with the length word n. -/
theorem Install_byte_count_record (env : Env) (msg : AJ_Message) (s : State) (out : Outcome)
    (r : RawRead) (rest : List RawRead)
    (hout : Install env msg s = some out)
    (hok : Event.deliver installedReply ∈ out.events)
    (hraw : msg.raw = r :: rest) :
    out.state.nvram.size = some (store32 env.AJ_NATIVE_ENDIAN
      (decodeLen env.AJ_NATIVE_ENDIAN msg.endianess r.chunk + 4)) ∧
    load32 env.AJ_NATIVE_ENDIAN (store32 env.AJ_NATIVE_ENDIAN
      (decodeLen env.AJ_NATIVE_ENDIAN msg.endianess r.chunk + 4))
      = decodeLen env.AJ_NATIVE_ENDIAN msg.endianess r.chunk + 4 ∧
    out.state.scriptSize = decodeLen env.AJ_NATIVE_ENDIAN msg.endianess r.chunk + 4 ∧
    (∃ B, out.state.nvram.script = some (store32 env.AJ_NATIVE_ENDIAN
      (decodeLen env.AJ_NATIVE_ENDIAN msg.endianess r.chunk) ++ B)) ∧
    load32 env.AJ_NATIVE_ENDIAN (store32 env.AJ_NATIVE_ENDIAN
      (decodeLen env.AJ_NATIVE_ENDIAN msg.endianess r.chunk))
      = decodeLen env.AJ_NATIVE_ENDIAN msg.endianess r.chunk := by
  obtain ⟨-, -, r2, rest2, nv3, evs2, tail, hraw2, -, -, hcap, hcopy, hst, -, -, -⟩ :=
    Install_installed env msg s out hout hok
  rw [hraw] at hraw2
  cases hraw2
  have hlt : decodeLen env.AJ_NATIVE_ENDIAN msg.endianess r.chunk < 2 ^ 30 :=
    Nat.lt_of_le_of_lt hcap (MaxScriptLen_lt _)
  have hmod : (decodeLen env.AJ_NATIVE_ENDIAN msg.endianess r.chunk + 4) % 2 ^ 32
      = decodeLen env.AJ_NATIVE_ENDIAN msg.endianess r.chunk + 4 :=
    Nat.mod_eq_of_lt (by omega)
  obtain ⟨B, hB⟩ := Install_copy_done_appends env _ rest _ _ _ _ _
    (Nvram.get_set_same _ _ _) hcopy
  rw [Nvram.set_set] at hB
  refine ⟨?_, load32_store32 _ _ (by omega), ?_, ⟨B, ?_⟩, load32_store32 _ _ (by omega)⟩
  · rw [hst, hmod]; rfl
  · rw [hst, hmod]
  · rw [hst, hB]; rfl

/-- C5 at a concrete request: 1+1 (three bytes) installed under the name a.js leaves 7 in
the byte-count record. -/
theorem Install_byte_count_record_witness :
    ∃ out, Install sampleEnv (sampleMsg .INSTALL_MSGID aJs onePlusOne)
        (sampleState .ENGINE_CLEAN) = some out ∧
      Event.deliver installedReply ∈ out.events ∧
      out.state.nvram.size = some [7, 0, 0, 0] ∧
      load32 .little [7, 0, 0, 0] = 3 + 4 ∧
      out.state.scriptSize = 3 + 4 ∧
      (∃ B, out.state.nvram.script = some ([3, 0, 0, 0] ++ B)) ∧
      load32 .little [3, 0, 0, 0] = 3 :=
  ⟨_, rfl, by decide,
    Install_byte_count_record sampleEnv (sampleMsg .INSTALL_MSGID aJs onePlusOne)
      (sampleState .ENGINE_CLEAN) _ ⟨.AJ_OK, [3, 0, 0, 0]⟩ [⟨.AJ_OK, [49, 43]⟩, ⟨.AJ_OK, [49]⟩]
      rfl (by decide) rfl⟩

/-- C5 as stated fails: after that Install the byte-count record holds 7 while the
length word written at the head of the payload record is 3. -/
theorem Install_byte_count_is_not_length :
    (Install sampleEnv (sampleMsg .INSTALL_MSGID aJs onePlusOne)
        (sampleState .ENGINE_CLEAN)).map
      (fun o => (o.status, o.events.filter isDeliver, o.state.nvram.size,
        o.state.nvram.script))
      = some (.AJ_ERR_RESTART_APP, [.deliver (.method [.y 0, .s "Script installed"])],
          some [7, 0, 0, 0], some [3, 0, 0, 0, 49, 43, 49]) ∧
    load32 .little [7, 0, 0, 0] = 7 ∧ load32 .little [3, 0, 0, 0] = 3 := by
  decide

/-! ## Script retrieval after Install -/

theorem AJS_ConsoleMsgHandler_install (env : Env) (msg : AJ_Message) (s : State)
    (hs : s.consoleSession ≠ 0) (hid : msg.msgId = .INSTALL_MSGID) :
    AJS_ConsoleMsgHandler env msg s = Install env msg s := by
  simp [AJS_ConsoleMsgHandler, hid, hs]

theorem AJS_ConsoleMsgHandler_getScript (env : Env) (msg : AJ_Message) (s : State)
    (hs : s.consoleSession ≠ 0) (hid : msg.msgId = .DBG_GETSCRIPT_MSGID) :
    AJS_ConsoleMsgHandler env msg s = GetScript env s := by
  simp [AJS_ConsoleMsgHandler, hid, hs]

/-- Script retrieval on a non-zero cached size that the payload record covers, every
marshalling step succeeding. -/
theorem GetScript_cached (env : Env) (s : State) (script : List Byte)
    (hsz : s.scriptSize ≠ 0) (hscript : s.nvram.script = some script)
    (hlen : s.scriptSize ≤ script.length)
    (hopen : env.nvOpen .AJS_SCRIPT_NVRAM_ID .r = true)
    (hm1 : env.AJ_MarshalReplyMsg = .AJ_OK)
    (hm2 : ∀ n, env.deliverBody n = .AJ_OK)
    (hm3 : ∀ i, env.AJ_MarshalRaw i = .AJ_OK) :
    GetScript env s = some ⟨.AJ_OK, s,
      [.nvOpen .AJS_SCRIPT_NVRAM_ID .r 0 true, .nvPeek .AJS_SCRIPT_NVRAM_ID,
        .deliver (.raw (store32 env.AJ_NATIVE_ENDIAN s.scriptSize ++ script.take s.scriptSize)),
        .nvClose .AJS_SCRIPT_NVRAM_ID]⟩ := by
  have hnl : ¬ script.length < s.scriptSize := by omega
  simp [GetScript, hsz, AJ_NVRAM_Open, Nvram.get, hscript, hopen, hm1, hm2, hm3, hnl]

/-- C4, as the code has it: when an Install (with a console session active) has replied
"Script installed" to a payload B of declared length n received in full, a script
retrieval handled next in the same boot, its marshalling steps succeeding, delivers one
reply whose body is the size word n + 4 followed by the n + 4 bytes of the payload
record: the length word n, then exactly the n bytes of B. -/
theorem getScript_after_Install (env env2 : Env) (msg msg2 : AJ_Message) (s : State)
    (out : Outcome) (r : RawRead) (rest : List RawRead) (B : List Byte)
    (hs : s.consoleSession ≠ 0) (hid : msg.msgId = .INSTALL_MSGID)
    (hout : AJS_ConsoleMsgHandler env msg s = some out)
    (hok : Event.deliver installedReply ∈ out.events)
    (hraw : msg.raw = r :: rest)
    (hB : (rest.map (·.chunk)).flatten = B)
    (hn : B.length = decodeLen env.AJ_NATIVE_ENDIAN msg.endianess r.chunk)
    (hid2 : msg2.msgId = .DBG_GETSCRIPT_MSGID)
    (hnat : env2.AJ_NATIVE_ENDIAN = env.AJ_NATIVE_ENDIAN)
    (hopen : env2.nvOpen .AJS_SCRIPT_NVRAM_ID .r = true)
    (hm1 : env2.AJ_MarshalReplyMsg = .AJ_OK)
    (hm2 : ∀ n, env2.deliverBody n = .AJ_OK)
    (hm3 : ∀ i, env2.AJ_MarshalRaw i = .AJ_OK) :
    AJS_ConsoleMsgHandler env2 msg2 out.state = some ⟨.AJ_OK, out.state,
      [.nvOpen .AJS_SCRIPT_NVRAM_ID .r 0 true, .nvPeek .AJS_SCRIPT_NVRAM_ID,
        .deliver (.raw (store32 env.AJ_NATIVE_ENDIAN (B.length + 4) ++
          (store32 env.AJ_NATIVE_ENDIAN B.length ++ B))),
        .nvClose .AJS_SCRIPT_NVRAM_ID]⟩ := by
  rw [AJS_ConsoleMsgHandler_install env msg s hs hid] at hout
  obtain ⟨-, -, r2, rest2, nv3, evs2, tail, hraw2, -, -, hcap, hcopy, hst, -, -, -⟩ :=
    Install_installed env msg s out hout hok
  rw [hraw] at hraw2
  cases hraw2
  rw [← hn] at hcap hcopy hst
  have hlt : B.length < 2 ^ 30 := Nat.lt_of_le_of_lt hcap (MaxScriptLen_lt _)
  have hmod : (B.length + 4) % 2 ^ 32 = B.length + 4 := Nat.mod_eq_of_lt (by omega)
  have hnv3 := Install_copy_done_content env _ rest _ _ _ _ _ (by omega) (by rw [hB])
    (Nvram.get_set_same _ _ _) hcopy
  rw [Nvram.set_set, hB] at hnv3
  rw [hmod] at hst
  have hsess : out.state.consoleSession ≠ 0 := by rw [hst]; exact hs
  rw [AJS_ConsoleMsgHandler_getScript env2 msg2 _ hsess hid2]
  have hsize : out.state.scriptSize = B.length + 4 := by rw [hst]
  have hscript : out.state.nvram.script
      = some (store32 env.AJ_NATIVE_ENDIAN B.length ++ B) := by
    rw [hst, hnv3]; rfl
  rw [GetScript_cached env2 out.state (store32 env.AJ_NATIVE_ENDIAN B.length ++ B)
    (by omega) hscript (by simp [hsize, store32_length]; omega) hopen hm1 hm2 hm3, hsize, hnat]
  have htake : (store32 env.AJ_NATIVE_ENDIAN B.length ++ B).take (B.length + 4)
      = store32 env.AJ_NATIVE_ENDIAN B.length ++ B :=
    List.take_of_length_le (by simp [store32_length]; omega)
  rw [htake]

/-- C4 as stated fails: after 1+1 is installed, the retrieval's body is the size word 7
followed by the seven bytes of the record, not the length 3 followed by the three bytes. -/
theorem getScript_returns_record :
    ((AJS_ConsoleMsgHandler sampleEnv (sampleMsg .INSTALL_MSGID aJs onePlusOne)
        (sampleState .ENGINE_CLEAN)).bind
      (fun o => AJS_ConsoleMsgHandler sampleEnv (sampleMsg .DBG_GETSCRIPT_MSGID [] [])
        o.state)).map (fun o => o.events.filter isDeliver)
      = some [.deliver (.raw [7, 0, 0, 0, 3, 0, 0, 0, 49, 43, 49])] ∧
    [7, 0, 0, 0, 3, 0, 0, 0, 49, 43, 49] ≠ store32 .little 3 ++ [49, 43, 49] := by
  decide

/-- C4 at a concrete request: 1+1 installed, then retrieved. -/
theorem getScript_after_Install_witness :
    ∃ out, AJS_ConsoleMsgHandler sampleEnv (sampleMsg .INSTALL_MSGID aJs onePlusOne)
        (sampleState .ENGINE_CLEAN) = some out ∧
      Event.deliver installedReply ∈ out.events ∧
      AJS_ConsoleMsgHandler sampleEnv (sampleMsg .DBG_GETSCRIPT_MSGID [] []) out.state =
        some ⟨.AJ_OK, out.state,
          [.nvOpen .AJS_SCRIPT_NVRAM_ID .r 0 true, .nvPeek .AJS_SCRIPT_NVRAM_ID,
            .deliver (.raw ([7, 0, 0, 0] ++ ([3, 0, 0, 0] ++ [49, 43, 49]))),
            .nvClose .AJS_SCRIPT_NVRAM_ID]⟩ :=
  ⟨_, rfl, by decide,
    getScript_after_Install sampleEnv sampleEnv (sampleMsg .INSTALL_MSGID aJs onePlusOne)
      (sampleMsg .DBG_GETSCRIPT_MSGID [] []) (sampleState .ENGINE_CLEAN) _
      ⟨.AJ_OK, [3, 0, 0, 0]⟩ [⟨.AJ_OK, [49, 43]⟩, ⟨.AJ_OK, [49]⟩] [49, 43, 49]
      (by decide) rfl rfl (by decide) rfl rfl rfl rfl rfl rfl rfl (fun _ => rfl) (fun _ => rfl)⟩

/-! ## Eval -/

/-- Events of a copy loop of Eval that ran to completion: successful raw reads only. -/
theorem Eval_copy_done_events (raw : List RawRead) :
    ∀ (l : Nat) (js js2 : List Byte) (evs : List Event),
      Eval_copy l js raw = some (.done js2 evs) →
      ∀ e ∈ evs, isDeliver e = false ∧ isCompile e = false ∧ isFailedRead e = false ∧
        e ≠ .pcall := by
  induction raw with
  | nil =>
    intro l js js2 evs h
    simp only [Eval_copy] at h
    split at h
    · simp only [Option.some.injEq, EvalCopy.done.injEq] at h
      obtain ⟨-, rfl⟩ := h
      simp
    · simp at h
  | cons r rest ih =>
    intro l js js2 evs h
    simp only [Eval_copy] at h
    split at h
    · simp only [Option.some.injEq, EvalCopy.done.injEq] at h
      obtain ⟨-, rfl⟩ := h
      simp
    · split at h
      · simp at h
      · split at h
        · simp at h
        · split at h
          · simp at h
          · rename_i js3 evs3 hrec
            simp only [Option.some.injEq, EvalCopy.done.injEq] at h
            obtain ⟨-, rfl⟩ := h
            intro e he
            simp only [List.mem_cons] at he
            rcases he with rfl | he
            · simp [isDeliver, isCompile, isFailedRead]
            · exact ih _ _ _ _ hrec e he
          · simp at h

/-- Events of a copy loop of Eval that left through a failure: raw reads only, one of
which returned the exit status, an error. -/
theorem Eval_copy_fail_events (raw : List RawRead) :
    ∀ (l : Nat) (js : List Byte) (st : AJ_Status) (evs : List Event),
      Eval_copy l js raw = some (.fail st evs) →
      (∀ e ∈ evs, isDeliver e = false ∧ isCompile e = false ∧ e ≠ .pcall) ∧
      (∃ e ∈ evs, isFailedRead e = true) := by
  induction raw with
  | nil =>
    intro l js st evs h
    simp only [Eval_copy] at h
    split at h <;> simp at h
  | cons r rest ih =>
    intro l js st evs h
    simp only [Eval_copy] at h
    split at h
    · simp at h
    · split at h
      · rename_i hst
        simp only [Option.some.injEq, EvalCopy.fail.injEq] at h
        obtain ⟨rfl, rfl⟩ := h
        simp [isDeliver, isCompile, isFailedRead]
        simpa using hst
      · split at h
        · simp at h
        · split at h
          · simp at h
          · simp at h
          · rename_i st3 evs3 hrec
            simp only [Option.some.injEq, EvalCopy.fail.injEq] at h
            obtain ⟨rfl, rfl⟩ := h
            obtain ⟨h1, e0, he0, h2⟩ := ih _ _ _ _ hrec
            refine ⟨?_, e0, List.mem_cons_of_mem _ he0, h2⟩
            intro e he
            simp only [List.mem_cons] at he
            rcases he with rfl | he
            · simp [isDeliver, isCompile]
            · exact h1 e he

/-- The ways `Eval` returns once the length word has been read. -/
theorem Eval_cases (env : Env) (msg : AJ_Message) (s : State) (out : Outcome)
    (r : RawRead) (rest : List RawRead)
    (h : Eval env msg s = some out) (hraw : msg.raw = r :: rest) (hr : r.status = .AJ_OK) :
    4 ≤ r.chunk.length ∧
    ((MAX_EVAL_LEN < decodeLen env.AJ_NATIVE_ENDIAN msg.endianess r.chunk ∧
        out = EvalReply env "Eval expression too long" env.duk.DUK_RET_ALLOC_ERROR s
          [.unmarshalRaw 4 .AJ_OK])
    ∨ (decodeLen env.AJ_NATIVE_ENDIAN msg.endianess r.chunk ≤ MAX_EVAL_LEN ∧
        env.AJ_Malloc (decodeLen env.AJ_NATIVE_ENDIAN msg.endianess r.chunk) = false ∧
        out = Eval_ErrorReply env .AJ_ERR_RESOURCES s [.unmarshalRaw 4 .AJ_OK])
    ∨ (decodeLen env.AJ_NATIVE_ENDIAN msg.endianess r.chunk ≤ MAX_EVAL_LEN ∧
        env.AJ_Malloc (decodeLen env.AJ_NATIVE_ENDIAN msg.endianess r.chunk) = true ∧
        ∃ st evs, Eval_copy (decodeLen env.AJ_NATIVE_ENDIAN msg.endianess r.chunk) [] rest
            = some (.fail st evs) ∧
          out = Eval_ErrorReply env st s (.unmarshalRaw 4 .AJ_OK :: evs))
    ∨ (decodeLen env.AJ_NATIVE_ENDIAN msg.endianess r.chunk ≤ MAX_EVAL_LEN ∧
        env.AJ_Malloc (decodeLen env.AJ_NATIVE_ENDIAN msg.endianess r.chunk) = true ∧
        ∃ js evs, Eval_copy (decodeLen env.AJ_NATIVE_ENDIAN msg.endianess r.chunk) [] rest
            = some (.done js evs) ∧
          ((env.duk_pcompile (js.take (stripTrailingNuls js
                (decodeLen env.AJ_NATIVE_ENDIAN msg.endianess r.chunk)))).retval
              = env.duk.DUK_EXEC_SUCCESS ∧
            out = EvalReply env
              (env.duk_pcall (js.take (stripTrailingNuls js
                (decodeLen env.AJ_NATIVE_ENDIAN msg.endianess r.chunk)))).top
              (env.duk_pcall (js.take (stripTrailingNuls js
                (decodeLen env.AJ_NATIVE_ENDIAN msg.endianess r.chunk)))).retval
              { s with engineState := .ENGINE_DIRTY }
              (.unmarshalRaw 4 .AJ_OK :: evs ++
                [.compile (js.take (stripTrailingNuls js
                  (decodeLen env.AJ_NATIVE_ENDIAN msg.endianess r.chunk))),
                  .setWatchdog, .pcall, .clearWatchdog])
          ∨ (env.duk_pcompile (js.take (stripTrailingNuls js
                (decodeLen env.AJ_NATIVE_ENDIAN msg.endianess r.chunk)))).retval
              ≠ env.duk.DUK_EXEC_SUCCESS ∧
            out = EvalReply env
              (env.duk_pcompile (js.take (stripTrailingNuls js
                (decodeLen env.AJ_NATIVE_ENDIAN msg.endianess r.chunk)))).top
              (env.duk_pcompile (js.take (stripTrailingNuls js
                (decodeLen env.AJ_NATIVE_ENDIAN msg.endianess r.chunk)))).retval
              { s with engineState := .ENGINE_DIRTY }
              (.unmarshalRaw 4 .AJ_OK :: evs ++
                [.compile (js.take (stripTrailingNuls js
                  (decodeLen env.AJ_NATIVE_ENDIAN msg.endianess r.chunk)))])))) := by
  unfold Eval at h
  simp only [hraw] at h
  rw [if_neg (fun hne => hne hr)] at h
  by_cases h4 : r.chunk.length < 4
  · simp [h4] at h
  rw [if_neg h4] at h
  refine ⟨by omega, ?_⟩
  split at h
  · rename_i hlong
    left
    exact ⟨hlong, by simpa using h.symm⟩
  · rename_i hshort
    right
    split at h
    · rename_i hm
      left
      exact ⟨by omega, hm, by simpa using h.symm⟩
    · rename_i hm
      right
      have hm : env.AJ_Malloc (decodeLen env.AJ_NATIVE_ENDIAN msg.endianess r.chunk) = true := by
        simpa using hm
      split at h
      · simp at h
      · rename_i st evs hcopy
        left
        exact ⟨by omega, hm, st, evs, hcopy, by simpa using h.symm⟩
      · rename_i js evs hcopy
        right
        refine ⟨by omega, hm, js, evs, hcopy, ?_⟩
        split at h
        · rename_i hc
          left
          exact ⟨hc, by simpa using h.symm⟩
        · rename_i hc
          right
          exact ⟨hc, by simpa using h.symm⟩

/-! ## Reply codes -/

/-- C8: the reply code `EvalReply` marshals is a function of the engine result code alone:
success gives Ok (0); eval, type and range error give EvalError (2); syntax error gives
SyntaxError (1); allocation error gives ResourceError (3); every other code gives
InternalError (5); the code is never NeedReset (4), DebugStarted (6) or DebugStopped (7).
The reply carries that code and the stringified stack top, and is delivered. -/
theorem EvalReply_mapping (env : Env) (hd : env.duk.Distinct) (d : Int) (top : String)
    (s : State) (evs : List Event) :
    EvalReply env top d s evs =
      ⟨env.AJ_DeliverMsg (.method [.y (replyStatus env.duk d), .s top]), s,
        evs ++ [.deliver (.method [.y (replyStatus env.duk d), .s top])]⟩ ∧
    (d = env.duk.DUK_EXEC_SUCCESS → replyStatus env.duk d = 0) ∧
    (d = env.duk.DUK_RET_EVAL_ERROR ∨ d = env.duk.DUK_RET_TYPE_ERROR ∨
      d = env.duk.DUK_RET_RANGE_ERROR → replyStatus env.duk d = 2) ∧
    (d = env.duk.DUK_RET_SYNTAX_ERROR → replyStatus env.duk d = 1) ∧
    (d = env.duk.DUK_RET_ALLOC_ERROR → replyStatus env.duk d = 3) ∧
    (d ≠ env.duk.DUK_EXEC_SUCCESS → d ≠ env.duk.DUK_RET_EVAL_ERROR →
      d ≠ env.duk.DUK_RET_TYPE_ERROR → d ≠ env.duk.DUK_RET_RANGE_ERROR →
      d ≠ env.duk.DUK_RET_SYNTAX_ERROR → d ≠ env.duk.DUK_RET_ALLOC_ERROR →
      replyStatus env.duk d = 5) ∧
    replyStatus env.duk d ≠ 4 ∧ replyStatus env.duk d ≠ 6 ∧ replyStatus env.duk d ≠ 7 := by
  simp only [DukCodes.Distinct, List.nodup_cons, List.mem_cons, List.mem_singleton,
    List.not_mem_nil, or_false, not_or, List.nodup_nil, and_true, not_false_eq_true] at hd
  obtain ⟨⟨h1, h2, h3, h4, h5⟩, ⟨h6, h7, h8, h9⟩, ⟨h10, h11, h12⟩, ⟨h13, h14⟩, h15⟩ := hd
  refine ⟨rfl, ?_, ?_, ?_, ?_, ?_, ?_, ?_, ?_⟩
  · intro h; simp [replyStatus, h, SCRIPT_OK]
  · intro h
    have hne : d ≠ env.duk.DUK_EXEC_SUCCESS := by
      rcases h with h | h | h <;> rw [h] <;> intro h0 <;> simp_all
    simp [replyStatus, hne, h, SCRIPT_EVAL_ERROR]
  · intro h
    subst h
    simp [replyStatus, Ne.symm h4, Ne.symm h8, Ne.symm h11, Ne.symm h13, SCRIPT_SYNTAX_ERROR]
  · intro h
    subst h
    simp [replyStatus, Ne.symm h5, Ne.symm h9, Ne.symm h12, Ne.symm h14, Ne.symm h15,
      SCRIPT_RESOURCE_ERROR]
  · intro a b c e f g
    simp [replyStatus, a, b, c, e, f, g, SCRIPT_INTERNAL_ERROR]
  all_goals
    unfold replyStatus
    split_ifs <;> simp [SCRIPT_OK, SCRIPT_EVAL_ERROR, SCRIPT_SYNTAX_ERROR, SCRIPT_RESOURCE_ERROR,
      SCRIPT_INTERNAL_ERROR]

/-- C8 at the Duktape result codes, for the syntax-error code. -/
theorem EvalReply_mapping_witness :
    sampleEnv.duk.Distinct ∧
    EvalReply sampleEnv "SyntaxError" (-104) (sampleState .ENGINE_RUNNING) [] =
      ⟨.AJ_OK, sampleState .ENGINE_RUNNING, [.deliver (.method [.y 1, .s "SyntaxError"])]⟩ :=
  ⟨by decide,
    (EvalReply_mapping sampleEnv (by decide) (-104) "SyntaxError"
      (sampleState .ENGINE_RUNNING) []).1⟩

/-! ## Eval: state and replies -/

theorem EvalReply_deliveries (env : Env) (top : String) (d : Int) (s : State)
    (evs : List Event) (h : ∀ e ∈ evs, isDeliver e = false) :
    (EvalReply env top d s evs).events.filter isDeliver =
      [.deliver (.method [.y (replyStatus env.duk d), .s top])] := by
  have : evs.filter isDeliver = [] := List.filter_eq_nil_iff.mpr (fun a ha => by simp [h a ha])
  simp [EvalReply, List.filter_append, this, List.filter_cons, isDeliver]

theorem Eval_ErrorReply_deliveries (env : Env) (st : AJ_Status) (s : State)
    (evs : List Event) (h : ∀ e ∈ evs, isDeliver e = false) :
    (Eval_ErrorReply env st s evs).events.filter isDeliver = [.deliver (.status st)] := by
  have : evs.filter isDeliver = [] := List.filter_eq_nil_iff.mpr (fun a ha => by simp [h a ha])
  simp [Eval_ErrorReply, List.filter_append, this, List.filter_cons, isDeliver]

theorem EvalReply_compile_mem (env : Env) (top : String) (d : Int) (s : State)
    (evs tl : List Event) (src : List Byte) :
    ∃ e ∈ (EvalReply env top d s (evs ++ .compile src :: tl)).events, isCompile e = true :=
  ⟨.compile src, by simp [EvalReply], rfl⟩

/-- C6, as the code has it: an Eval whose declared length is at most 1024 returns, from
every prior engine state, after delivering exactly one reply.  When the buffer was
allocated and no payload read failed, the text reached the compiler and the engine state
is Dirty afterwards; when the allocation or a payload read failed, the reply is a status
message and the state is the prior state. -/
theorem Eval_within_limit (env : Env) (msg : AJ_Message) (s : State) (out : Outcome)
    (r : RawRead) (rest : List RawRead)
    (hout : Eval env msg s = some out) (hraw : msg.raw = r :: rest) (hr : r.status = .AJ_OK)
    (hlen : decodeLen env.AJ_NATIVE_ENDIAN msg.endianess r.chunk ≤ 1024) :
    (out.events.filter isDeliver).length = 1 ∧
    (env.AJ_Malloc (decodeLen env.AJ_NATIVE_ENDIAN msg.endianess r.chunk) = true →
      (∀ e ∈ out.events, isFailedRead e = false) →
      out.state.engineState = .ENGINE_DIRTY ∧ ∃ e ∈ out.events, isCompile e = true) ∧
    (env.AJ_Malloc (decodeLen env.AJ_NATIVE_ENDIAN msg.endianess r.chunk) = false ∨
      (∃ e ∈ out.events, isFailedRead e = true) →
      out.state = s ∧ ∃ st, out.events.filter isDeliver = [.deliver (.status st)]) := by
  obtain ⟨-, hc⟩ := Eval_cases env msg s out r rest hout hraw hr
  rcases hc with ⟨hlong, -⟩ | ⟨-, hm, rfl⟩ | ⟨-, hm, st, evs, hcopy, rfl⟩
    | ⟨-, hm, js, evs, hcopy, hc⟩
  · simp only [MAX_EVAL_LEN] at hlong
    omega
  · have hdl := Eval_ErrorReply_deliveries env .AJ_ERR_RESOURCES s
      [.unmarshalRaw 4 .AJ_OK] (by simp [isDeliver])
    refine ⟨?_, ?_, fun _ => ⟨rfl, _, hdl⟩⟩
    · rw [hdl]; rfl
    · intro h; rw [hm] at h; cases h
  · obtain ⟨h1, e0, he0, h2⟩ := Eval_copy_fail_events rest _ _ _ _ hcopy
    have hdl := Eval_ErrorReply_deliveries env st s (.unmarshalRaw 4 .AJ_OK :: evs) (by
        intro e he
        rcases List.mem_cons.mp he with rfl | he
        · rfl
        · exact (h1 e he).1)
    refine ⟨?_, ?_, fun _ => ⟨rfl, _, hdl⟩⟩
    · rw [hdl]; rfl
    · intro _ hall
      have := hall e0 (by simp [Eval_ErrorReply, he0])
      rw [h2] at this
      cases this
  · have hev := Eval_copy_done_events rest _ _ _ _ hcopy
    have hnd : ∀ (tl : List Event), (∀ e ∈ tl, isDeliver e = false) →
        ∀ e ∈ Event.unmarshalRaw 4 .AJ_OK :: evs ++ tl, isDeliver e = false := by
      intro tl htl e he
      simp only [List.cons_append, List.mem_cons, List.mem_append] at he
      rcases he with rfl | he | he
      · rfl
      · exact (hev e he).1
      · exact htl e he
    have hnf : ∀ (tl : List Event) (st : State) (top : String) (d : Int),
        (∀ e ∈ tl, isFailedRead e = false) →
        ¬ ∃ e ∈ (EvalReply env top d st (Event.unmarshalRaw 4 .AJ_OK :: evs ++ tl)).events,
          isFailedRead e = true := by
      intro tl st top d htl ⟨e, he, hf⟩
      simp only [EvalReply, List.cons_append, List.mem_cons, List.mem_append,
        List.mem_singleton, List.not_mem_nil, or_false] at he
      rcases he with rfl | (he | he) | rfl
      · simp [isFailedRead] at hf
      · rw [(hev e he).2.2.1] at hf; cases hf
      · rw [htl e he] at hf; cases hf
      · simp [isFailedRead] at hf
    rcases hc with ⟨-, rfl⟩ | ⟨-, rfl⟩
    · refine ⟨?_, fun _ _ => ⟨rfl, EvalReply_compile_mem _ _ _ _ _ _ _⟩, ?_⟩
      · rw [EvalReply_deliveries _ _ _ _ _ (hnd _ (by simp [isDeliver]))]; rfl
      · rintro (h | h)
        · rw [hm] at h; cases h
        · exact absurd h (hnf _ _ _ _ (by simp [isFailedRead]))
    · refine ⟨?_, fun _ _ => ⟨rfl, EvalReply_compile_mem _ _ _ _ _ _ _⟩, ?_⟩
      · rw [EvalReply_deliveries _ _ _ _ _ (hnd _ (by simp [isDeliver]))]; rfl
      · rintro (h | h)
        · rw [hm] at h; cases h
        · exact absurd h (hnf _ _ _ _ (by simp [isFailedRead]))

/-- C6 at a concrete request: 1+1 evaluated in the clean state. -/
theorem Eval_within_limit_witness :
    ∃ out, Eval sampleEnv (sampleMsg .EVAL_MSGID [] onePlusOne) (sampleState .ENGINE_CLEAN)
        = some out ∧
      (out.events.filter isDeliver).length = 1 ∧
      (sampleEnv.AJ_Malloc 3 = true → (∀ e ∈ out.events, isFailedRead e = false) →
        out.state.engineState = .ENGINE_DIRTY ∧ ∃ e ∈ out.events, isCompile e = true) ∧
      (sampleEnv.AJ_Malloc 3 = false ∨ (∃ e ∈ out.events, isFailedRead e = true) →
        out.state = sampleState .ENGINE_CLEAN ∧
          ∃ st, out.events.filter isDeliver = [.deliver (.status st)]) :=
  ⟨_, rfl,
    Eval_within_limit sampleEnv (sampleMsg .EVAL_MSGID [] onePlusOne)
      (sampleState .ENGINE_CLEAN) _ ⟨.AJ_OK, [3, 0, 0, 0]⟩ [⟨.AJ_OK, [49, 43]⟩, ⟨.AJ_OK, [49]⟩]
      rfl rfl rfl (by decide)⟩

/-- C6 as stated fails: an Eval declaring three bytes whose payload read fails, handled
in the clean state, delivers its one reply and leaves the engine state Clean. -/
theorem Eval_read_failure_keeps_state :
    (Eval sampleEnv (sampleMsg .EVAL_MSGID [] brokenPayload) (sampleState .ENGINE_CLEAN)).map
      (fun o => (o.state.engineState, o.events))
      = some (.ENGINE_CLEAN,
          [.unmarshalRaw 4 .AJ_OK, .unmarshalRaw 3 (.other 1), .deliver (.status (.other 1))]) ∧
    decodeLen .little .little [3, 0, 0, 0] ≤ 1024 := by
  decide

/-! ## Eval: the size limit -/

/-- The allocation-error code maps to the reply code ResourceError. -/
theorem replyStatus_alloc (c : DukCodes) (hd : c.Distinct) :
    replyStatus c c.DUK_RET_ALLOC_ERROR = 3 := by
  simp only [DukCodes.Distinct, List.nodup_cons, List.mem_cons, List.mem_singleton,
    List.not_mem_nil, or_false, not_or, List.nodup_nil, and_true, not_false_eq_true] at hd
  obtain ⟨⟨h1, h2, h3, h4, h5⟩, ⟨h6, h7, h8, h9⟩, ⟨h10, h11, h12⟩, ⟨h13, h14⟩, h15⟩ := hd
  simp [replyStatus, Ne.symm h5, Ne.symm h9, Ne.symm h12, Ne.symm h14, Ne.symm h15,
    SCRIPT_RESOURCE_ERROR]

/-- C7: the eval size limit is exactly 1024.  An Eval whose length word was read returns
having made just two external calls, the read of the length word and the delivery of the
reply ResourceError (3) "Eval expression too long" (no payload read, no compile, no call),
if and only if the decoded length is greater than 1024; in that case the state is
unchanged.  A declared length of exactly 1024, the value the maxEvalLen property reports,
is not rejected. -/
theorem Eval_size_limit (env : Env) (msg : AJ_Message) (s : State) (out : Outcome)
    (r : RawRead) (rest : List RawRead) (hd : env.duk.Distinct)
    (hout : Eval env msg s = some out) (hraw : msg.raw = r :: rest) (hr : r.status = .AJ_OK) :
    (out.events = [.unmarshalRaw 4 .AJ_OK,
        .deliver (.method [.y 3, .s "Eval expression too long"])]
      ↔ 1024 < decodeLen env.AJ_NATIVE_ENDIAN msg.endianess r.chunk) ∧
    (1024 < decodeLen env.AJ_NATIVE_ENDIAN msg.endianess r.chunk → out.state = s) ∧
    (decodeLen env.AJ_NATIVE_ENDIAN msg.endianess r.chunk = 1024 →
      out.events ≠ [.unmarshalRaw 4 .AJ_OK,
        .deliver (.method [.y 3, .s "Eval expression too long"])]) ∧
    (PropGetHandler env .MAX_EVAL_LEN_PROP s).1 = [.u 1024] := by
  have h3 : replyStatus env.duk env.duk.DUK_RET_ALLOC_ERROR = 3 := replyStatus_alloc env.duk hd
  have key : out.events = [.unmarshalRaw 4 .AJ_OK,
        .deliver (.method [.y 3, .s "Eval expression too long"])]
      ↔ 1024 < decodeLen env.AJ_NATIVE_ENDIAN msg.endianess r.chunk := by
    obtain ⟨-, hc⟩ := Eval_cases env msg s out r rest hout hraw hr
    rcases hc with ⟨hlong, rfl⟩ | ⟨hle, hm, rfl⟩ | ⟨hle, hm, st, evs, hcopy, rfl⟩
      | ⟨hle, hm, js, evs, hcopy, hc⟩
    · simp only [MAX_EVAL_LEN] at hlong
      simp [EvalReply, h3, hlong]
    · simp only [MAX_EVAL_LEN] at hle
      constructor
      · intro h; simp [Eval_ErrorReply] at h
      · intro h; omega
    · simp only [MAX_EVAL_LEN] at hle
      obtain ⟨-, e0, he0, -⟩ := Eval_copy_fail_events rest _ _ _ _ hcopy
      constructor
      · intro h
        have hl := congrArg List.length h
        have : 0 < evs.length := List.length_pos_of_mem he0
        simp only [Eval_ErrorReply, List.length_append, List.length_cons, List.length_nil,
          List.length_singleton] at hl
        omega
      · intro h; omega
    · simp only [MAX_EVAL_LEN] at hle
      constructor
      · intro h
        have hl := congrArg List.length h
        rcases hc with ⟨-, rfl⟩ | ⟨-, rfl⟩ <;>
          simp only [EvalReply, List.length_append, List.length_cons, List.length_nil,
            List.length_singleton] at hl <;> omega
      · intro h; omega
  refine ⟨key, ?_, ?_, rfl⟩
  · intro hlong
    obtain ⟨-, hc⟩ := Eval_cases env msg s out r rest hout hraw hr
    simp only [MAX_EVAL_LEN] at hc
    rcases hc with ⟨-, rfl⟩ | ⟨hle, -⟩ | ⟨hle, -⟩ | ⟨hle, -⟩
    · rfl
    all_goals omega
  · intro h1024 h
    have := key.mp h
    omega

/-- C7 at a concrete request: a length word declaring 1025 bytes. -/
theorem Eval_size_limit_witness :
    ∃ out, Eval sampleEnv (sampleMsg .EVAL_MSGID [] oversized) (sampleState .ENGINE_CLEAN)
        = some out ∧
      (out.events = [.unmarshalRaw 4 .AJ_OK,
          .deliver (.method [.y 3, .s "Eval expression too long"])] ↔ 1024 < 1025) ∧
      (1024 < 1025 → out.state = sampleState .ENGINE_CLEAN) ∧
      (1025 = 1024 → out.events ≠ [.unmarshalRaw 4 .AJ_OK,
          .deliver (.method [.y 3, .s "Eval expression too long"])]) ∧
      (PropGetHandler sampleEnv .MAX_EVAL_LEN_PROP (sampleState .ENGINE_CLEAN)).1 = [.u 1024] :=
  ⟨_, rfl,
    Eval_size_limit sampleEnv (sampleMsg .EVAL_MSGID [] oversized) (sampleState .ENGINE_CLEAN)
      _ ⟨.AJ_OK, [1, 4, 0, 0]⟩ [] (by decide) rfl rfl rfl⟩

/-! ## Eval: compile failure -/

/-- An Eval that reached the compiler and saw it fail: the call operation is not invoked,
the reply text is the compiler's diagnostic, and the reply code is the code `EvalReply`
maps the compiler's return value to. -/
theorem Eval_compile_failure (env : Env) (msg : AJ_Message) (s : State) (out : Outcome)
    (src : List Byte) (hout : Eval env msg s = some out)
    (hsrc : Event.compile src ∈ out.events)
    (hfail : (env.duk_pcompile src).retval ≠ env.duk.DUK_EXEC_SUCCESS) :
    Event.pcall ∉ out.events ∧
    out.events.filter isDeliver =
      [.deliver (.method [.y (replyStatus env.duk (env.duk_pcompile src).retval),
        .s (env.duk_pcompile src).top])] := by
  cases hraw : msg.raw with
  | nil => simp [Eval, hraw] at hout
  | cons r rest =>
    by_cases hr : r.status = .AJ_OK
    swap
    · simp only [Eval, hraw, ne_eq, hr, not_false_eq_true, ↓reduceIte, Option.some.injEq] at hout
      subst hout
      simp [Eval_ErrorReply] at hsrc
    obtain ⟨-, hc⟩ := Eval_cases env msg s out r rest hout hraw hr
    rcases hc with ⟨-, rfl⟩ | ⟨-, -, rfl⟩ | ⟨-, -, st, evs, hcopy, rfl⟩
      | ⟨-, -, js, evs, hcopy, hc⟩
    · simp [EvalReply] at hsrc
    · simp [Eval_ErrorReply] at hsrc
    · obtain ⟨h1, -⟩ := Eval_copy_fail_events rest _ _ _ _ hcopy
      simp only [Eval_ErrorReply, List.mem_append, List.mem_cons, List.mem_singleton,
        List.not_mem_nil, or_false] at hsrc
      rcases hsrc with (h | h) | h
      · cases h
      · have := (h1 _ h).2.1
        simp [isCompile] at this
      · cases h
    · have hev := Eval_copy_done_events rest _ _ _ _ hcopy
      have hnc : Event.compile src ∉ evs := fun h => by
        have := (hev _ h).2.1
        simp [isCompile] at this
      have hnp : Event.pcall ∉ evs := fun h => (hev _ h).2.2.2 rfl
      have hnd : ∀ e ∈ Event.unmarshalRaw 4 .AJ_OK :: evs ++
          [Event.compile (js.take (stripTrailingNuls js
            (decodeLen env.AJ_NATIVE_ENDIAN msg.endianess r.chunk)))],
          isDeliver e = false := by
        intro e he
        simp only [List.cons_append, List.mem_cons, List.mem_append, List.mem_singleton,
          List.not_mem_nil, or_false] at he
        rcases he with rfl | he | rfl
        · rfl
        · exact (hev e he).1
        · rfl
      rcases hc with ⟨hok, rfl⟩ | ⟨-, rfl⟩
      · have : src = js.take (stripTrailingNuls js
            (decodeLen env.AJ_NATIVE_ENDIAN msg.endianess r.chunk)) := by
          simpa [EvalReply, hnc] using hsrc
        subst this
        exact absurd hok hfail
      · have : src = js.take (stripTrailingNuls js
            (decodeLen env.AJ_NATIVE_ENDIAN msg.endianess r.chunk)) := by
          simpa [EvalReply, hnc] using hsrc
        subst this
        refine ⟨?_, EvalReply_deliveries _ _ _ _ _ hnd⟩
        simp [EvalReply, hnp]

/-- C9 at its failing input: 1+1 evaluated by an engine whose compiler fails with
Duktape's failure value 1 and a syntax-error diagnostic.  The call operation is not
invoked and the text is the diagnostic, but the reply code is InternalError (5), not
SyntaxError (1). -/
theorem Eval_compile_failure_is_internal_error :
    (Eval compileFailEnv (sampleMsg .EVAL_MSGID [] onePlusOne)
        (sampleState .ENGINE_RUNNING)).map (fun o => o.events)
      = some [.unmarshalRaw 4 .AJ_OK, .unmarshalRaw 3 .AJ_OK, .unmarshalRaw 1 .AJ_OK,
          .compile [49, 43, 49],
          .deliver (.method [.y 5, .s "SyntaxError: parse error (line 1)"])] ∧
    (compileFailEnv.duk_pcompile [49, 43, 49]).retval ≠ compileFailEnv.duk.DUK_EXEC_SUCCESS ∧
    SCRIPT_SYNTAX_ERROR = 1 ∧ SCRIPT_INTERNAL_ERROR = 5 := by
  decide

/-! ## Reset -/

/-- C10, as the code has it: handling a Reset with a console session active delivers the
acknowledgement; when that delivery succeeds the engine state is Clean afterwards and
the restart directive is returned, whatever the prior state; when it fails the state is
unchanged and the status of the delivery is returned. -/
theorem Reset_outcome (env : Env) (msg : AJ_Message) (s : State)
    (hs : s.consoleSession ≠ 0) (hid : msg.msgId = .RESET_MSGID) :
    AJS_ConsoleMsgHandler env msg s = some
      (if env.AJ_DeliverMsg (.method []) = .AJ_OK then
        ⟨.AJ_ERR_RESTART_APP, { s with engineState := .ENGINE_CLEAN }, [.deliver (.method [])]⟩
      else ⟨env.AJ_DeliverMsg (.method []), s, [.deliver (.method [])]⟩) := by
  simp [AJS_ConsoleMsgHandler, hid, hs, Reset]

/-- C10 at a concrete request: a Reset handled while Running, acknowledgement delivered. -/
theorem Reset_outcome_witness :
    AJS_ConsoleMsgHandler sampleEnv (sampleMsg .RESET_MSGID [] []) (sampleState .ENGINE_RUNNING)
      = some ⟨.AJ_ERR_RESTART_APP, sampleState .ENGINE_CLEAN, [.deliver (.method [])]⟩ :=
  Reset_outcome sampleEnv (sampleMsg .RESET_MSGID [] []) (sampleState .ENGINE_RUNNING)
    (by decide) rfl

/-- C10 as stated fails: when the acknowledgement cannot be delivered, a Reset handled
while Running leaves the engine Running and returns the delivery error, not the restart
directive. -/
theorem Reset_undelivered_keeps_state :
    AJS_ConsoleMsgHandler deliverFailEnv (sampleMsg .RESET_MSGID [] [])
        (sampleState .ENGINE_RUNNING)
      = some ⟨.other 1, sampleState .ENGINE_RUNNING, [.deliver (.method [])]⟩ ∧
    (sampleState .ENGINE_RUNNING).consoleSession ≠ 0 ∧
    (sampleState .ENGINE_RUNNING).engineState ≠ .ENGINE_CLEAN := by
  decide

/-! ## What the handlers leave alone -/

/-- `Install` changes nothing but the storage and the cached script size. -/
theorem Install_store_frame (env : Env) (len : Nat) (raw : List RawRead) (s : State)
    (evs : List Event) (out : Outcome) (h : Install_store env len raw s evs = some out) :
    out.state = { s with nvram := out.state.nvram, scriptSize := out.state.scriptSize } := by
  unfold Install_store at h
  simp only at h
  split at h
  · cases h; rfl
  · split at h
    · cases h
    · cases h; rfl
    · split at h <;> cases h <;> rfl

theorem Install_frame (env : Env) (msg : AJ_Message) (s : State) (out : Outcome)
    (h : Install env msg s = some out) :
    out.state = { s with nvram := out.state.nvram, scriptSize := out.state.scriptSize } := by
  unfold Install at h
  split at h
  · cases h; rfl
  · split at h
    · cases h; rfl
    · split at h
      · cases h
      · split at h
        · cases h; rfl
        · split at h
          · cases h
          · simp only at h
            split at h
            · cases h; rfl
            · have hf := Install_store_frame _ _ _ _ _ _ h
              exact hf

/-- `Eval` changes nothing but the engine state. -/
theorem Eval_frame (env : Env) (msg : AJ_Message) (s : State) (out : Outcome)
    (h : Eval env msg s = some out) :
    out.state = { s with engineState := out.state.engineState } := by
  unfold Eval at h
  split at h
  · cases h
  · split at h
    · cases h; rfl
    · split at h
      · cases h
      · simp only at h
        split at h
        · cases h; rfl
        · split at h
          · cases h; rfl
          · split at h
            · cases h
            · cases h; rfl
            · split at h <;> cases h <;> rfl

/-- Script retrieval changes nothing. -/
theorem GetScript_frame (env : Env) (s : State) (out : Outcome)
    (h : GetScript env s = some out) : out.state = s := by
  unfold GetScript at h
  simp only at h
  split at h
  · repeat' split at h
    all_goals first | (cases h; rfl) | cases h
  · cases h; rfl

/-- Pause and AddBreak change nothing but the debugger state. -/
theorem Pause_frame (env : Env) (msg : AJ_Message) (s : State) (out : Outcome)
    (h : Pause env msg s = some out) :
    out.state = { s with dbgState := out.state.dbgState } := by
  unfold Pause at h
  split at h
  · cases h
  · cases h; rfl

theorem AddBreak_frame (env : Env) (msg : AJ_Message) (s : State) (out : Outcome)
    (h : AddBreak env msg s = some out) :
    out.state = { s with dbgState := out.state.dbgState } := by
  unfold AddBreak at h
  split at h
  · cases h; rfl
  · simp only at h
    split at h
    · cases h
    · split at h
      · cases h
      · split at h
        · cases h
        · cases h; rfl

/-! ## The session gate -/

/-- What the session-accept branch does to the state: nothing, or it records the request's
session id and joiner where no session was active. -/
theorem acceptSession_state (env : Env) (msg : AJ_Message) (s : State) :
    (acceptSession env msg s).state = s ∨
    (s.consoleSession = 0 ∧
      (acceptSession env msg s).state =
        { s with consoleSession := msg.argU, consoleBusName := msg.argS }) := by
  unfold acceptSession
  split
  · left; rfl
  · simp only
    split
    · split
      · left; rfl
      · rename_i h0
        split
        · split
          · left; rfl
          · right; exact ⟨by simpa using h0, rfl⟩
        · left; rfl
    · left; rfl

theorem sessionLost_state (env : Env) (msg : AJ_Message) (s : State) :
    (sessionLost env msg s).state = s ∨
    (sessionLost env msg s).state = { s with consoleSession := 0 } := by
  unfold sessionLost
  split
  · left; rfl
  · split
    · right; rfl
    · left; rfl

theorem Reset_state (env : Env) (s : State) :
    (Reset env s).state = s ∨
    (Reset env s).state = { s with engineState := .ENGINE_CLEAN } := by
  unfold Reset
  simp only
  split
  · right; rfl
  · left; rfl

theorem StartDebugger_state (env : Env) (msg : AJ_Message) (s : State) :
    (StartDebugger env msg s).state.debuggerStarted = s.debuggerStarted ∧
    (StartDebugger env msg s).state.consoleSession = s.consoleSession ∧
    (StartDebugger env msg s).state.consoleBusName = s.consoleBusName := by
  unfold StartDebugger
  simp only
  split <;> exact ⟨rfl, rfl, rfl⟩

/-- What one handled message does to the recorded session and to `debuggerStarted`. -/
theorem AJS_ConsoleMsgHandler_gate (env : Env) (msg : AJ_Message) (s : State) (out : Outcome)
    (h : AJS_ConsoleMsgHandler env msg s = some out) :
    out.state.debuggerStarted = s.debuggerStarted ∧
    ((out.state.consoleSession = s.consoleSession ∧
        out.state.consoleBusName = s.consoleBusName)
      ∨ (s.consoleSession = 0 ∧ msg.msgId = .AJ_METHOD_ACCEPT_SESSION)
      ∨ (s.consoleSession ≠ 0 ∧ out.state.consoleSession = 0 ∧
          out.state.consoleBusName = s.consoleBusName ∧
          msg.msgId = .AJ_SIGNAL_SESSION_LOST_WITH_REASON)) := by
  unfold AJS_ConsoleMsgHandler at h
  by_cases ha : msg.msgId = .AJ_METHOD_ACCEPT_SESSION
  · rw [if_pos ha] at h
    cases h
    rcases acceptSession_state env msg s with h1 | ⟨h0, h1⟩
    · rw [h1]; exact ⟨rfl, Or.inl ⟨rfl, rfl⟩⟩
    · rw [h1]; exact ⟨rfl, Or.inr (Or.inl ⟨h0, ha⟩)⟩
  rw [if_neg ha] at h
  by_cases h0 : s.consoleSession = 0
  · rw [if_pos h0] at h
    cases h
    exact ⟨rfl, Or.inl ⟨rfl, rfl⟩⟩
  rw [if_neg h0] at h
  have hlost := sessionLost_state env msg s
  have hreset := Reset_state env s
  have hstart := StartDebugger_state env msg s
  cases hid : msg.msgId <;> rw [hid] at h <;> simp only at h <;>
  first
    | exact absurd hid ha
    | (rw [Install_frame env msg s out h]; exact ⟨rfl, Or.inl ⟨rfl, rfl⟩⟩)
    | (rw [Eval_frame env msg s out h]; exact ⟨rfl, Or.inl ⟨rfl, rfl⟩⟩)
    | (rw [GetScript_frame env s out h]; exact ⟨rfl, Or.inl ⟨rfl, rfl⟩⟩)
    | (rw [Pause_frame env msg s out h]; exact ⟨rfl, Or.inl ⟨rfl, rfl⟩⟩)
    | (rw [AddBreak_frame env msg s out h]; exact ⟨rfl, Or.inl ⟨rfl, rfl⟩⟩)
    | (cases h; exact ⟨rfl, Or.inl ⟨rfl, rfl⟩⟩)
    | (cases h; exact ⟨hstart.1, Or.inl ⟨hstart.2.1, hstart.2.2⟩⟩)
    | (cases h
       rcases hreset with h1 | h1 <;> rw [h1] <;> exact ⟨rfl, Or.inl ⟨rfl, rfl⟩⟩)
    | (cases h
       rcases hlost with h1 | h1
       · rw [h1]; exact ⟨rfl, Or.inl ⟨rfl, rfl⟩⟩
       · rw [h1]; exact ⟨rfl, Or.inr (Or.inr ⟨h0, rfl, rfl, rfl⟩)⟩)

theorem stepState_sessionChange (i : Input) (s s2 : State) (h : stepState i s = some s2) :
    SessionChange ⟨i, s, s2⟩ := by
  cases i with
  | terminate =>
    simp only [stepState, Option.some.injEq] at h
    subst h
    by_cases h0 : s.consoleSession = 0
    · left; exact ⟨by simp [AJS_ConsoleTerminate, h0], rfl⟩
    · right; right; exact ⟨h0, rfl, rfl, trivial⟩
  | message env msg =>
    simp only [stepState, Option.map_eq_some'] at h
    obtain ⟨out, hout, rfl⟩ := h
    rcases (AJS_ConsoleMsgHandler_gate env msg s out hout).2 with h1 | h1 | h1
    · left; exact h1
    · right; left; exact h1
    · right; right; exact ⟨h1.1, h1.2.1, h1.2.2.1, h1.2.2.2⟩

theorem transitions_sessionChange (inputs : List Input) :
    ∀ (s : State) (t : Transition), t ∈ transitions inputs s → SessionChange t := by
  induction inputs with
  | nil => intro s t ht; simp [transitions] at ht
  | cons i rest ih =>
    intro s t ht
    simp only [transitions] at ht
    cases hs : stepState i s with
    | none => simp [hs] at ht
    | some s2 =>
      simp only [hs, List.mem_cons] at ht
      rcases ht with rfl | ht
      · exact stepState_sessionChange i s s2 hs
      · exact ih s2 t ht

/-- C11: while a console session is active, a session-accept on the console port whose
arguments unmarshal is answered with a rejection and changes nothing, the recorded
session id and peer name included.  Over every sequence of handled messages and
terminations, each step either leaves the recorded session id and peer name as they
were, or records a session where none was active (a session-accept only), or clears the
active session (a session loss or the termination only): the session never passes from
one controller to another. -/
theorem session_single_owner (env : Env) (msg : AJ_Message) (s : State)
    (inputs : List Input) (s0 : State) (t : Transition)
    (hs : s.consoleSession ≠ 0) (hid : msg.msgId = .AJ_METHOD_ACCEPT_SESSION)
    (hargs : msg.argStatus = .AJ_OK) (hport : msg.argQ = 7714)
    (ht : t ∈ transitions inputs s0) :
    AJS_ConsoleMsgHandler env msg s =
      some ⟨env.AJ_BusReplyAcceptSession false, s,
        [.unmarshalArgs "qus" .AJ_OK, .acceptSession false]⟩ ∧
    SessionChange t ∧
    (t.pre.consoleSession ≠ 0 → t.post.consoleSession ≠ 0 →
      t.post.consoleSession = t.pre.consoleSession ∧
      t.post.consoleBusName = t.pre.consoleBusName) := by
  have hch := transitions_sessionChange inputs s0 t ht
  refine ⟨?_, hch, ?_⟩
  · simp [AJS_ConsoleMsgHandler, acceptSession, hid, hargs, hport, hs, SCRIPT_CONSOLE_PORT]
  · intro hpre hpost
    rcases hch with h1 | h1 | h1
    · exact h1
    · exact absurd h1.1 hpre
    · exact absurd h1.2.1 hpost

/-- C11 at a concrete sequence: with session 7 active, an accept for session 9 is
rejected and leaves session 7 recorded; the loss of session 7 then clears the gate, and
a second accept records session 9. -/
theorem session_single_owner_witness :
    AJS_ConsoleMsgHandler sampleEnv (acceptMsg 7714 9 peerName) (sampleState .ENGINE_RUNNING) =
      some ⟨.AJ_OK, sampleState .ENGINE_RUNNING,
        [.unmarshalArgs "qus" .AJ_OK, .acceptSession false]⟩ ∧
    SessionChange
      ⟨.message sampleEnv (acceptMsg 7714 9 peerName),
        sampleState .ENGINE_RUNNING, sampleState .ENGINE_RUNNING⟩ ∧
    ((7 : Nat) ≠ 0 → (7 : Nat) ≠ 0 → (7 : Nat) = 7 ∧ ([] : List Byte) = []) :=
  session_single_owner sampleEnv (acceptMsg 7714 9 peerName) (sampleState .ENGINE_RUNNING)
    [.message sampleEnv (acceptMsg 7714 9 peerName),
      .message sampleEnv (plainMsg .AJ_SIGNAL_SESSION_LOST_WITH_REASON 7 0),
      .message sampleEnv (acceptMsg 7714 9 peerName)]
    (sampleState .ENGINE_RUNNING)
    ⟨.message sampleEnv (acceptMsg 7714 9 peerName),
      sampleState .ENGINE_RUNNING, sampleState .ENGINE_RUNNING⟩
    (by decide) rfl rfl rfl (List.Mem.head _)

/-- C12, as the code has it: a session-accept on the console port, its arguments
unmarshalled, handled while no session is active, is answered with an acceptance.  When
that reply is delivered and the joiner name has at most 15 characters, the request's
session id and the joiner name are recorded; when it is delivered and the name has 16 or
more characters the handler returns AJ_ERR_RESOURCES; when it is not delivered the
handler returns the status of the reply.  In the last two cases the whole state, the
recorded session id and peer name included, is what it was. -/
theorem accept_when_idle (env : Env) (msg : AJ_Message) (s : State)
    (hs : s.consoleSession = 0) (hid : msg.msgId = .AJ_METHOD_ACCEPT_SESSION)
    (hargs : msg.argStatus = .AJ_OK) (hport : msg.argQ = 7714) :
    (env.AJ_BusReplyAcceptSession true = .AJ_OK → msg.argS.length ≤ 15 →
      AJS_ConsoleMsgHandler env msg s =
        some ⟨.AJ_OK, { s with consoleSession := msg.argU, consoleBusName := msg.argS },
          [.unmarshalArgs "qus" .AJ_OK, .acceptSession true]⟩) ∧
    (env.AJ_BusReplyAcceptSession true = .AJ_OK → 16 ≤ msg.argS.length →
      AJS_ConsoleMsgHandler env msg s =
        some ⟨.AJ_ERR_RESOURCES, s, [.unmarshalArgs "qus" .AJ_OK, .acceptSession true]⟩) ∧
    (env.AJ_BusReplyAcceptSession true ≠ .AJ_OK →
      AJS_ConsoleMsgHandler env msg s =
        some ⟨env.AJ_BusReplyAcceptSession true, s,
          [.unmarshalArgs "qus" .AJ_OK, .acceptSession true]⟩) := by
  refine ⟨?_, ?_, ?_⟩
  · intro hok hlen
    have : ¬ msg.argS.length + 1 > 16 := by omega
    simp [AJS_ConsoleMsgHandler, acceptSession, hid, hargs, hport, hs, hok,
      SCRIPT_CONSOLE_PORT, CONSOLE_BUS_NAME_SIZE, this]
  · intro hok hlen
    have : msg.argS.length + 1 > 16 := by omega
    simp [AJS_ConsoleMsgHandler, acceptSession, hid, hargs, hport, hs, hok,
      SCRIPT_CONSOLE_PORT, CONSOLE_BUS_NAME_SIZE, this]
  · intro hko
    simp [AJS_ConsoleMsgHandler, acceptSession, hid, hargs, hport, hs, hko,
      SCRIPT_CONSOLE_PORT]

/-- C12 at a concrete request: the peer :1.42 joins session 9 while the gate is idle. -/
theorem accept_when_idle_witness :
    AJS_ConsoleMsgHandler sampleEnv (acceptMsg 7714 9 peerName)
        { sampleState .ENGINE_RUNNING with consoleSession := 0 } =
      some ⟨.AJ_OK,
        { sampleState .ENGINE_RUNNING with consoleSession := 9, consoleBusName := peerName },
        [.unmarshalArgs "qus" .AJ_OK, .acceptSession true]⟩ :=
  (accept_when_idle sampleEnv (acceptMsg 7714 9 peerName)
    { sampleState .ENGINE_RUNNING with consoleSession := 0 } rfl rfl rfl rfl).1 rfl
    (by decide)

/-- C12 as stated fails: a joiner name of sixteen characters whose acceptance cannot be
delivered makes the handler return the status of the reply, not a resource error. -/
theorem accept_undelivered_long_name :
    AJS_ConsoleMsgHandler busFailEnv (acceptMsg 7714 9 longName)
        { sampleState .ENGINE_RUNNING with consoleSession := 0 } =
      some ⟨.other 1, { sampleState .ENGINE_RUNNING with consoleSession := 0 },
        [.unmarshalArgs "qus" .AJ_OK, .acceptSession true]⟩ ∧
    longName.length = 16 ∧ AJ_Status.other 1 ≠ .AJ_ERR_RESOURCES := by
  decide

/-- C13: while no console session is active, a message with any identifier other than
session-accept makes the handler return AJ_ERR_NO_MATCH without a single external call
(nothing unmarshalled, no reply) and with the whole state unchanged. -/
theorem no_session_no_match (env : Env) (msg : AJ_Message) (s : State)
    (hs : s.consoleSession = 0) (hid : msg.msgId ≠ .AJ_METHOD_ACCEPT_SESSION) :
    AJS_ConsoleMsgHandler env msg s = some ⟨.AJ_ERR_NO_MATCH, s, []⟩ := by
  simp [AJS_ConsoleMsgHandler, hid, hs]

/-- C13 at a concrete request: an install of 1+1 offered to the module as initialised. -/
theorem no_session_no_match_witness :
    AJS_ConsoleMsgHandler sampleEnv (sampleMsg .INSTALL_MSGID aJs onePlusOne)
        (initialState ⟨none, none, none⟩) =
      some ⟨.AJ_ERR_NO_MATCH, initialState ⟨none, none, none⟩, []⟩ :=
  no_session_no_match sampleEnv _ _ rfl (by decide)

/-- C14: a session-accept whose arguments unmarshal to a port other than 7714 gets
neither an acceptance nor a rejection; the arguments are rewound, the handler returns
AJ_ERR_NO_MATCH when the rewind succeeds and the status of the rewind otherwise, and the
whole state is unchanged, whether or not a session is active. -/
theorem accept_other_port (env : Env) (msg : AJ_Message) (s : State)
    (hid : msg.msgId = .AJ_METHOD_ACCEPT_SESSION) (hargs : msg.argStatus = .AJ_OK)
    (hport : msg.argQ ≠ 7714) :
    AJS_ConsoleMsgHandler env msg s =
      some ⟨if env.AJ_ResetArgs = .AJ_OK then .AJ_ERR_NO_MATCH else env.AJ_ResetArgs, s,
        [.unmarshalArgs "qus" .AJ_OK, .resetArgs env.AJ_ResetArgs]⟩ := by
  simp [AJS_ConsoleMsgHandler, acceptSession, hid, hargs, hport, SCRIPT_CONSOLE_PORT]

/-- C14 at a concrete request: an accept for port 25 while session 7 is active. -/
theorem accept_other_port_witness :
    AJS_ConsoleMsgHandler sampleEnv (acceptMsg 25 9 peerName) (sampleState .ENGINE_RUNNING) =
      some ⟨.AJ_ERR_NO_MATCH, sampleState .ENGINE_RUNNING,
        [.unmarshalArgs "qus" .AJ_OK, .resetArgs .AJ_OK]⟩ :=
  accept_other_port sampleEnv (acceptMsg 25 9 peerName) (sampleState .ENGINE_RUNNING)
    rfl rfl (by decide)

/-- C15, as the code has it: a session-loss notification, its argument unmarshalled,
handled while a session is active.  When its session id is the active one the session id
becomes 0 and the handler returns AJ_OK; otherwise the arguments are rewound, the state
is unchanged and the handler returns AJ_ERR_NO_MATCH when the rewind succeeds, the status
of the rewind when it fails.  In both cases the engine state is unchanged. -/
theorem session_lost (env : Env) (msg : AJ_Message) (s : State)
    (hs : s.consoleSession ≠ 0) (hid : msg.msgId = .AJ_SIGNAL_SESSION_LOST_WITH_REASON)
    (hargs : msg.argStatus = .AJ_OK) :
    (msg.argU = s.consoleSession →
      AJS_ConsoleMsgHandler env msg s =
        some ⟨.AJ_OK, { s with consoleSession := 0 }, [.unmarshalArgs "u" .AJ_OK]⟩) ∧
    (msg.argU ≠ s.consoleSession →
      AJS_ConsoleMsgHandler env msg s =
        some ⟨if env.AJ_ResetArgs = .AJ_OK then .AJ_ERR_NO_MATCH else env.AJ_ResetArgs, s,
          [.unmarshalArgs "u" .AJ_OK, .resetArgs env.AJ_ResetArgs]⟩) := by
  constructor
  · intro h
    simp [AJS_ConsoleMsgHandler, sessionLost, hid, hargs, hs, h]
  · intro h
    simp [AJS_ConsoleMsgHandler, sessionLost, hid, hargs, hs, h]

/-- C15 at a concrete request: the loss of the active session 7. -/
theorem session_lost_witness :
    AJS_ConsoleMsgHandler sampleEnv (plainMsg .AJ_SIGNAL_SESSION_LOST_WITH_REASON 7 0)
        (sampleState .ENGINE_RUNNING) =
      some ⟨.AJ_OK, { sampleState .ENGINE_RUNNING with consoleSession := 0 },
        [.unmarshalArgs "u" .AJ_OK]⟩ :=
  (session_lost sampleEnv (plainMsg .AJ_SIGNAL_SESSION_LOST_WITH_REASON 7 0)
    (sampleState .ENGINE_RUNNING) (by decide) rfl rfl).1 rfl

/-- C15 as stated fails: the loss of another session, 8, when the arguments cannot be
rewound, makes the handler return the status of the rewind, not AJ_ERR_NO_MATCH. -/
theorem session_lost_rewind_failure :
    AJS_ConsoleMsgHandler busFailEnv (plainMsg .AJ_SIGNAL_SESSION_LOST_WITH_REASON 8 0)
        (sampleState .ENGINE_RUNNING) =
      some ⟨.other 2, sampleState .ENGINE_RUNNING,
        [.unmarshalArgs "u" .AJ_OK, .resetArgs (.other 2)]⟩ ∧
    (sampleState .ENGINE_RUNNING).consoleSession = 7 ∧
    AJ_Status.other 2 ≠ .AJ_ERR_NO_MATCH := by
  decide

/-! ## Debug requests -/

/-- C16: with a console session active, each of the fifteen busy-fallback requests makes
the handler return AJ_OK after exactly one external call, the delivery of a status
message carrying AJ_ERR_BUSY; the whole state (pending request, debug input stream,
engine state, session) is unchanged.  This holds whether or not a debug session is
attached. -/
theorem busy_fallback (env : Env) (msg : AJ_Message) (s : State)
    (hs : s.consoleSession ≠ 0) (hid : msg.msgId ∈ busyFallbackIds) :
    busyFallbackIds.length = 15 ∧
    AJS_ConsoleMsgHandler env msg s =
      some ⟨.AJ_OK, s, [.deliver (.status .AJ_ERR_BUSY)]⟩ := by
  refine ⟨rfl, ?_⟩
  simp only [busyFallbackIds, List.mem_cons, List.mem_singleton, List.not_mem_nil,
    or_false] at hid
  rcases hid with h | h | h | h | h | h | h | h | h | h | h | h | h | h | h <;>
    simp [AJS_ConsoleMsgHandler, h, hs, busyReply]

/-- C16 at a concrete request: a step-over while no debug session was ever begun. -/
theorem busy_fallback_witness :
    busyFallbackIds.length = 15 ∧
    AJS_ConsoleMsgHandler sampleEnv (plainMsg .DBG_STEPOVER_MSGID 0 0)
        (sampleState .ENGINE_RUNNING) =
      some ⟨.AJ_OK, sampleState .ENGINE_RUNNING, [.deliver (.status .AJ_ERR_BUSY)]⟩ :=
  busy_fallback sampleEnv (plainMsg .DBG_STEPOVER_MSGID 0 0) (sampleState .ENGINE_RUNNING)
    (by decide) (by decide)

/-- No step of the module assigns `debuggerStarted`: from the static initialisers on it
is false after every step. -/
theorem debuggerStarted_stays_false (inputs : List Input) :
    ∀ (s : State) (t : Transition), s.debuggerStarted = false → t ∈ transitions inputs s →
      t.pre.debuggerStarted = false ∧ t.post.debuggerStarted = false := by
  induction inputs with
  | nil => intro s t _ ht; simp [transitions] at ht
  | cons i rest ih =>
    intro s t hs ht
    simp only [transitions] at ht
    cases hst : stepState i s with
    | none => simp [hst] at ht
    | some s2 =>
      have h2 : s2.debuggerStarted = false := by
        cases i with
        | terminate =>
          simp only [stepState, Option.some.injEq] at hst
          rw [← hst]; exact hs
        | message env msg =>
          simp only [stepState, Option.map_eq_some'] at hst
          obtain ⟨out, hout, rfl⟩ := hst
          rw [(AJS_ConsoleMsgHandler_gate env msg s out hout).1]; exact hs
      simp only [hst, List.mem_cons] at ht
      rcases ht with rfl | ht
      · exact ⟨hs, h2⟩
      · exact ih s2 t h2 ht

/-- A debug-end handled with a console session active while `debuggerStarted` is false:
the watchdog is re-enabled and DebugStopped (7) is replied, the hooks are not detached. -/
theorem StopDebugger_not_started (env : Env) (msg : AJ_Message) (s : State)
    (hs : s.consoleSession ≠ 0) (hid : msg.msgId = .DBG_END_MSGID)
    (hd : s.debuggerStarted = false) :
    AJS_ConsoleMsgHandler env msg s =
      some ⟨env.AJ_DeliverMsg (.method [.y 7]), s,
        [.enableWatchdog, .deliver (.method [.y 7])]⟩ := by
  simp [AJS_ConsoleMsgHandler, hid, hs, StopDebugger, hd, SCRIPT_DEBUG_STOPPED]

/-- A debug-begin handled with a console session active while `debuggerStarted` is false
replies DebugStarted (6), disables the watchdog and attaches the hooks. -/
theorem StartDebugger_not_started (env : Env) (msg : AJ_Message) (s : State)
    (hs : s.consoleSession ≠ 0) (hid : msg.msgId = .DBG_BEGIN_MSGID)
    (hd : s.debuggerStarted = false) :
    ∃ out, AJS_ConsoleMsgHandler env msg s = some out ∧
      out.events = [.unmarshalArgs "y" msg.argStatus, .deliver (.method [.y 6]),
        .disableWatchdog, .attach] := by
  refine ⟨_, by simp only [AJS_ConsoleMsgHandler, hid, hs]; simp; rfl, ?_⟩
  unfold StartDebugger
  by_cases hq : msg.argY = 0 <;> simp [hq, hd, SCRIPT_DEBUG_STARTED]

/-- C17 at its failing input: a debug-begin, then a debug-end, from the state the module
starts in with a console session.  The debug-end re-enables the watchdog and replies
DebugStopped (7), but the hooks attached by the debug-begin are not detached. -/
theorem debug_end_after_begin_no_detach :
    (AJS_ConsoleMsgHandler sampleEnv (plainMsg .DBG_BEGIN_MSGID 0 0)
        (sampleState .ENGINE_RUNNING)).map (fun o => o.events)
      = some [.unmarshalArgs "y" .AJ_OK, .deliver (.method [.y 6]), .disableWatchdog,
          .attach] ∧
    ((AJS_ConsoleMsgHandler sampleEnv (plainMsg .DBG_BEGIN_MSGID 0 0)
        (sampleState .ENGINE_RUNNING)).bind
      (fun o => AJS_ConsoleMsgHandler sampleEnv (plainMsg .DBG_END_MSGID 0 0) o.state)).map
        (fun o => o.events)
      = some [.enableWatchdog, .deliver (.method [.y 7])] ∧
    Event.detach ∉ [Event.enableWatchdog, .deliver (.method [.y 7])] := by
  decide

/-- C18 at its failing input: two debug-begins with no debug-end between them.  The
second one replies DebugStarted (6) again. -/
theorem second_debug_begin_replies_started :
    ((AJS_ConsoleMsgHandler sampleEnv (plainMsg .DBG_BEGIN_MSGID 0 0)
        (sampleState .ENGINE_RUNNING)).bind
      (fun o => AJS_ConsoleMsgHandler sampleEnv (plainMsg .DBG_BEGIN_MSGID 0 0) o.state)).map
        (fun o => o.events)
      = some [.unmarshalArgs "y" .AJ_OK, .deliver (.method [.y 6]), .disableWatchdog,
          .attach] := by
  decide

/-! ## The install cap -/

/-- Below a third of 2^32 the cap is three quarters of the free capacity, rounded down. -/
theorem MaxScriptLen_small (f : Nat) (h : f ≤ 1431655765) : MaxScriptLen f = 3 * f / 4 := by
  unfold MaxScriptLen
  rw [Nat.mod_eq_of_lt (by omega)]

/-- The cap `Install` enforces and the value the maxScriptLen property reports are both
`MaxScriptLen` of the free capacity the storage reports. -/
theorem cap_uses_MaxScriptLen (env : Env) (msg : AJ_Message) (s : State) :
    installCap env msg s =
      MaxScriptLen (env.AJ_NVRAM_GetSizeRemaining
        (Install_saveName env msg.argS s.nvram).1 % 2 ^ 32) ∧
    (PropGetHandler env .MAX_SCRIPT_LEN_PROP s).1 =
      [.u (MaxScriptLen (env.AJ_NVRAM_GetSizeRemaining s.nvram % 2 ^ 32))] :=
  ⟨rfl, rfl⟩

/-- C20 at its failing input: a storage reporting 2^31 free bytes.  Three quarters of it
are 1610612736, but the product 3 * 2^31 wraps to 2^31 in 32 bits and the cap is
536870912: the property reports that value, and an Install declaring 600000000 bytes is
refused as too long. -/
theorem MaxScriptLen_wraps :
    MaxScriptLen 2147483648 = 536870912 ∧ 3 * 2147483648 / 4 = 1610612736 ∧
    (AJS_ConsoleMsgHandler hugeStorageEnv (propMsg .MAX_SCRIPT_LEN_PROP)
        (sampleState .ENGINE_CLEAN)).map (fun o => o.events)
      = some [.deliver (.method [.u 536870912])] ∧
    decodeLen .little .little [0, 70, 195, 35] = 600000000 ∧
    (Install hugeStorageEnv (sampleMsg .INSTALL_MSGID aJs sixHundredMillion)
        (sampleState .ENGINE_CLEAN)).map (fun o => o.events.filter isDeliver)
      = some [.deliver (.method [.y 3, .s "Script too long"])] := by
  decide

/-! ## The table of external strings -/

set_option maxRecDepth 100000 in
/-- The loop of `AJS_ExternalStringCheck`, entered with `min < max`, only ever looks at
positions below `max`: what it returns is an index below the initial `max`. -/
theorem searchLoop_below_max (str : List Byte) (len : Nat) (fuel : Nat) :
    ∀ (min max p : Nat), min < max →
      searchLoop str len fuel min max = some (some p) → p < max := by
  induction fuel with
  | zero => intro min max p _ h; simp [searchLoop] at h
  | succ n ih =>
    intro min max p hlt h
    have hpos : min + (max - min) / 2 < max := by omega
    simp only [searchLoop] at h
    split at h
    · cases h
    · rename_i word hw
      split at h
      · cases h
      · split at h
        · simp only [Option.some.injEq] at h
          omega
        · by_cases hc : (if strncmp str word len = 0 then (-1 : Int)
              else strncmp str word len) < 0
          · rw [if_pos hc, if_pos hc] at h
            by_cases hne : min + (max - min) / 2 ≠ min
            · rw [if_pos hne] at h
              have := ih _ _ p (by omega) h
              omega
            · rw [if_neg hne] at h
              cases h
          · rw [if_neg hc, if_neg hc] at h
            by_cases hne : max ≠ min + (max - min) / 2 + 1
            · rw [if_pos hne] at h
              exact ih _ _ p (by omega) h
            · rw [if_neg hne] at h
              cases h

set_option maxRecDepth 100000 in
theorem sortedWords_length : sortedWords.length = 395 := by
  decide

/-- Whatever the input, `AJS_ExternalStringCheck` never returns the last entry of the
table: the search starts with `max` at the last index and never looks at it. -/
theorem AJS_ExternalStringCheck_never_last (str : List Byte) (len p : Nat)
    (h : AJS_ExternalStringCheck str len = some (some p)) : p < sortedWords.length - 1 := by
  unfold AJS_ExternalStringCheck at h
  split at h
  · cases h
  · have hlen : 0 < sortedWords.length - 1 := by
      rw [sortedWords_length]; omega
    exact searchLoop_below_max str len _ 0 _ p hlen h

set_option maxRecDepth 100000 in
/-- C19 at its failing input: the last entry of the table, the five bytes of "\377wbuf",
looked up with its own length.  The table has 395 entries, this one at index 394, and the
lookup returns NULL. -/
theorem last_word_not_found :
    sortedWords.length = 395 ∧
    sortedWords[394]? = some [255, 119, 98, 117, 102] ∧
    AJS_ExternalStringCheck [255, 119, 98, 117, 102] 5 = some none := by
  decide

/-! ## Byte order of the length prefix -/

theorem and_byte_mask (x k : Nat) : x &&& ((2 ^ 8 - 1) <<< k) = (x >>> k % 2 ^ 8) <<< k := by
  apply Nat.eq_of_testBit_eq
  intro i
  simp only [Nat.testBit_and, Nat.testBit_shiftLeft, Nat.testBit_shiftRight,
    Nat.testBit_mod_two_pow, Nat.testBit_two_pow_sub_one]
  by_cases h : k ≤ i
  · have e : k + (i - k) = i := by omega
    simp [h, e, Bool.and_comm]
  · simp [h]

theorem shiftLeft_or_low (a b k : Nat) (h : b < 2 ^ k) : a <<< k ||| b = a * 2 ^ k + b := by
  rw [Nat.shiftLeft_eq, Nat.mul_comm, ← Nat.mul_add_lt_is_or h]

theorem ENDSWAP32_bytes (a b c d : Nat) (ha : a < 256) (hb : b < 256) (hc : c < 256)
    (hd : d < 256) :
    ENDSWAP32 (a + 256 * b + 65536 * c + 16777216 * d)
      = d + 256 * c + 65536 * b + 16777216 * a := by
  generalize hv : a + 256 * b + 65536 * c + 16777216 * d = v
  have m1 : (0xFF0000 : Nat) = (2 ^ 8 - 1) <<< 16 := by decide
  have m2 : (0x00FF00 : Nat) = (2 ^ 8 - 1) <<< 8 := by decide
  have e1 : v >>> 24 = d := by rw [Nat.shiftRight_eq_div_pow]; omega
  have e2 : (v &&& 0xFF0000) >>> 8 = c <<< 8 := by
    rw [m1, and_byte_mask, Nat.shiftRight_eq_div_pow, Nat.shiftRight_eq_div_pow,
      Nat.shiftLeft_eq, Nat.shiftLeft_eq]
    omega
  have e3 : (v &&& 0x00FF00) <<< 8 = b <<< 16 := by
    rw [m2, and_byte_mask, Nat.shiftRight_eq_div_pow, Nat.shiftLeft_eq, Nat.shiftLeft_eq,
      Nat.shiftLeft_eq]
    omega
  unfold ENDSWAP32
  rw [e1, e2, e3, Nat.or_comm d, shiftLeft_or_low c d 8 (by omega), Nat.or_comm _ (b <<< 16),
    shiftLeft_or_low b _ 16 (by omega), Nat.or_comm _ (v <<< 24),
    shiftLeft_or_low v _ 24 (by omega)]
  omega

theorem store32_bytes (n : Nat) (h : n < 2 ^ 32) :
    n = n % 256 + 256 * (n / 256 % 256) + 65536 * (n / 65536 % 256)
      + 16777216 * (n / 16777216 % 256) := by
  omega

theorem ENDSWAP32_store32 (n : Nat) (h : n < 2 ^ 32) :
    ENDSWAP32 n = n / 16777216 % 256 + 256 * (n / 65536 % 256) + 65536 * (n / 256 % 256)
      + 16777216 * (n % 256) := by
  have e := ENDSWAP32_bytes (n % 256) (n / 256 % 256) (n / 65536 % 256) (n / 16777216 % 256)
    (by omega) (by omega) (by omega) (by omega)
  rw [← store32_bytes n h] at e
  exact e

theorem ENDSWAP32_lt (n : Nat) : ENDSWAP32 n < 2 ^ 32 := by
  exact Nat.mod_lt _ (by decide)

theorem ENDSWAP32_involutive (n : Nat) (h : n < 2 ^ 32) : ENDSWAP32 (ENDSWAP32 n) = n := by
  rw [ENDSWAP32_store32 n h, ENDSWAP32_bytes _ _ _ _ (by omega) (by omega) (by omega) (by omega)]
  omega

theorem load32_store32_swapped (o o2 : Endian) (n : Nat) (h : n < 2 ^ 32) (ho : o2 ≠ o) :
    load32 o (store32 o2 n) = ENDSWAP32 n := by
  rw [ENDSWAP32_store32 n h]
  cases o <;> cases o2 <;> first
    | exact absurd rfl ho
    | (simp only [load32, store32, byteAt, List.getD_cons_zero, List.getD_cons_succ]; omega)

theorem decodeLen_store32 (native msgOrder : Endian) (n : Nat) (h : n < 2 ^ 32) :
    decodeLen native msgOrder (store32 msgOrder n) = n := by
  unfold decodeLen
  split
  · rename_i hne
    rw [load32_store32_swapped native msgOrder n h hne, ENDSWAP32_involutive n h]
  · rename_i he
    have he2 : msgOrder = native := by simpa using he
    rw [he2, load32_store32 native n h]

theorem store32_ENDSWAP32 (n : Nat) (h : n < 2 ^ 32) :
    store32 .little (ENDSWAP32 n) = (store32 .little n).reverse := by
  rw [ENDSWAP32_store32 n h]
  simp only [store32, List.reverse_cons, List.reverse_nil, List.nil_append, List.cons_append,
    List.cons.injEq, and_true]
  have ha : n % 256 < 256 := Nat.mod_lt _ (by decide)
  have hb : n / 256 % 256 < 256 := Nat.mod_lt _ (by decide)
  have hc : n / 65536 % 256 < 256 := Nat.mod_lt _ (by decide)
  have hd : n / 16777216 % 256 < 256 := Nat.mod_lt _ (by decide)
  generalize n % 256 = a at ha ⊢
  generalize n / 256 % 256 = b at hb ⊢
  generalize n / 65536 % 256 = c at hc ⊢
  generalize n / 16777216 % 256 = d at hd ⊢
  refine ⟨?_, ?_, ?_, ?_⟩ <;> show (_ : Nat) = _ <;> omega

/-- C21: the four-byte length word of Eval and Install is decoded in the right byte order.
A word holding `n < 2^32` in the byte order of the message decodes to `n` on either host;
the decoder applies `ENDSWAP32` when the order of the message differs from the native
order and not otherwise; `ENDSWAP32` reverses the four bytes of a 32-bit value and is its
own inverse on such values.  Both handlers act on the decoded `n`: Eval rejects the
request when `n` exceeds 1024, Install when `n` exceeds the cap. -/
theorem length_word_byte_order (env : Env) (msg : AJ_Message) (s : State) (n : Nat)
    (rest : List RawRead) (raw : List Byte) (hn : n < 2 ^ 32)
    (hraw : msg.raw = ⟨.AJ_OK, store32 msg.endianess n⟩ :: rest) :
    decodeLen env.AJ_NATIVE_ENDIAN msg.endianess (store32 msg.endianess n) = n ∧
    (msg.endianess ≠ env.AJ_NATIVE_ENDIAN →
      decodeLen env.AJ_NATIVE_ENDIAN msg.endianess raw
        = ENDSWAP32 (load32 env.AJ_NATIVE_ENDIAN raw)) ∧
    (msg.endianess = env.AJ_NATIVE_ENDIAN →
      decodeLen env.AJ_NATIVE_ENDIAN msg.endianess raw = load32 env.AJ_NATIVE_ENDIAN raw) ∧
    store32 .little (ENDSWAP32 n) = (store32 .little n).reverse ∧
    ENDSWAP32 (ENDSWAP32 n) = n ∧
    (1024 < n → Eval env msg s = some (EvalReply env "Eval expression too long"
      env.duk.DUK_RET_ALLOC_ERROR s [.unmarshalRaw 4 .AJ_OK])) ∧
    (s.engineState = .ENGINE_CLEAN → msg.argStatus = .AJ_OK → installCap env msg s < n →
      Install env msg s = some ⟨env.AJ_DeliverMsg tooLongReply,
        { s with nvram := (Install_saveName env msg.argS s.nvram).1 },
        Event.unmarshalArgs "s" .AJ_OK :: (Install_saveName env msg.argS s.nvram).2 ++
          [.unmarshalRaw 4 .AJ_OK, .deliver tooLongReply]⟩) := by
  have hd := decodeLen_store32 env.AJ_NATIVE_ENDIAN msg.endianess n hn
  refine ⟨hd, ?_, ?_, store32_ENDSWAP32 n hn, ENDSWAP32_involutive n hn, ?_, ?_⟩
  · intro hne
    simp [decodeLen, hne]
  · intro he
    simp [decodeLen, he]
  · intro hlong
    unfold Eval
    simp only [hraw]
    rw [if_neg (fun hne => hne rfl), if_neg (by simp [store32_length])]
    simp only [hd]
    rw [if_pos (by simpa [MAX_EVAL_LEN] using hlong)]
  · intro hclean hargs hlong
    exact Install_too_long_eq env msg s _ rest hclean hargs hraw rfl
      (by simp [store32_length]) (by rw [hd]; exact hlong)

/-- C21 at a big-endian request read on a little-endian host: the bytes 0, 0, 4, 1 decode
to 1025 and the request is rejected as too long. -/
theorem length_word_byte_order_witness :
    (1025 < 2 ^ 32 ∧ (bigEndianMsg .EVAL_MSGID).raw = [⟨.AJ_OK, store32 .big 1025⟩]) ∧
    decodeLen .little .big [0, 0, 4, 1] = 1025 ∧
    ENDSWAP32 (ENDSWAP32 1025) = 1025 ∧
    Eval sampleEnv (bigEndianMsg .EVAL_MSGID) (sampleState .ENGINE_CLEAN)
      = some ⟨.AJ_OK, sampleState .ENGINE_CLEAN,
          [.unmarshalRaw 4 .AJ_OK, .deliver (.method [.y 3, .s "Eval expression too long"])]⟩ :=
  have h := length_word_byte_order sampleEnv (bigEndianMsg .EVAL_MSGID)
    (sampleState .ENGINE_CLEAN) 1025 [] [] (by decide) rfl
  ⟨⟨by decide, rfl⟩, h.1, h.2.2.2.2.1, h.2.2.2.2.2.1 (by decide)⟩

/-! ## Eval: the text handed to the compiler -/

theorem stripTrailingNuls_le (js : List Byte) (n : Nat) : stripTrailingNuls js n ≤ n := by
  induction n with
  | zero => simp [stripTrailingNuls]
  | succ n ih =>
    simp only [stripTrailingNuls]
    split <;> omega

theorem stripTrailingNuls_zero_above (js : List Byte) (n : Nat) :
    ∀ i, stripTrailingNuls js n ≤ i → i < n → byteAt js i = 0 := by
  induction n with
  | zero => intro i _ h; omega
  | succ n ih =>
    intro i h1 h2
    simp only [stripTrailingNuls] at h1
    split at h1
    · rename_i hz
      by_cases hi : i = n
      · rw [hi]; exact hz
      · exact ih i h1 (by omega)
    · omega

theorem stripTrailingNuls_last (js : List Byte) (n : Nat) :
    stripTrailingNuls js n = 0 ∨ byteAt js (stripTrailingNuls js n - 1) ≠ 0 := by
  induction n with
  | zero => left; rfl
  | succ n ih =>
    simp only [stripTrailingNuls]
    split
    · exact ih
    · rename_i hz
      right
      simpa using hz

/-- A copy loop of Eval that ran to completion consumed a prefix of the scripted reads,
all of them successful, and appended their bytes in order: exactly `l` of them. -/
theorem Eval_copy_done_content (raw : List RawRead) :
    ∀ (l : Nat) (js js2 : List Byte) (evs : List Event),
      Eval_copy l js raw = some (.done js2 evs) →
      ∃ k, k ≤ raw.length ∧ evs.length = k ∧
        js2 = js ++ ((raw.take k).map RawRead.chunk).flatten ∧
        (((raw.take k).map RawRead.chunk).flatten).length = l ∧
        ∀ r ∈ raw.take k, r.status = .AJ_OK := by
  induction raw with
  | nil =>
    intro l js js2 evs h
    simp only [Eval_copy] at h
    split at h
    · rename_i h0
      simp only [Option.some.injEq, EvalCopy.done.injEq] at h
      obtain ⟨rfl, rfl⟩ := h
      exact ⟨0, by simp, rfl, by simp, by simp [h0], by simp⟩
    · exact absurd h (by simp)
  | cons r rest ih =>
    intro l js js2 evs h
    simp only [Eval_copy] at h
    split at h
    · rename_i h0
      simp only [Option.some.injEq, EvalCopy.done.injEq] at h
      obtain ⟨rfl, rfl⟩ := h
      exact ⟨0, by simp, rfl, by simp, by simp [h0], by simp⟩
    · split at h
      · exact absurd h (by simp)
      · rename_i hok
        split at h
        · exact absurd h (by simp)
        · rename_i hfit
          split at h
          · exact absurd h (by simp)
          · rename_i js3 evs3 hrec
            simp only [Option.some.injEq, EvalCopy.done.injEq] at h
            obtain ⟨rfl, rfl⟩ := h
            obtain ⟨k, hk, hev, hjs, hlen, hall⟩ := ih _ _ _ _ hrec
            refine ⟨k + 1, by simp; omega, by simp [hev], ?_, ?_, ?_⟩
            · simp [hjs, List.append_assoc]
            · simp only [List.take_succ_cons, List.map_cons, List.flatten_cons,
                List.length_append, hlen]
              omega
            · intro x hx
              simp only [List.take_succ_cons, List.mem_cons] at hx
              rcases hx with rfl | hx
              · simpa using hok
              · exact hall x hx
          · exact absurd h (by simp)

theorem byteAt_take (bs : List Byte) (k i : Nat) (h : i < k) :
    byteAt (bs.take k) i = byteAt bs i := by
  simp only [byteAt, List.getD_eq_getElem?_getD, List.getElem?_take, h, if_true]

/-- C22: the text Eval hands to the compiler.  When an Eval returns having called the
compiler on `src`, the payload `P` it copied has the declared length, at most 1024, and
`src` is the longest prefix of `P` that does not end in a zero byte: `src` is a prefix of
`P`, every byte of `P` behind it is zero, `src` is empty or its last byte is not zero, and
no longer prefix of `P` is empty or ends in a non-zero byte.  So `src` is empty exactly
when `P` is empty or holds zero bytes only. -/
theorem Eval_source_text (env : Env) (msg : AJ_Message) (s : State) (out : Outcome)
    (r : RawRead) (rest : List RawRead) (src : List Byte)
    (hout : Eval env msg s = some out) (hraw : msg.raw = r :: rest) (hr : r.status = .AJ_OK)
    (hsrc : Event.compile src ∈ out.events) :
    ∃ P evs, Eval_copy (decodeLen env.AJ_NATIVE_ENDIAN msg.endianess r.chunk) [] rest
        = some (.done P evs) ∧
      P.length = decodeLen env.AJ_NATIVE_ENDIAN msg.endianess r.chunk ∧ P.length ≤ 1024 ∧
      src = P.take src.length ∧ src.length ≤ P.length ∧
      (∀ i, src.length ≤ i → i < P.length → byteAt P i = 0) ∧
      (src = [] ∨ byteAt src (src.length - 1) ≠ 0) ∧
      (∀ m, m ≤ P.length → (m = 0 ∨ byteAt P (m - 1) ≠ 0) → m ≤ src.length) ∧
      (src = [] ↔ ∀ i, i < P.length → byteAt P i = 0) := by
  obtain ⟨-, hc⟩ := Eval_cases env msg s out r rest hout hraw hr
  generalize decodeLen env.AJ_NATIVE_ENDIAN msg.endianess r.chunk = len at hc ⊢
  rcases hc with ⟨-, rfl⟩ | ⟨-, -, rfl⟩ | ⟨-, -, st, evs, hcopy, rfl⟩
    | ⟨hle, -, P, evs, hcopy, hc⟩
  · simp [EvalReply] at hsrc
  · simp [Eval_ErrorReply] at hsrc
  · obtain ⟨hall, -⟩ := Eval_copy_fail_events rest _ _ _ _ hcopy
    simp only [Eval_ErrorReply, List.cons_append, List.mem_cons, List.mem_append,
      List.mem_singleton, reduceCtorEq, false_or, or_false, List.not_mem_nil] at hsrc
    have := (hall _ hsrc).2.1
    simp [isCompile] at this
  · have hnc : Event.compile src ∉ evs := by
      intro hmem
      have := (Eval_copy_done_events rest _ _ _ _ hcopy _ hmem).2.1
      simp [isCompile] at this
    obtain ⟨k, -, -, hP, hlen, -⟩ := Eval_copy_done_content rest _ _ _ _ hcopy
    have hPlen : P.length = len := by rw [hP]; simpa using hlen
    have hsrc2 : src = P.take (stripTrailingNuls P len) := by
      rcases hc with ⟨-, rfl⟩ | ⟨-, rfl⟩ <;>
        simp only [EvalReply, List.cons_append, List.mem_cons, List.mem_append,
          List.mem_singleton, reduceCtorEq, false_or, or_false, Event.compile.injEq,
          List.append_assoc, List.not_mem_nil] at hsrc <;>
        rcases hsrc with h | h <;> first | exact absurd h hnc | exact h
    have hk := stripTrailingNuls_le P len
    have hlen2 : src.length = stripTrailingNuls P len := by
      rw [hsrc2, List.length_take]; omega
    have hz := stripTrailingNuls_zero_above P len
    have hl := stripTrailingNuls_last P len
    rw [← hlen2] at hk hz hl
    have hlast : src = [] ∨ byteAt src (src.length - 1) ≠ 0 := by
      rcases Nat.eq_zero_or_pos src.length with h0 | hpos
      · left; exact List.length_eq_zero.mp h0
      · rcases hl with h0 | h1
        · omega
        · right
          have e : byteAt src (src.length - 1) = byteAt P (src.length - 1) := by
            have h := byteAt_take P (stripTrailingNuls P len) (src.length - 1) (by omega)
            rw [← hsrc2] at h
            exact h
          rw [e]; exact h1
    refine ⟨P, evs, hcopy, hPlen, by simpa [MAX_EVAL_LEN, hPlen] using hle, ?_, by omega, ?_,
      hlast, ?_, ?_⟩
    · rw [hlen2]; exact hsrc2
    · intro i h1 h2; exact hz i h1 (by omega)
    · intro m hm hne
      by_contra hlt
      rcases hne with h0 | h1
      · omega
      · exact h1 (hz (m - 1) (by omega) (by omega))
    · constructor
      · intro he i hi
        exact hz i (by simp [he]) (by omega)
      · intro hall
        rcases hlast with h0 | h1
        · exact h0
        · exfalso
          have hpos : 0 < src.length := by
            rcases Nat.eq_zero_or_pos src.length with h0 | h0
            · rw [List.length_eq_zero.mp h0] at h1; simp [byteAt] at h1
            · exact h0
          have e : byteAt src (src.length - 1) = byteAt P (src.length - 1) := by
            have h := byteAt_take P (stripTrailingNuls P len) (src.length - 1) (by omega)
            rw [← hsrc2] at h
            exact h
          exact h1 (e ▸ hall _ (by omega))

/-- C22 at a payload with an inner zero byte and two trailing ones: the compiler receives
the bytes 49, 0, 50. -/
theorem Eval_source_text_witness :
    ∃ out, Eval sampleEnv (sampleMsg .EVAL_MSGID [] nulPadded) (sampleState .ENGINE_CLEAN)
        = some out ∧
      Event.compile [49, 0, 50] ∈ out.events ∧
      ∃ P evs, Eval_copy 5 [] [⟨.AJ_OK, [49, 0]⟩, ⟨.AJ_OK, [50, 0, 0]⟩] = some (.done P evs) ∧
        P.length = 5 ∧ P.length ≤ 1024 ∧
        [49, 0, 50] = P.take 3 ∧ 3 ≤ P.length ∧
        (∀ i, 3 ≤ i → i < P.length → byteAt P i = 0) ∧
        (([49, 0, 50] : List Byte) = [] ∨ byteAt [49, 0, 50] (3 - 1) ≠ 0) ∧
        (∀ m, m ≤ P.length → (m = 0 ∨ byteAt P (m - 1) ≠ 0) → m ≤ 3) ∧
        (([49, 0, 50] : List Byte) = [] ↔ ∀ i, i < P.length → byteAt P i = 0) :=
  ⟨_, rfl, by decide,
    Eval_source_text sampleEnv (sampleMsg .EVAL_MSGID [] nulPadded) (sampleState .ENGINE_CLEAN)
      _ ⟨.AJ_OK, [5, 0, 0, 0]⟩ [⟨.AJ_OK, [49, 0]⟩, ⟨.AJ_OK, [50, 0, 0]⟩] [49, 0, 50]
      rfl rfl rfl (by decide)⟩

/-! ## Debug frames: AddBreak and Pause -/

theorem addBreakFrame_length (env : Env) (file : List Byte) (line : Nat) :
    (addBreakFrame env file line).length = file.length + 5 := by
  simp [addBreakFrame]

/-- An AddBreak that returns after unmarshalling its arguments had a file name of at most
250 bytes and handed the whole frame to the buffer. -/
theorem AddBreak_appends (env : Env) (msg : AJ_Message) (s : State) (out : Outcome)
    (d : AJS_DebuggerState) (h : AddBreak env msg s = some out)
    (hargs : msg.argStatus = .AJ_OK) (hd : s.dbgState = some d) :
    msg.argS.length + 5 ≤ 255 ∧
    out.state.dbgState = some { d with
      read := appendFrame d.read (addBreakFrame env msg.argS msg.argY) (msg.argS.length + 5),
      lastMsg := some msg, lastMsgType := env.ADD_BREAK_REQ } := by
  unfold AddBreak at h
  rw [if_neg (fun hne => hne hargs)] at h
  simp only at h
  split at h
  · cases h
  · split at h
    · cases h
    · rename_i hfit
      have hle : msg.argS.length + 5 ≤ 255 := by omega
      have hm : (msg.argS.length + 5) % 256 = msg.argS.length + 5 := by omega
      rw [hd] at h
      simp only [Option.some.injEq] at h
      rw [← h, hm]
      exact ⟨hle, rfl⟩

theorem Pause_appends (env : Env) (msg : AJ_Message) (s : State) (out : Outcome)
    (d : AJS_DebuggerState) (h : Pause env msg s = some out) (hd : s.dbgState = some d) :
    out.state.dbgState = some { d with
      read := appendFrame d.read (store32 env.AJ_NATIVE_ENDIAN
        (env.BUILD_DBG_MSG env.DBG_TYPE_REQ (env.PAUSE_REQ + 0x80) env.DBG_TYPE_EOM 0)) 3,
      lastMsg := some msg, lastMsgType := env.PAUSE_REQ } := by
  unfold Pause at h
  rw [hd] at h
  simp only [Option.some.injEq] at h
  rw [← h]

set_option maxRecDepth 100000 in
/-- C23: a file name of 251 bytes and line 1, with 512 bytes free in the buffer.  The frame
of n+5 bytes has 256 bytes and would fit, but `msgLen` is an 8-bit variable and holds 0:
0 bytes are allocated, the 256 bytes of the frame are written past the allocation (no
result in the model), and the copy into the buffer has length 0, so no byte is appended. -/
theorem AddBreak_long_file_name :
    longFileName.length = 251 ∧
    (addBreakFrame sampleEnv longFileName 1).length = 256 ∧
    AJ_IO_BUF_SPACE ⟨512, []⟩ = 512 ∧
    (longFileName.length + 5) % 256 = 0 ∧
    appendFrame ⟨512, []⟩ (addBreakFrame sampleEnv longFileName 1)
      ((longFileName.length + 5) % 256) = ⟨512, []⟩ ∧
    AJS_ConsoleMsgHandler sampleEnv (addBreakMsg longFileName 1) (debugState 512) = none := by
  decide

/-! ## Debug frames: the input buffer -/

theorem appendFrame_spec (b : AJ_IOBuffer) (frame : List Byte)
    (hb : b.written.length ≤ b.bufSize) :
    (appendFrame b frame frame.length).bufSize = b.bufSize ∧
    (frame.length ≤ AJ_IO_BUF_SPACE b →
      (appendFrame b frame frame.length).written = b.written ++ frame ∧
      (appendFrame b frame frame.length).written.length = b.written.length + frame.length) ∧
    (AJ_IO_BUF_SPACE b < frame.length → appendFrame b frame frame.length = b) ∧
    (appendFrame b frame frame.length).written.length ≤ b.bufSize := by
  unfold appendFrame
  by_cases h : AJ_IO_BUF_SPACE b ≥ frame.length
  · rw [if_pos h]
    simp only [List.take_length, List.length_append]
    unfold AJ_IO_BUF_SPACE at h ⊢
    refine ⟨trivial, fun _ => ⟨trivial, trivial⟩, fun h2 => by omega, by omega⟩
  · rw [if_neg h]
    refine ⟨rfl, fun h2 => absurd h2 h, fun _ => rfl, hb⟩

theorem pauseFrame_length (env : Env) : (pauseFrame env).length = 3 := by
  simp [pauseFrame, store32_length]

/-- What a Pause or an AddBreak request leaves in the debugger state. -/
theorem frameRequest_dbgState (env : Env) (msg : AJ_Message) (s : State) (out : Outcome)
    (hid : msg.msgId = .DBG_PAUSE_MSGID ∨ msg.msgId = .DBG_ADDBREAK_MSGID)
    (hout : AJS_ConsoleMsgHandler env msg s = some out) :
    out.state.dbgState = s.dbgState ∨
    ∃ d frame lm lt, s.dbgState = some d ∧
      (frame = pauseFrame env ∨ frame = addBreakFrame env msg.argS msg.argY) ∧
      out.state.dbgState = some ⟨appendFrame d.read frame frame.length, lm, lt⟩ := by
  unfold AJS_ConsoleMsgHandler at hout
  rw [if_neg (by rcases hid with h | h <;> rw [h] <;> decide)] at hout
  split at hout
  · left; cases hout; rfl
  · rcases hid with hid | hid
    · rw [hid] at hout
      simp only at hout
      cases hd : s.dbgState with
      | none => simp [Pause, hd] at hout
      | some d =>
        right
        have h := Pause_appends env msg s out d hout hd
        refine ⟨d, pauseFrame env, some msg, env.PAUSE_REQ, rfl, Or.inl rfl, ?_⟩
        rw [h, pauseFrame_length]
        simp [appendFrame, pauseFrame, List.take_take]
    · rw [hid] at hout
      simp only at hout
      by_cases hargs : msg.argStatus = .AJ_OK
      · cases hd : s.dbgState with
        | none =>
          unfold AddBreak at hout
          rw [if_neg (fun hne => hne hargs)] at hout
          simp only [hd] at hout
          split at hout
          · cases hout
          · split at hout <;> cases hout
        | some d =>
          right
          obtain ⟨-, h⟩ := AddBreak_appends env msg s out d hout hargs hd
          refine ⟨d, addBreakFrame env msg.argS msg.argY, some msg, env.ADD_BREAK_REQ, rfl,
            Or.inr rfl, ?_⟩
          rw [h, addBreakFrame_length]
      · left
        unfold AddBreak at hout
        rw [if_pos hargs] at hout
        cases hout; rfl

theorem frameRequests_in_bounds (inputs : List Input) :
    ∀ (s : State) (t : Transition), (∀ i ∈ inputs, isFrameRequest i) → CursorInBounds s →
      t ∈ transitions inputs s → CursorInBounds t.pre ∧ CursorInBounds t.post := by
  induction inputs with
  | nil => intro s t _ _ ht; simp [transitions] at ht
  | cons i rest ih =>
    intro s t hin hs ht
    simp only [transitions] at ht
    cases hst : stepState i s with
    | none => simp [hst] at ht
    | some s2 =>
      have h2 : CursorInBounds s2 := by
        cases i with
        | terminate => exact absurd (hin _ (List.mem_cons_self _ _)) (by simp [isFrameRequest])
        | message env msg =>
          have hid := hin _ (List.mem_cons_self _ _)
          simp only [isFrameRequest] at hid
          simp only [stepState, Option.map_eq_some'] at hst
          obtain ⟨out, hout, rfl⟩ := hst
          rcases frameRequest_dbgState env msg s out hid hout with h | ⟨d, f, lm, lt, hd, -, h⟩
          · intro d2 hd2; rw [h] at hd2; exact hs d2 hd2
          · intro d2 hd2
            rw [h] at hd2
            simp only [Option.some.injEq] at hd2
            subst hd2
            have hb := hs d hd
            have := appendFrame_spec d.read f hb
            simp only
            omega
      simp only [hst, List.mem_cons] at ht
      rcases ht with rfl | ht
      · exact ⟨hs, h2⟩
      · exact ih s2 t (fun i hi => hin i (List.mem_cons_of_mem _ hi)) h2 ht

/-- Pause, and AddBreak for a file name of at most 250 bytes whose frame was allocated:
handled with a session active, a debugger state and the write cursor within the buffer,
the handler returns AJ_OK.  The capacity is unchanged; when the free space (capacity minus
cursor) is at least the length of the frame (3 bytes for Pause, the length of the file
name plus 5 for AddBreak), the buffer holds its previous bytes followed by the frame and
the cursor has advanced by the length of the frame; otherwise the buffer is unchanged.
Over every sequence of Pause and AddBreak requests that return, the cursor stays within
the capacity. -/
theorem frame_request_appends (env : Env) (msg : AJ_Message) (s : State)
    (d : AJS_DebuggerState) (inputs : List Input) (hs : s.consoleSession ≠ 0)
    (hid : msg.msgId = .DBG_PAUSE_MSGID ∨
      (msg.msgId = .DBG_ADDBREAK_MSGID ∧ msg.argStatus = .AJ_OK ∧ msg.argS.length ≤ 250 ∧
        env.AJ_Malloc (msg.argS.length + 5) = true))
    (hd : s.dbgState = some d) (hb : d.read.written.length ≤ d.read.bufSize)
    (hin : ∀ i ∈ inputs, isFrameRequest i) :
    (∃ out d2 frame, AJS_ConsoleMsgHandler env msg s = some out ∧ out.status = .AJ_OK ∧
      out.state.dbgState = some d2 ∧
      frame = (if msg.msgId = .DBG_PAUSE_MSGID then pauseFrame env
        else addBreakFrame env msg.argS msg.argY) ∧
      frame.length = (if msg.msgId = .DBG_PAUSE_MSGID then 3 else msg.argS.length + 5) ∧
      d2.read.bufSize = d.read.bufSize ∧
      (frame.length ≤ d.read.bufSize - d.read.written.length →
        d2.read.written = d.read.written ++ frame ∧
        d2.read.written.length = d.read.written.length + frame.length) ∧
      (d.read.bufSize - d.read.written.length < frame.length → d2.read = d.read) ∧
      d2.read.written.length ≤ d2.read.bufSize) ∧
    ∀ t ∈ transitions inputs s, CursorInBounds t.post := by
  have hcur : CursorInBounds s := by
    intro d2 hd2
    rw [hd] at hd2
    simp only [Option.some.injEq] at hd2
    rw [← hd2]; exact hb
  refine ⟨?_, fun t ht => (frameRequests_in_bounds inputs s t hin hcur ht).2⟩
  have hgate : AJS_ConsoleMsgHandler env msg s =
      if msg.msgId = .DBG_PAUSE_MSGID then Pause env msg s else AddBreak env msg s := by
    unfold AJS_ConsoleMsgHandler
    rw [if_neg (by rcases hid with h | ⟨h, -⟩ <;> rw [h] <;> decide), if_neg hs]
    rcases hid with h | ⟨h, -⟩ <;> rw [h] <;> simp
  rw [hgate]
  by_cases hp : msg.msgId = .DBG_PAUSE_MSGID
  · rw [if_pos hp]
    have hret : ∃ out, Pause env msg s = some out ∧ out.status = .AJ_OK := by
      unfold Pause
      rw [hd]
      exact ⟨_, rfl, rfl⟩
    obtain ⟨out, hout, hst⟩ := hret
    have h := Pause_appends env msg s out d hout hd
    have hsp := appendFrame_spec d.read (pauseFrame env) hb
    rw [pauseFrame_length] at hsp
    have e : appendFrame d.read (store32 env.AJ_NATIVE_ENDIAN (env.BUILD_DBG_MSG
        env.DBG_TYPE_REQ (env.PAUSE_REQ + 0x80) env.DBG_TYPE_EOM 0)) 3
        = appendFrame d.read (pauseFrame env) 3 := by
      simp [appendFrame, pauseFrame, List.take_take]
    rw [e] at h
    refine ⟨out, _, pauseFrame env, hout, hst, h, by rw [if_pos hp],
      by rw [if_pos hp, pauseFrame_length], hsp.1, ?_, ?_, ?_⟩
    · rw [pauseFrame_length]; exact hsp.2.1
    · rw [pauseFrame_length]; exact hsp.2.2.1
    · simp only; rw [hsp.1]; exact hsp.2.2.2
  · rw [if_neg hp]
    obtain ⟨hargs, hn, hm⟩ : msg.argStatus = .AJ_OK ∧ msg.argS.length ≤ 250 ∧
        env.AJ_Malloc (msg.argS.length + 5) = true := by
      rcases hid with h | ⟨-, h⟩
      · exact absurd h hp
      · exact h
    have hret : ∃ out, AddBreak env msg s = some out ∧ out.status = .AJ_OK := by
      have hmod : (msg.argS.length + 5) % 256 = msg.argS.length + 5 := by omega
      unfold AddBreak
      rw [if_neg (fun hne => hne hargs)]
      simp only [hmod]
      rw [if_neg (by simp [hm]), if_neg (by omega), hd]
      exact ⟨_, rfl, rfl⟩
    obtain ⟨out, hout, hst⟩ := hret
    obtain ⟨-, h⟩ := AddBreak_appends env msg s out d hout hargs hd
    have hsp := appendFrame_spec d.read (addBreakFrame env msg.argS msg.argY) hb
    rw [addBreakFrame_length] at hsp
    refine ⟨out, _, addBreakFrame env msg.argS msg.argY, hout, hst, h, by rw [if_neg hp],
      by rw [if_neg hp, addBreakFrame_length], hsp.1, ?_, ?_, ?_⟩
    · rw [addBreakFrame_length]; exact hsp.2.1
    · rw [addBreakFrame_length]; exact hsp.2.2.1
    · simp only; rw [hsp.1]; exact hsp.2.2.2

/-- The same at a Pause handled with an empty buffer of 64 bytes, and at an AddBreak for
the file a.js at line 3 handled next: the three bytes of the Pause frame, then the nine
bytes of the AddBreak frame are appended. -/
theorem frame_request_appends_sample :
    (AJS_ConsoleMsgHandler sampleEnv (plainMsg .DBG_PAUSE_MSGID 0 0) (debugState 64)).map
        (fun o => (o.status, o.state.dbgState.map (fun d => d.read), o.events))
      = some (.AJ_OK, some ⟨64, [1, 146, 0]⟩, []) ∧
    (transitions [.message sampleEnv (plainMsg .DBG_PAUSE_MSGID 0 0),
        .message sampleEnv (addBreakMsg aJs 3)] (debugState 64)).map
        (fun t => t.post.dbgState.map (fun d => d.read))
      = [some ⟨64, [1, 146, 0]⟩,
          some ⟨64, [1, 146, 0, 1, 152, 100, 97, 46, 106, 115, 131, 0]⟩] := by
  decide

set_option maxRecDepth 100000 in
/-- C24 at its failing input: an AddBreak for a file name of 255 bytes and line 2, with 512
bytes free in the debugger's input buffer.  The frame has 260 bytes and fits, so it should
be appended and the cursor advance by 260.  But `msgLen` is an 8-bit variable and holds 4:
4 bytes are allocated, the 260 bytes of the frame are written past the allocation (no
result in the model), and the copy into the buffer has length 4, so the cursor advances by
4 and the buffer receives the first four bytes of the frame only. -/
theorem AddBreak_frame_fits_not_appended :
    longerFileName.length = 255 ∧
    (addBreakFrame sampleEnv longerFileName 2).length = 260 ∧
    260 ≤ AJ_IO_BUF_SPACE ⟨512, []⟩ ∧
    (longerFileName.length + 5) % 256 = 4 ∧
    appendFrame ⟨512, []⟩ (addBreakFrame sampleEnv longerFileName 2)
      ((longerFileName.length + 5) % 256) = ⟨512, [1, 152, 95, 97]⟩ ∧
    AJS_ConsoleMsgHandler sampleEnv (addBreakMsg longerFileName 2) (debugState 512) = none := by
  decide

/-! ## Print and alert -/

theorem SignalConsole_args_ok (env : SignalEnv) (hraw : ∀ n, env.AJ_MarshalRaw n = .AJ_OK)
    (args : List (List Byte)) :
    ∀ i, SignalConsole_args env i args = (.AJ_OK, args.map (fun a => .marshalRaw a .AJ_OK)) := by
  induction args with
  | nil => intro i; rfl
  | cons a rest ih =>
    intro i
    simp only [SignalConsole_args, hraw, ne_eq, not_true_eq_false, if_false, ih, List.map_cons]

/-- Every step of the module leaves `debugQuiet` as it is, except a debug-begin handled
with a session active and a non-zero quiet flag, which sets it. -/
theorem AJS_ConsoleMsgHandler_quiet (env : Env) (msg : AJ_Message) (s : State) (out : Outcome)
    (h : AJS_ConsoleMsgHandler env msg s = some out) :
    out.state.debugQuiet = s.debugQuiet ∨
    (msg.msgId = .DBG_BEGIN_MSGID ∧ s.consoleSession ≠ 0 ∧ msg.argY ≠ 0 ∧
      out.state.debugQuiet = true) := by
  unfold AJS_ConsoleMsgHandler at h
  by_cases ha : msg.msgId = .AJ_METHOD_ACCEPT_SESSION
  · rw [if_pos ha] at h
    cases h
    rcases acceptSession_state env msg s with h1 | ⟨-, h1⟩ <;> rw [h1] <;> exact Or.inl rfl
  rw [if_neg ha] at h
  by_cases h0 : s.consoleSession = 0
  · rw [if_pos h0] at h
    cases h
    exact Or.inl rfl
  rw [if_neg h0] at h
  have hlost := sessionLost_state env msg s
  have hreset := Reset_state env s
  have hstart : (StartDebugger env msg s).state.debugQuiet = s.debugQuiet ∨
      (msg.argY ≠ 0 ∧ (StartDebugger env msg s).state.debugQuiet = true) := by
    unfold StartDebugger
    simp only
    split
    · rename_i hq; exact Or.inr ⟨hq, rfl⟩
    · exact Or.inl rfl
  cases hid : msg.msgId <;> rw [hid] at h <;> simp only at h <;>
  first
    | exact absurd hid ha
    | (rw [Install_frame env msg s out h]; exact Or.inl rfl)
    | (rw [Eval_frame env msg s out h]; exact Or.inl rfl)
    | (rw [GetScript_frame env s out h]; exact Or.inl rfl)
    | (rw [Pause_frame env msg s out h]; exact Or.inl rfl)
    | (rw [AddBreak_frame env msg s out h]; exact Or.inl rfl)
    | (cases h; exact Or.inl rfl)
    | (cases h
       rcases hstart with h1 | ⟨hq, h1⟩
       · exact Or.inl h1
       · exact Or.inr ⟨rfl, h0, hq, h1⟩)
    | (cases h
       rcases hreset with h1 | h1 <;> rw [h1] <;> exact Or.inl rfl)
    | (cases h
       rcases hlost with h1 | h1 <;> rw [h1] <;> exact Or.inl rfl)

/-- Once `debugQuiet` is set, it is set after every later step. -/
theorem debugQuiet_stays_true (inputs : List Input) :
    ∀ (s : State) (t : Transition), s.debugQuiet = true → t ∈ transitions inputs s →
      t.pre.debugQuiet = true ∧ t.post.debugQuiet = true := by
  induction inputs with
  | nil => intro s t _ ht; simp [transitions] at ht
  | cons i rest ih =>
    intro s t hs ht
    simp only [transitions] at ht
    cases hst : stepState i s with
    | none => simp [hst] at ht
    | some s2 =>
      have h2 : s2.debugQuiet = true := by
        cases i with
        | terminate =>
          simp only [stepState, Option.some.injEq] at hst
          rw [← hst]; exact hs
        | message env msg =>
          simp only [stepState, Option.map_eq_some'] at hst
          obtain ⟨out, hout, rfl⟩ := hst
          rcases AJS_ConsoleMsgHandler_quiet env msg s out hout with h | ⟨-, -, -, h⟩
          · rw [h]; exact hs
          · exact h
      simp only [hst, List.mem_cons] at ht
      rcases ht with rfl | ht
      · exact ⟨hs, h2⟩
      · exact ih s2 t h2 ht

theorem SignalConsole_onBus (env : SignalEnv) (args : List (List Byte)) (sigId : SignalId)
    (s : State) (hq : s.debugQuiet = false) :
    ∃ tl, SignalConsole env args sigId s
      = .marshalSignal sigId s.consoleBusName s.consoleSession env.AJ_MarshalSignal :: tl := by
  unfold SignalConsole
  rw [if_pos hq]
  simp only
  split
  · exact ⟨_, rfl⟩
  · split
    · exact ⟨_, rfl⟩
    · split
      · exact ⟨_, rfl⟩
      · split
        · exact ⟨_, by simp only [List.cons_append, List.nil_append, List.append_assoc]; rfl⟩
        · split
          · exact ⟨_, by simp only [List.cons_append, List.nil_append, List.append_assoc]; rfl⟩
          · split
            · exact ⟨_, by simp only [List.cons_append, List.nil_append, List.append_assoc]; rfl⟩
            · exact ⟨_, by simp only [List.cons_append, List.nil_append, List.append_assoc]; rfl⟩

/-- C25: print and alert output is forwarded exactly when a session is active and quiet
mode is off.  `AJS_AlertHandler` makes a bus call if and only if `consoleSession` is
non-zero and `debugQuiet` is false; its first call is then `AJ_MarshalSignal` of the alert
signal for an alert and of the print signal for a print, addressed to the recorded peer
and session, and when every bus call succeeds the length word, the arguments in order and
a final NUL are marshalled and the signal is delivered.  In every other case the only call
is the local print of the arguments.  After a debug-begin with a non-zero quiet flag
`debugQuiet` is set, stays set over every later sequence of steps, and every print or
alert in those states is printed locally. -/
theorem print_alert_forwarding (bus : SignalEnv) (args : List (List Byte)) (alert : Nat)
    (s : State) (env : Env) (msg : AJ_Message) (s0 : State) (out : Outcome)
    (inputs : List Input) (hs0 : s0.consoleSession ≠ 0) (hid : msg.msgId = .DBG_BEGIN_MSGID)
    (hquiet : msg.argY ≠ 0) (hout : AJS_ConsoleMsgHandler env msg s0 = some out) :
    ((∃ c ∈ AJS_AlertHandler bus args alert s, onBus c = true)
      ↔ (s.consoleSession ≠ 0 ∧ s.debugQuiet = false)) ∧
    (s.consoleSession ≠ 0 ∧ s.debugQuiet = false →
      (AJS_AlertHandler bus args alert s).head? = some (.marshalSignal
        (if alert ≠ 0 then .ALERT_SIGNAL_MSGID else .PRINT_SIGNAL_MSGID)
        s.consoleBusName s.consoleSession bus.AJ_MarshalSignal)) ∧
    (s.consoleSession ≠ 0 ∧ s.debugQuiet = false → bus.AJ_MarshalSignal = .AJ_OK →
      (∀ n, bus.AJ_DeliverMsgPartial n = .AJ_OK) → (∀ n, bus.AJ_MarshalRaw n = .AJ_OK) →
      bus.AJ_DeliverMsg = .AJ_OK →
      AJS_AlertHandler bus args alert s =
        [.marshalSignal (if alert ≠ 0 then .ALERT_SIGNAL_MSGID else .PRINT_SIGNAL_MSGID)
            s.consoleBusName s.consoleSession .AJ_OK,
          .deliverPartial (((args.map List.length).sum + 1 + 4) % 2 ^ 32) .AJ_OK,
          .marshalRaw (store32 bus.AJ_NATIVE_ENDIAN (args.map List.length).sum) .AJ_OK]
        ++ args.map (fun a => .marshalRaw a .AJ_OK)
        ++ [.marshalRaw [0] .AJ_OK, .deliverMsg .AJ_OK]) ∧
    (¬ (s.consoleSession ≠ 0 ∧ s.debugQuiet = false) →
      AJS_AlertHandler bus args alert s = [.printf (decide (alert ≠ 0)) args]) ∧
    out.state.debugQuiet = true ∧
    ∀ t ∈ transitions inputs out.state, t.post.debugQuiet = true ∧
      AJS_AlertHandler bus args alert t.post = [.printf (decide (alert ≠ 0)) args] := by
  have hoff : ∀ s2 : State, ¬ (s2.consoleSession ≠ 0 ∧ s2.debugQuiet = false) →
      AJS_AlertHandler bus args alert s2 = [.printf (decide (alert ≠ 0)) args] := by
    intro s2 h
    unfold AJS_AlertHandler
    rw [if_neg h]
  have hq : out.state.debugQuiet = true := by
    have hh : AJS_ConsoleMsgHandler env msg s0 = some (StartDebugger env msg s0) := by
      unfold AJS_ConsoleMsgHandler
      rw [if_neg (by rw [hid]; decide), if_neg hs0, hid]
    rw [hh] at hout
    simp only [Option.some.injEq] at hout
    rw [← hout]
    unfold StartDebugger
    simp only [hquiet, ne_eq, not_false_eq_true, if_true]
  refine ⟨?_, ?_, ?_, hoff s, hq, ?_⟩
  · constructor
    · rintro ⟨c, hc, hb⟩
      by_contra hn
      rw [hoff s hn] at hc
      simp only [List.mem_singleton] at hc
      rw [hc] at hb
      simp [onBus] at hb
    · intro h
      obtain ⟨tl, htl⟩ := SignalConsole_onBus bus args
        (if alert ≠ 0 then .ALERT_SIGNAL_MSGID else .PRINT_SIGNAL_MSGID) s h.2
      refine ⟨_, ?_, (rfl : onBus (.marshalSignal
        (if alert ≠ 0 then .ALERT_SIGNAL_MSGID else .PRINT_SIGNAL_MSGID)
        s.consoleBusName s.consoleSession bus.AJ_MarshalSignal) = true)⟩
      unfold AJS_AlertHandler
      rw [if_pos h, htl]
      exact List.mem_cons_self _ _
  · intro h
    obtain ⟨tl, htl⟩ := SignalConsole_onBus bus args
      (if alert ≠ 0 then .ALERT_SIGNAL_MSGID else .PRINT_SIGNAL_MSGID) s h.2
    unfold AJS_AlertHandler
    rw [if_pos h, htl]
    rfl
  · intro h h0 h1 h2 h3
    unfold AJS_AlertHandler
    rw [if_pos h]
    unfold SignalConsole
    rw [if_pos h.2]
    simp only [h0, h1, h2, h3, SignalConsole_args_ok bus h2, ne_eq, not_true_eq_false,
      if_false, List.cons_append, List.nil_append, List.append_assoc]
  · intro t ht
    have h := (debugQuiet_stays_true inputs out.state t hq ht).2
    refine ⟨h, hoff t.post ?_⟩
    rintro ⟨-, hf⟩
    rw [h] at hf
    exact absurd hf (by decide)

/-- C25 at a print of the text hi: forwarded as the print signal while the session is
active and quiet mode is off; quiet mode is on after a debug-begin with quiet flag 1. -/
theorem print_alert_forwarding_witness :
    ∃ out, AJS_ConsoleMsgHandler sampleEnv (debugBeginMsg 1) (sampleState .ENGINE_RUNNING)
        = some out ∧
      (sampleState .ENGINE_RUNNING).consoleSession ≠ 0 ∧ (debugBeginMsg 1).argY ≠ 0 ∧
      AJS_AlertHandler sampleBus [[104, 105]] 0 (sampleState .ENGINE_RUNNING) =
        [.marshalSignal .PRINT_SIGNAL_MSGID [] 7 .AJ_OK, .deliverPartial 7 .AJ_OK,
          .marshalRaw [2, 0, 0, 0] .AJ_OK, .marshalRaw [104, 105] .AJ_OK,
          .marshalRaw [0] .AJ_OK, .deliverMsg .AJ_OK] ∧
      out.state.debugQuiet = true :=
  have h := print_alert_forwarding sampleBus [[104, 105]] 0 (sampleState .ENGINE_RUNNING)
    sampleEnv (debugBeginMsg 1) (sampleState .ENGINE_RUNNING) _ [] (by decide) rfl (by decide)
    rfl
  ⟨_, rfl, by decide, by decide,
    h.2.2.1 ⟨by decide, rfl⟩ rfl (fun _ => rfl) (fun _ => rfl) rfl, h.2.2.2.2.1⟩

/-! ## Eval: the copy loop -/

/-- C27, as the code has it: an Eval that answers with a status-and-text reply either was
rejected because its declared length exceeds 1024, and then the text never reached the
compiler and the whole state, engine state included, is the prior state; or its text was
handed to the compiler, and then the engine state is Dirty afterwards, whatever it was,
and nothing else in the state has changed. -/
theorem Eval_dirty_after_compile (env : Env) (msg : AJ_Message) (s : State) (out : Outcome)
    (r : RawRead) (rest : List RawRead) (args : List Arg)
    (hout : Eval env msg s = some out) (hraw : msg.raw = r :: rest) (hr : r.status = .AJ_OK)
    (hreply : Event.deliver (.method args) ∈ out.events) :
    (1024 < decodeLen env.AJ_NATIVE_ENDIAN msg.endianess r.chunk ∧ out.state = s ∧
      (∀ e ∈ out.events, isCompile e = false) ∧
      args = [.y (replyStatus env.duk env.duk.DUK_RET_ALLOC_ERROR),
        .s "Eval expression too long"]) ∨
    (decodeLen env.AJ_NATIVE_ENDIAN msg.endianess r.chunk ≤ 1024 ∧
      out.state = { s with engineState := .ENGINE_DIRTY } ∧
      ∃ src, Event.compile src ∈ out.events) := by
  obtain ⟨-, hc⟩ := Eval_cases env msg s out r rest hout hraw hr
  simp only [MAX_EVAL_LEN] at hc
  rcases hc with ⟨hlong, rfl⟩ | ⟨-, -, rfl⟩ | ⟨-, -, st, evs, hcopy, rfl⟩
    | ⟨hle, -, P, evs, hcopy, hc⟩
  · left
    refine ⟨hlong, rfl, ?_, ?_⟩
    · intro e he
      simp only [EvalReply, List.cons_append, List.nil_append, List.mem_cons,
        List.mem_singleton, List.not_mem_nil, or_false] at he
      rcases he with rfl | rfl <;> rfl
    · simpa [EvalReply] using hreply
  · simp [Eval_ErrorReply] at hreply
  · obtain ⟨hall, -⟩ := Eval_copy_fail_events rest _ _ _ _ hcopy
    simp only [Eval_ErrorReply, List.cons_append, List.mem_cons, List.mem_append,
      List.mem_singleton, reduceCtorEq, false_or, or_false, List.not_mem_nil,
      Event.deliver.injEq] at hreply
    have := (hall _ hreply).1
    simp [isDeliver] at this
  · right
    rcases hc with ⟨-, rfl⟩ | ⟨-, rfl⟩
    · exact ⟨hle, rfl, P.take (stripTrailingNuls P
        (decodeLen env.AJ_NATIVE_ENDIAN msg.endianess r.chunk)), by simp [EvalReply]⟩
    · exact ⟨hle, rfl, P.take (stripTrailingNuls P
        (decodeLen env.AJ_NATIVE_ENDIAN msg.endianess r.chunk)), by simp [EvalReply]⟩

/-- C27 as stated fails: an Eval declaring 1025 bytes, handled in the clean state, is
answered ResourceError (3) "Eval expression too long" and the engine state is still
clean. -/
theorem Eval_oversized_not_dirty :
    Eval sampleEnv (sampleMsg .EVAL_MSGID [] oversized) (sampleState .ENGINE_CLEAN)
      = some ⟨.AJ_OK, sampleState .ENGINE_CLEAN,
          [.unmarshalRaw 4 .AJ_OK, .deliver (.method [.y 3, .s "Eval expression too long"])]⟩ ∧
    (sampleState .ENGINE_CLEAN).engineState = .ENGINE_CLEAN ∧
    EngineState.ENGINE_CLEAN ≠ .ENGINE_DIRTY := by
  decide

/-- C27, as the code has it, at the text 1+1 evaluated in the clean state: the text is
compiled and the engine state is Dirty afterwards. -/
theorem Eval_dirty_after_compile_witness :
    ∃ out, Eval sampleEnv (sampleMsg .EVAL_MSGID [] onePlusOne) (sampleState .ENGINE_CLEAN)
        = some out ∧
      Event.deliver (.method [.y 0, .s "2"]) ∈ out.events ∧
      ((1024 < 3 ∧ out.state = sampleState .ENGINE_CLEAN ∧
          (∀ e ∈ out.events, isCompile e = false) ∧
          [Arg.y 0, .s "2"] = [.y (replyStatus sampleEnv.duk sampleEnv.duk.DUK_RET_ALLOC_ERROR),
            .s "Eval expression too long"]) ∨
        (3 ≤ 1024 ∧
          out.state = { sampleState .ENGINE_CLEAN with engineState := .ENGINE_DIRTY } ∧
          ∃ src, Event.compile src ∈ out.events)) :=
  ⟨_, rfl, by decide,
    Eval_dirty_after_compile sampleEnv (sampleMsg .EVAL_MSGID [] onePlusOne)
      (sampleState .ENGINE_CLEAN) _ ⟨.AJ_OK, [3, 0, 0, 0]⟩ [⟨.AJ_OK, [49, 43]⟩, ⟨.AJ_OK, [49]⟩]
      [.y 0, .s "2"] rfl rfl rfl (by decide)⟩

/-! ## The table of external strings: soundness of the lookup -/

set_option maxRecDepth 100000 in
/-- No word of the table contains a zero byte. -/
theorem sortedWords_no_nul :
    sortedWords.all (fun w => w.all (fun b => decide (b % 256 ≠ 0))) = true := by
  decide

theorem byteAt_of_length_le (bs : List Byte) (i : Nat) (h : bs.length ≤ i) : byteAt bs i = 0 := by
  simp [byteAt, List.getD_eq_getElem?_getD, List.getElem?_eq_none h]

theorem byteAt_tail (bs : List Byte) (i : Nat) : byteAt bs.tail i = byteAt bs (i + 1) := by
  cases bs with
  | nil => simp [byteAt]
  | cons b rest => simp [byteAt]

/-- When `strncmp` finds no difference and the first `n` bytes of the first string are not
zero, the first `n` bytes of the two strings are the same. -/
theorem strncmp_eq_zero (n : Nat) :
    ∀ (s1 s2 : List Byte), strncmp s1 s2 n = 0 → (∀ i, i < n → byteAt s1 i ≠ 0) →
      ∀ i, i < n → byteAt s2 i = byteAt s1 i := by
  induction n with
  | zero => intro s1 s2 _ _ i hi; omega
  | succ n ih =>
    intro s1 s2 h hz i hi
    simp only [strncmp] at h
    split at h
    · rename_i hne
      exfalso
      omega
    · rename_i heq
      have heq2 : byteAt s1 0 = byteAt s2 0 := by simpa using heq
      rw [if_neg (hz 0 (by omega))] at h
      cases i with
      | zero => exact heq2.symm
      | succ j =>
        have := ih s1.tail s2.tail h
          (fun k hk => by rw [byteAt_tail]; exact hz (k + 1) (by omega)) j (by omega)
        rw [byteAt_tail, byteAt_tail] at this
        exact this

theorem sortedWords_byte_ne_zero (word : List Byte) (hw : word ∈ sortedWords) (i : Nat)
    (hi : i < word.length) : byteAt word i ≠ 0 := by
  have h := sortedWords_no_nul
  rw [List.all_eq_true] at h
  have h2 := h word hw
  rw [List.all_eq_true] at h2
  have h3 := h2 (word[i]) (List.getElem_mem _)
  simp only [ne_eq, decide_not, Bool.not_eq_eq_eq_not, Bool.not_true,
    decide_eq_false_iff_not] at h3
  simp only [byteAt, List.getD_eq_getElem?_getD, List.getElem?_eq_getElem hi, Option.getD_some]
  exact h3

set_option maxRecDepth 100000 in
/-- What the loop of `AJS_ExternalStringCheck` returns is an index of the table whose word
`strncmp` found equal to the input over `len` bytes, with a NUL at offset `len`. -/
theorem searchLoop_found (str : List Byte) (len : Nat) (fuel : Nat) :
    ∀ (min max p : Nat), searchLoop str len fuel min max = some (some p) →
      ∃ word, sortedWords[p]? = some word ∧ strncmp str word len = 0 ∧
        byteAt word len = 0 ∧ len ≤ word.length := by
  induction fuel with
  | zero => intro min max p h; simp [searchLoop] at h
  | succ n ih =>
    intro min max p h
    simp only [searchLoop] at h
    split at h
    · cases h
    · rename_i word hw
      split at h
      · cases h
      · rename_i hshort
        split at h
        · rename_i hfound
          simp only [Option.some.injEq] at h
          rw [← h]
          refine ⟨word, hw, hfound.1, hfound.2, ?_⟩
          by_contra hlt
          exact hshort ⟨hfound.1, by omega⟩
        · by_cases hc : (if strncmp str word len = 0 then (-1 : Int)
              else strncmp str word len) < 0
          · rw [if_pos hc, if_pos hc] at h
            by_cases hne : min + (max - min) / 2 ≠ min
            · rw [if_pos hne] at h
              exact ih _ _ p h
            · rw [if_neg hne] at h
              cases h
          · rw [if_neg hc, if_neg hc] at h
            by_cases hne : max ≠ min + (max - min) / 2 + 1
            · rw [if_pos hne] at h
              exact ih _ _ p h
            · rw [if_neg hne] at h
              cases h

set_option maxRecDepth 100000 in
/-- The loop of `AJS_ExternalStringCheck` returns within `max - min` iterations on an
input whose first `len` bytes are not zero. -/
theorem searchLoop_terminates (str : List Byte) (len : Nat)
    (hz : ∀ i, i < len → byteAt str i ≠ 0) (fuel : Nat) :
    ∀ (min max : Nat), min < max → max < sortedWords.length → max - min ≤ fuel →
      ∃ res, searchLoop str len fuel min max = some res := by
  induction fuel with
  | zero => intro min max h1 _ h3; omega
  | succ n ih =>
    intro min max h1 h2 h3
    have hpos : min + (max - min) / 2 < sortedWords.length := by omega
    simp only [searchLoop]
    rw [List.getElem?_eq_getElem hpos]
    simp only
    generalize sortedWords[min + (max - min) / 2] = word
    by_cases hshort : strncmp str word len = 0 ∧ word.length < len
    · exfalso
      have := strncmp_eq_zero len str word hshort.1 hz word.length hshort.2
      rw [byteAt_of_length_le word _ (Nat.le_refl _)] at this
      exact hz _ hshort.2 this.symm
    · rw [if_neg hshort]
      by_cases hfound : strncmp str word len = 0 ∧ byteAt word len = 0
      · rw [if_pos hfound]
        exact ⟨_, rfl⟩
      · rw [if_neg hfound]
        by_cases hc : (if strncmp str word len = 0 then (-1 : Int)
            else strncmp str word len) < 0
        · rw [if_pos hc, if_pos hc]
          by_cases hne : min + (max - min) / 2 ≠ min
          · rw [if_pos hne]
            exact ih _ _ (by omega) (by omega) (by omega)
          · rw [if_neg hne]
            exact ⟨_, rfl⟩
        · rw [if_neg hc, if_neg hc]
          by_cases hne : max ≠ min + (max - min) / 2 + 1
          · rw [if_pos hne]
            exact ih _ _ (by omega) (by omega) (by omega)
          · rw [if_neg hne]
            exact ⟨_, rfl⟩

set_option maxRecDepth 100000 in
/-- C28: soundness of the lookup in the table of external strings.  Whatever the input,
`AJS_ExternalStringCheck` returns NULL when `len` is at most 3.  On an input whose first
`len` bytes are not zero it returns, and a result that is not NULL is an entry of the
table whose length is `len` and whose bytes are the first `len` bytes of the input; when
no entry of the table is of that kind, the result is NULL. -/
theorem AJS_ExternalStringCheck_sound (str : List Byte) (len : Nat)
    (hz : ∀ i, i < len → byteAt str i ≠ 0) :
    (∀ (str0 : List Byte) (len0 : Nat), len0 ≤ 3 →
      AJS_ExternalStringCheck str0 len0 = some none) ∧
    (∃ res, AJS_ExternalStringCheck str len = some res) ∧
    (∀ p, AJS_ExternalStringCheck str len = some (some p) →
      ∃ word, sortedWords[p]? = some word ∧ word ∈ sortedWords ∧ word.length = len ∧
        3 < len ∧ ∀ i, i < len → byteAt word i = byteAt str i) ∧
    ((∀ word ∈ sortedWords,
        ¬ (word.length = len ∧ ∀ i, i < len → byteAt word i = byteAt str i)) →
      AJS_ExternalStringCheck str len = some none) := by
  have hsound : ∀ p, AJS_ExternalStringCheck str len = some (some p) →
      ∃ word, sortedWords[p]? = some word ∧ word ∈ sortedWords ∧ word.length = len ∧
        3 < len ∧ ∀ i, i < len → byteAt word i = byteAt str i := by
    intro p h
    unfold AJS_ExternalStringCheck at h
    split at h
    · cases h
    · rename_i h3
      obtain ⟨word, hw, hcmp, hnul, hle⟩ := searchLoop_found str len _ _ _ p h
      have hmem : word ∈ sortedWords := List.getElem?_mem hw
      refine ⟨word, hw, hmem, ?_, by omega, strncmp_eq_zero len str word hcmp hz⟩
      by_contra hne
      exact sortedWords_byte_ne_zero word hmem len (by omega) hnul
  have hterm : ∃ res, AJS_ExternalStringCheck str len = some res := by
    unfold AJS_ExternalStringCheck
    split
    · exact ⟨_, rfl⟩
    · exact searchLoop_terminates str len hz _ 0 _ (by rw [sortedWords_length]; omega)
        (by rw [sortedWords_length]; omega) (by omega)
  refine ⟨?_, hterm, hsound, ?_⟩
  · intro str0 len0 h
    unfold AJS_ExternalStringCheck
    rw [if_pos h]
  · intro hnone
    obtain ⟨res, hres⟩ := hterm
    cases res with
    | none => exact hres
    | some p =>
      obtain ⟨word, -, hmem, hlen, -, hbytes⟩ := hsound p hres
      exact absurd ⟨hlen, hbytes⟩ (hnone word hmem)

set_option maxRecDepth 100000 in
/-- C28 at the six bytes of the word import: found at index 197 of the table. -/
theorem AJS_ExternalStringCheck_sound_witness :
    (∀ i, i < 6 → byteAt [105, 109, 112, 111, 114, 116] i ≠ 0) ∧
    AJS_ExternalStringCheck [105, 109, 112, 111, 114, 116] 6 = some (some 197) ∧
    ∃ word, sortedWords[197]? = some word ∧ word ∈ sortedWords ∧ word.length = 6 ∧ 3 < 6 ∧
      ∀ i, i < 6 → byteAt word i = byteAt [105, 109, 112, 111, 114, 116] i :=
  ⟨by decide, by decide,
    (AJS_ExternalStringCheck_sound [105, 109, 112, 111, 114, 116] 6 (by decide)).2.2.1 197
      (by decide)⟩

/-! ## The cached script size after a failed Install -/

/-- C29 at its failing input: an Install of the three bytes 1+1 handled in the clean state
with cached size 0, where the write of the first payload fragment reports no byte written.
The handler leaves through the error path: the payload record is deleted and a status
message with AJ_ERR_RESOURCES is delivered, but `scriptSize`, assigned before the copy
loop, stays at 7, so `AJS_GetScriptSize` is non-zero while no payload record exists. -/
theorem Install_failure_keeps_scriptSize :
    AJS_GetScriptSize (sampleState .ENGINE_CLEAN) = 0 ∧
    (Install shortWriteEnv (sampleMsg .INSTALL_MSGID aJs onePlusOne)
        (sampleState .ENGINE_CLEAN)).map
      (fun o => (AJS_GetScriptSize o.state, o.state.nvram.script, o.events.filter isDeliver,
        o.events.getLast?))
      = some (7, none, [.deliver (.status .AJ_ERR_RESOURCES)],
          some (.deliver (.status .AJ_ERR_RESOURCES))) := by
  decide

/-! ## A joiner name that does not fit -/

/-- C30 at its failing input: a session-accept on the console port from a joiner whose
name has sixteen characters, handled while no session is active and with the acceptance
delivered.  The joiner is told it was accepted (`AJ_BusReplyAcceptSession(msg, TRUE)`
returns AJ_OK), then the length check fails: the handler returns AJ_ERR_RESOURCES and no
session is recorded. -/
theorem accept_long_name_not_recorded :
    sampleEnv.AJ_BusReplyAcceptSession true = .AJ_OK ∧ longName.length = 16 ∧
    AJS_ConsoleMsgHandler sampleEnv (acceptMsg 7714 9 longName)
        { sampleState .ENGINE_RUNNING with consoleSession := 0 } =
      some ⟨.AJ_ERR_RESOURCES, { sampleState .ENGINE_RUNNING with consoleSession := 0 },
        [.unmarshalArgs "qus" .AJ_OK, .acceptSession true]⟩ ∧
    ({ sampleState .ENGINE_RUNNING with consoleSession := 0 } : State).consoleSession = 0 := by
  decide

/-! ## The install cap and the free capacity -/

theorem MaxScriptLen_le (f : Nat) (hf : f < 2 ^ 32) :
    MaxScriptLen f ≤ f ∧ (0 < f → MaxScriptLen f < f) := by
  by_cases h : f ≤ 1431655765
  · rw [MaxScriptLen_small f h]
    constructor
    · omega
    · intro h0; omega
  · have := MaxScriptLen_lt f
    constructor
    · omega
    · intro h0; omega

/-- C31, as the code has it: for every 32-bit free capacity `f`, with the product taken
modulo 2^32, `MaxScriptLen f` is at most `f`, and below `f` when `f` is not 0; for `f = 0`
the cap is 0.  An Install handled in the clean state whose length word was read and which
is not answered "Script too long" declares a payload of at most the cap, hence of at most
the free capacity the storage reported, and of less than it when that capacity is not 0. -/
theorem MaxScriptLen_below_free (f : Nat) (env : Env) (msg : AJ_Message) (s : State)
    (out : Outcome) (r : RawRead) (rest : List RawRead) (hf : f < 2 ^ 32)
    (hout : Install env msg s = some out) (hclean : s.engineState = .ENGINE_CLEAN)
    (hargs : msg.argStatus = .AJ_OK) (hraw : msg.raw = r :: rest) (hr : r.status = .AJ_OK)
    (hnot : Event.deliver tooLongReply ∉ out.events) :
    MaxScriptLen f ≤ f ∧ (0 < f → MaxScriptLen f < f) ∧ MaxScriptLen 0 = 0 ∧
    decodeLen env.AJ_NATIVE_ENDIAN msg.endianess r.chunk ≤ installCap env msg s ∧
    decodeLen env.AJ_NATIVE_ENDIAN msg.endianess r.chunk
      ≤ env.AJ_NVRAM_GetSizeRemaining (Install_saveName env msg.argS s.nvram).1 % 2 ^ 32 ∧
    (0 < env.AJ_NVRAM_GetSizeRemaining (Install_saveName env msg.argS s.nvram).1 % 2 ^ 32 →
      decodeLen env.AJ_NATIVE_ENDIAN msg.endianess r.chunk
        < env.AJ_NVRAM_GetSizeRemaining (Install_saveName env msg.argS s.nvram).1 % 2 ^ 32) := by
  have h4 : 4 ≤ r.chunk.length := by
    by_contra hlt
    unfold Install at hout
    rw [if_neg (fun hne => hne hclean), if_neg (fun hne => hne hargs)] at hout
    simp only [hraw] at hout
    rw [if_neg (fun hne => hne hr), if_pos (by omega)] at hout
    cases hout
  have hcap : decodeLen env.AJ_NATIVE_ENDIAN msg.endianess r.chunk ≤ installCap env msg s := by
    by_contra hlong
    have h := Install_too_long_eq env msg s r rest hclean hargs hraw hr h4 (by omega)
    rw [h] at hout
    simp only [Option.some.injEq] at hout
    rw [← hout] at hnot
    exact hnot (by simp)
  have hfree := MaxScriptLen_le
    (env.AJ_NVRAM_GetSizeRemaining (Install_saveName env msg.argS s.nvram).1 % 2 ^ 32)
    (Nat.mod_lt _ (by decide))
  have hc : installCap env msg s = MaxScriptLen
      (env.AJ_NVRAM_GetSizeRemaining (Install_saveName env msg.argS s.nvram).1 % 2 ^ 32) := rfl
  rw [hc] at hcap
  refine ⟨(MaxScriptLen_le f hf).1, (MaxScriptLen_le f hf).2, by decide, by rw [hc]; exact hcap,
    by omega, fun h => ?_⟩
  have := hfree.2 h
  omega

/-- C31 as stated fails: with no free capacity the cap is 0 and an Install declaring an
empty payload passes the check and is answered "Script installed"; its payload, of 0
bytes, is not smaller than the free capacity, 0. -/
theorem Install_empty_script_full_storage :
    fullStorageEnv.AJ_NVRAM_GetSizeRemaining
      (Install_saveName fullStorageEnv aJs (sampleState .ENGINE_CLEAN).nvram).1 = 0 ∧
    MaxScriptLen 0 = 0 ∧ decodeLen .little .little [0, 0, 0, 0] = 0 ∧
    (Install fullStorageEnv (sampleMsg .INSTALL_MSGID aJs emptyScript)
        (sampleState .ENGINE_CLEAN)).map
      (fun o => (o.status, o.events.filter isDeliver, o.state.nvram.script))
      = some (.AJ_ERR_RESTART_APP, [.deliver (.method [.y 0, .s "Script installed"])],
          some [0, 0, 0, 0]) ∧
    ¬ ((0 : Nat) < 0) := by
  decide

/-- C31, as the code has it, at the three bytes of 1+1 installed with 4096 bytes free: the
cap is 3072. -/
theorem MaxScriptLen_below_free_witness :
    ∃ out, Install sampleEnv (sampleMsg .INSTALL_MSGID aJs onePlusOne)
        (sampleState .ENGINE_CLEAN) = some out ∧
      (4096 < 2 ^ 32 ∧ Event.deliver tooLongReply ∉ out.events) ∧
      MaxScriptLen 4096 ≤ 4096 ∧ (0 < 4096 → MaxScriptLen 4096 < 4096) ∧ MaxScriptLen 0 = 0 ∧
      3 ≤ installCap sampleEnv (sampleMsg .INSTALL_MSGID aJs onePlusOne)
        (sampleState .ENGINE_CLEAN) ∧
      3 ≤ 4096 ∧ (0 < 4096 → 3 < 4096) :=
  ⟨_, rfl, ⟨by decide, by decide⟩,
    MaxScriptLen_below_free 4096 sampleEnv (sampleMsg .INSTALL_MSGID aJs onePlusOne)
      (sampleState .ENGINE_CLEAN) _ ⟨.AJ_OK, [3, 0, 0, 0]⟩ [⟨.AJ_OK, [49, 43]⟩, ⟨.AJ_OK, [49]⟩]
      (by decide) rfl rfl rfl rfl rfl (by decide)⟩

/-! ## Quiet mode -/

/-- No step of the module clears `debugQuiet`. -/
theorem stepState_quiet (i : Input) (s s2 : State) (hq : s.debugQuiet = true)
    (h : stepState i s = some s2) : s2.debugQuiet = true := by
  cases i with
  | terminate =>
    simp only [stepState, Option.some.injEq] at h
    rw [← h]; exact hq
  | message env msg =>
    simp only [stepState, Option.map_eq_some'] at h
    obtain ⟨out, hout, rfl⟩ := h
    rcases AJS_ConsoleMsgHandler_quiet env msg s out hout with h1 | ⟨-, -, -, h1⟩
    · rw [h1]; exact hq
    · exact h1

/-- With `debugQuiet` set, a print or an alert is printed locally and no bus call is
made. -/
theorem AJS_AlertHandler_quiet (bus : SignalEnv) (args : List (List Byte)) (alert : Nat)
    (s : State) (hq : s.debugQuiet = true) :
    AJS_AlertHandler bus args alert s = [.printf (decide (alert ≠ 0)) args] := by
  unfold AJS_AlertHandler
  rw [if_neg (by rintro ⟨-, hf⟩; rw [hq] at hf; exact absurd hf (by decide))]

/-- C32: quiet mode is monotone.  A debug-begin with a non-zero quiet flag, handled with a
session active, sets `debugQuiet`.  No step of the module taken with `debugQuiet` set
clears it, whatever the message (debug-end, a debug-begin with quiet flag 0, session loss,
session-accept, reset, eval, install or any other) and also not the termination of the
module.  So in every state reached afterwards, over every sequence of steps, a print or
an alert makes the local print as its only call and no call on the bus. -/
theorem quiet_mode_monotone (env : Env) (msg : AJ_Message) (s0 : State) (out : Outcome)
    (inputs : List Input) (hs0 : s0.consoleSession ≠ 0) (hid : msg.msgId = .DBG_BEGIN_MSGID)
    (hquiet : msg.argY ≠ 0) (hout : AJS_ConsoleMsgHandler env msg s0 = some out) :
    out.state.debugQuiet = true ∧
    (∀ (i : Input) (s s2 : State), s.debugQuiet = true → stepState i s = some s2 →
      s2.debugQuiet = true) ∧
    (∀ (s : State), s.debugQuiet = true → (AJS_ConsoleTerminate s).debugQuiet = true) ∧
    ∀ t ∈ transitions inputs out.state, t.pre.debugQuiet = true ∧ t.post.debugQuiet = true ∧
      ∀ (bus : SignalEnv) (args : List (List Byte)) (alert : Nat),
        AJS_AlertHandler bus args alert t.post = [.printf (decide (alert ≠ 0)) args] ∧
        ∀ c ∈ AJS_AlertHandler bus args alert t.post, onBus c = false := by
  have hq : out.state.debugQuiet = true := by
    rcases AJS_ConsoleMsgHandler_quiet env msg s0 out hout with h | ⟨-, -, -, h⟩
    · have hh : AJS_ConsoleMsgHandler env msg s0 = some (StartDebugger env msg s0) := by
        unfold AJS_ConsoleMsgHandler
        rw [if_neg (by rw [hid]; decide), if_neg hs0, hid]
      rw [hh] at hout
      simp only [Option.some.injEq] at hout
      rw [← hout]
      unfold StartDebugger
      simp only [hquiet, ne_eq, not_false_eq_true, if_true]
    · exact h
  refine ⟨hq, stepState_quiet, fun s h => h, ?_⟩
  intro t ht
  obtain ⟨h1, h2⟩ := debugQuiet_stays_true inputs out.state t hq ht
  refine ⟨h1, h2, fun bus args alert => ?_⟩
  have he := AJS_AlertHandler_quiet bus args alert t.post h2
  refine ⟨he, ?_⟩
  intro c hc
  rw [he] at hc
  simp only [List.mem_singleton] at hc
  rw [hc]
  rfl

/-- C32 at a debug-begin with quiet flag 1 followed by one operation of each kind: all
eight steps are taken and quiet mode is on after each of them. -/
theorem quiet_mode_monotone_witness :
    ∃ out, AJS_ConsoleMsgHandler sampleEnv (debugBeginMsg 1) (sampleState .ENGINE_RUNNING)
        = some out ∧
      ((sampleState .ENGINE_RUNNING).consoleSession ≠ 0 ∧ (debugBeginMsg 1).argY ≠ 0) ∧
      (sampleState .ENGINE_RUNNING).debugQuiet = false ∧
      (transitions laterOperations out.state).length = 8 ∧
      out.state.debugQuiet = true ∧
      ∀ t ∈ transitions laterOperations out.state, t.pre.debugQuiet = true ∧
        t.post.debugQuiet = true ∧
        ∀ (bus : SignalEnv) (args : List (List Byte)) (alert : Nat),
          AJS_AlertHandler bus args alert t.post = [.printf (decide (alert ≠ 0)) args] ∧
          ∀ c ∈ AJS_AlertHandler bus args alert t.post, onBus c = false :=
  have h := quiet_mode_monotone sampleEnv (debugBeginMsg 1) (sampleState .ENGINE_RUNNING) _
    laterOperations (by decide) rfl (by decide) rfl
  ⟨_, rfl, ⟨by decide, by decide⟩, rfl, by decide, h.1, h.2.2.2⟩

end AJS
